import Mathlib

/-!
# rackserver_exporter: status mapping and collection pipeline

A shallow embedding of the Go sources under `collector/` and `redfish/redfishapi/`.

Conventions of the embedding

* Go `string` is `String`; `bytes.Equal([]byte(a), []byte(b))` is `a = b`.
* The status codes `float64(0)` .. `float64(11)` returned by the `parseCommon*` functions are
  the natural numbers `0 .. 11` (all exactly representable); a sample value is the rational
  number denoted by the `float64` that is sent.
* A `(T, error)` result is `Except String T`; a nil pointer or nil slice result is `none` / `[]`.
* Code that writes to the metrics channel, logs, or talks to the Redfish endpoint returns the
  list of events it performs, in program order.  A goroutine started with `go f(...)` is one
  `spawn` event that names its wait group and carries the samples the task writes when it
  runs to its end; the order in which concurrent tasks write is not modelled, so statements
  about samples are about membership and counts.
* Decoding a system starts from the struct that `json.Unmarshal(b, &t)` has filled; the
  vendor block is a JSON value, and a failed type assertion `x.(T)` is a `Failure.panic`.
-/

namespace Rackserver

/-! ## collector/redfish_collector.go : status mapping -/

/-- Embedding of `parseCommonStatusHealth` (redfish_collector.go, lines 128-137). -/
def parseCommonStatusHealth (status : String) : Nat × Bool :=
  if status = "OK" then (1, true)
  else if status = "Warning" then (2, true)
  else if status = "Critical" then (3, true)
  else (0, false)

/-- Embedding of `parseCommonStatusState` (redfish_collector.go, lines 139-167).  The third
literal is spelled as in the source. -/
def parseCommonStatusState (status : String) : Nat × Bool :=
  if status = "" then (0, false)
  else if status = "Enabled" then (1, true)
  else if status = "Disabled" then (2, true)
  else if status = "StandbyOffinline" then (3, true)
  else if status = "StandbySpare" then (4, true)
  else if status = "InTest" then (5, true)
  else if status = "Starting" then (6, true)
  else if status = "Absent" then (7, true)
  else if status = "UnavailableOffline" then (8, true)
  else if status = "Deferring" then (9, true)
  else if status = "Quiesced" then (10, true)
  else if status = "Updating" then (11, true)
  else (0, false)

/-- Embedding of `parseCommonPowerState` (redfish_collector.go, lines 169-180). -/
def parseCommonPowerState (status : String) : Nat × Bool :=
  if status = "On" then (1, true)
  else if status = "Off" then (2, true)
  else if status = "PoweringOn" then (3, true)
  else if status = "PoweringOff" then (4, true)
  else (0, false)

/-- The shape of a result of the three mappings: the rejection `(0, false)`, or a code of at
least 1 with `ok = true`. -/
def StatusResult (r : Nat × Bool) : Prop :=
  r = (0, false) ∨ (r.2 = true ∧ 1 ≤ r.1)

/-- The eleven words of the state vocabulary, in the order of their codes, as the
specification lists them. -/
def stateVocabulary : List String :=
  ["Enabled", "Disabled", "StandbyOffline", "StandbySpare", "InTest", "Starting", "Absent",
   "UnavailableOffline", "Deferring", "Quiesced", "Updating"]

/-! ## Data model

Only the fields the collectors read are kept.  `common.Entity` contributes `ID` and `SKU`
(the collectors read `chassis.SKU` and `system.SKU`, which no struct of `redfishapi` declares
itself) and the client, which is passed explicitly here. -/

/-- The `error` values that flow through the client: a failed request or decode, or the
`common.CollectionError` that `ListReferenced*` builds from the failures of single members. -/
inductive GoError where
  | failure (msg : String)
  | collection (failures : List (String × GoError))

/-- The two fields of `common.Status` that the collectors read. -/
structure Status where
  State : String
  Health : String
deriving DecidableEq

/-- One temperature sensor of a `Thermal` document. -/
structure Temperature where
  Name : String
  MemberID : String
  Status : Status
  ReadingCelsius : ℚ
deriving DecidableEq

/-- One fan of a `Thermal` document. -/
structure Fan where
  Name : String
  MemberID : String
  Status : Status
  Reading : ℚ
deriving DecidableEq

/-- The thermal document of a chassis. -/
structure Thermal where
  Temperatures : List Temperature
  Fans : List Fan
deriving DecidableEq

/-- One power supply of a `Power` document. -/
structure PowerSupply where
  Name : String
  MemberID : String
  SerialNumber : String
  PowerCapacityWatts : ℚ
  LastPowerOutputWatts : ℚ
  Status : Status
deriving DecidableEq

/-- The power document of a chassis. -/
structure Power where
  PowerSupplies : List PowerSupply
deriving DecidableEq

/-- A decoded `redfishapi.Chassis` (chassis.go, lines 145-190); `thermal` and `power` are the
unresolved links set by `UnmarshalJSON`. -/
structure Chassis where
  ID : String
  SKU : String
  Manufacturer : String
  SerialNumber : String
  Status : Status
  thermal : String
  power : String
deriving DecidableEq

/-- A `float32` as far as the processor decode needs it: the rational a finite value denotes,
an infinity, or a NaN. -/
inductive FloatValue where
  | finite (q : ℚ)
  | infinite (negative : Bool)
  | nan
deriving DecidableEq

/-- A decoded `redfishapi.Processor` (processor.go, lines 13-55). -/
structure Processor where
  ID : String
  MaxSpeedMHz : FloatValue
  Model : String
  Status : Status
  TotalCores : Int
  TotalThreads : Int
deriving DecidableEq

/-- A decoded `redfishapi.Drive` (drive.go, lines 11-28). -/
structure Drive where
  Location : String
  Model : String
  CapacityGB : Int
  Status : Status
deriving DecidableEq

/-- A decoded `redfishapi.SmartStorage` (smartstorage.go, lines 13-32); `drives` is the
physical-drives link. -/
structure SmartStorage where
  ID : String
  drives : String
deriving DecidableEq

/-- One device of a simple-storage resource, as `parseDellDrive` reads it; `CapacityBytes`
is an integer byte count. -/
structure Device where
  Name : String
  Model : String
  CapacityBytes : Int
  Status : Status
deriving DecidableEq

/-- A simple-storage resource: the collector reads only its devices. -/
structure SimpleStorage where
  Devices : List Device
deriving DecidableEq

/-- The `redfishapi.ProcessorSummary` of a system (computersystem.go, lines 234-245). -/
structure ProcessorSummary where
  Count : Int
  Status : Status
deriving DecidableEq

/-- The `redfishapi.MemorySummary` of a system (computersystem.go, lines 221-230). -/
structure MemorySummary where
  Status : Status
  TotalSystemMemoryGiB : ℚ
deriving DecidableEq

/-- A decoded `redfishapi.ComputerSystem` (computersystem.go, lines 30-81); `memory`,
`processors`, `simpleStorage` and `smartStorage` are the unresolved links. -/
structure ComputerSystem where
  ID : String
  SKU : String
  Manufacturer : String
  memory : String
  MemorySummary : MemorySummary
  Model : String
  PowerState : String
  ProcessorSummary : ProcessorSummary
  processors : String
  SerialNumber : String
  simpleStorage : String
  smartStorage : String
  Status : Status
  BatteryHealth : String
deriving DecidableEq

/-- The Redfish endpoint as the client sees it during one scrape: for every address, the
outcome of fetching it and decoding the body as a resource of the given kind.  The last field
stands for `ListReferencedSimpleStorages`, whose source is not part of the embedded files. -/
structure Client where
  chassisLink : String
  systemsLink : String
  GetCollection : String → Except GoError (List String)
  GetChassis : String → Except GoError Chassis
  GetThermal : String → Except GoError Thermal
  GetPower : String → Except GoError Power
  GetComputerSystem : String → Except GoError ComputerSystem
  GetProcessor : String → Except GoError Processor
  GetSmartStorage : String → Except GoError SmartStorage
  GetDrive : String → Except GoError Drive
  ListReferencedSimpleStorages : String → List SimpleStorage × Option GoError

/-- One sample sent on the metrics channel: the key under which its descriptor is looked up
(`chassisMetrics[key]`, `systemMetrics[key]`, or the exporter-level gauge name), the value,
and the label values in order. -/
structure Sample where
  key : String
  value : ℚ
  labelValues : List String
deriving DecidableEq

/-- What a sub-collector does, in program order.  `spawn` is `go leaf(..., wg)` on the named
wait group and `wait` is `wg.Wait()` on it. -/
inductive Event where
  | get (uri : String)
  | call (method : String)
  | logError (operation : String)
  | logInfo (message : String)
  | send (s : Sample)
  | spawn (waitGroup : String) (task : List Sample)
  | wait (waitGroup : String)
  | setScrapeStatus (collector : String) (value : ℚ)
deriving DecidableEq

/-- The samples a trace puts on the channel when every leaf task it starts runs to its end:
those sent directly and those written by the leaf tasks.  It bounds from above what
`deliveredSamples` finds on the channel when the trace ends. -/
def samplesOf : List Event → List Sample
  | [] => []
  | Event.send s :: es => s :: samplesOf es
  | Event.spawn _ task :: es => task ++ samplesOf es
  | _ :: es => samplesOf es

/-- The accessor calls recorded in a trace. -/
def callsOf : List Event → List String
  | [] => []
  | Event.call m :: es => m :: callsOf es
  | _ :: es => callsOf es

/-- The client requests recorded in a trace. -/
def requestsOf : List Event → List String
  | [] => []
  | Event.get u :: es => u :: requestsOf es
  | _ :: es => requestsOf es

/-- The operations for which a trace logs an error. -/
def errorsOf : List Event → List String
  | [] => []
  | Event.logError op :: es => op :: errorsOf es
  | _ :: es => errorsOf es

/-- Whether every task started in a trace is joined later in that trace: each `spawn` on a
wait group is followed by a `wait` on it. -/
def allJoined : List Event → Bool
  | [] => true
  | Event.spawn w _ :: es => es.contains (Event.wait w) && allJoined es
  | _ :: es => allJoined es

/-- The samples the collecting goroutine sends itself, in program order: each `ch <-` has
completed before the next statement runs. -/
def sentOf : List Event → List Sample
  | [] => []
  | Event.send s :: es => s :: sentOf es
  | _ :: es => sentOf es

/-- The samples that are on the channel when a trace ends, whatever the scheduling: those sent
directly, and those of a leaf task only when a later `wait` joins its wait group.  A task
that is not joined may not have run when the trace ends. -/
def deliveredSamples : List Event → List Sample
  | [] => []
  | Event.send s :: es => s :: deliveredSamples es
  | Event.spawn w task :: es =>
    if es.contains (Event.wait w) then task ++ deliveredSamples es else deliveredSamples es
  | _ :: es => deliveredSamples es

/-! ## redfish/redfishapi : following links -/

/-- The result of a Go function returning `(T, error)` where both can be set. -/
abbrev Result (α : Type) := α × Option GoError

/-- The loop shared by the `ListReferenced*` functions: fetch every member link, keep the
members that decode, and record the failure of those that do not
(`collectionError.Failures[link] = err`). -/
def fetchMembers {α : Type} (getOne : String → Except GoError α) :
    List String → List α × List (String × GoError)
  | [] => ([], [])
  | l :: ls =>
    match getOne l with
    | Except.error e => ((fetchMembers getOne ls).1, (l, e) :: (fetchMembers getOne ls).2)
    | Except.ok a => (a :: (fetchMembers getOne ls).1, (fetchMembers getOne ls).2)

/-- The tail of the `ListReferenced*` functions: `result, nil` when no member failed
(`collectionError.Empty()`), `result, collectionError` otherwise. -/
def collectionResult {α : Type} (r : List α × List (String × GoError)) : Result (List α) :=
  if r.2.isEmpty then (r.1, none) else (r.1, some (GoError.collection r.2))

/-- Embedding of `ListReferencedChassis` (chassis.go, lines 263-285). -/
def ListReferencedChassis (c : Client) (link : String) : Result (List Chassis) × List Event :=
  match c.GetCollection link with
  | Except.error e => (([], some e), [Event.get link])
  | Except.ok links =>
    (collectionResult (fetchMembers c.GetChassis links), Event.get link :: links.map Event.get)

/-- Embedding of `ListReferencedComputerSystems` (computersystem.go, lines 196-218). -/
def ListReferencedComputerSystems (c : Client) (link : String) :
    Result (List ComputerSystem) × List Event :=
  match c.GetCollection link with
  | Except.error e => (([], some e), [Event.get link])
  | Except.ok links =>
    (collectionResult (fetchMembers c.GetComputerSystem links),
      Event.get link :: links.map Event.get)

/-- Embedding of `ListReferencedProcessors` (processor.go, lines 115-137). -/
def ListReferencedProcessors (c : Client) (link : String) :
    Result (List Processor) × List Event :=
  match c.GetCollection link with
  | Except.error e => (([], some e), [Event.get link])
  | Except.ok links =>
    (collectionResult (fetchMembers c.GetProcessor links), Event.get link :: links.map Event.get)

/-- Embedding of `ListReferencedSmartStorages` (smartstorage.go, lines 83-111). -/
def ListReferencedSmartStorages (c : Client) (link : String) :
    Result (List SmartStorage) × List Event :=
  if link = "" then (([], none), [])
  else
    match c.GetCollection (link ++ "ArrayControllers/") with
    | Except.error e => (([], some e), [Event.get (link ++ "ArrayControllers/")])
    | Except.ok links =>
      (collectionResult (fetchMembers c.GetSmartStorage links),
        Event.get (link ++ "ArrayControllers/") :: links.map Event.get)

/-- Embedding of `ListReferencedDrives` (drive.go, lines 67-93). -/
def ListReferencedDrives (c : Client) (link : String) : Result (List Drive) × List Event :=
  if link = "" then (([], none), [])
  else
    match c.GetCollection link with
    | Except.error e => (([], some e), [Event.get link])
    | Except.ok links =>
      (collectionResult (fetchMembers c.GetDrive links), Event.get link :: links.map Event.get)

/-- Embedding of `Chassis.Thermal` (chassis.go, lines 288-299). -/
def Chassis.Thermal (c : Client) (chassis : Chassis) : Result (Option Thermal) × List Event :=
  if chassis.thermal = "" then ((none, none), [])
  else
    match c.GetThermal chassis.thermal with
    | Except.error e => ((none, some e), [Event.get chassis.thermal])
    | Except.ok thermal => ((some thermal, none), [Event.get chassis.thermal])

/-- Embedding of `Chassis.Power` (chassis.go, lines 302-313). -/
def Chassis.Power (c : Client) (chassis : Chassis) : Result (Option Power) × List Event :=
  if chassis.power = "" then ((none, none), [])
  else
    match c.GetPower chassis.power with
    | Except.error e => ((none, some e), [Event.get chassis.power])
    | Except.ok power => ((some power, none), [Event.get chassis.power])

/-- Embedding of `Service.Chassis` (serviceroot.go, lines 206-208). -/
def Service.Chassis (c : Client) : Result (List Chassis) × List Event :=
  ListReferencedChassis c c.chassisLink

/-- Embedding of `Service.Systems` (serviceroot.go, lines 202-204). -/
def Service.Systems (c : Client) : Result (List ComputerSystem) × List Event :=
  ListReferencedComputerSystems c c.systemsLink

/-- Embedding of `ComputerSystem.Processors` (computersystem.go, lines 248-250). -/
def ComputerSystem.Processors (c : Client) (computersystem : ComputerSystem) :
    Result (List Processor) × List Event :=
  ListReferencedProcessors c computersystem.processors

/-- Embedding of `ComputerSystem.SimpleStorages` (computersystem.go, lines 253-255).  The
requests made by the callee are not recorded: its source is not among the embedded files. -/
def ComputerSystem.SimpleStorages (c : Client) (computersystem : ComputerSystem) :
    Result (List SimpleStorage) × List Event :=
  (c.ListReferencedSimpleStorages computersystem.simpleStorage, [])

/-- Embedding of `ComputerSystem.SmartStorages` (computersystem.go, lines 258-260). -/
def ComputerSystem.SmartStorages (c : Client) (computersystem : ComputerSystem) :
    Result (List SmartStorage) × List Event :=
  ListReferencedSmartStorages c computersystem.smartStorage

/-- Embedding of `SmartStorage.Drives` (smartstorage.go, lines 58-60). -/
def SmartStorage.Drives (c : Client) (smartstorage : SmartStorage) :
    Result (List Drive) × List Event :=
  ListReferencedDrives c smartstorage.drives

/-! ## Manufacturer token and serial number -/

/-- Go `strings.Split(s, sep)` for a one-character separator, on the characters of `s`. -/
def splitChars (sep : Char) : List Char → List (List Char)
  | [] => [[]]
  | c :: cs =>
    if c = sep then [] :: splitChars sep cs
    else
      match splitChars sep cs with
      | [] => [[c]]
      | t :: ts => (c :: t) :: ts

/-- Go `strings.Split(s, " ")`. -/
def stringsSplit (s : String) : List String :=
  (splitChars ' ' s.data).map String.mk

/-- The `systemManufacturer` of both collectors (chassis_collector.go, lines 175-179;
system_collector.go, lines 224-228): `"Unknown"`, replaced by `strings.Split(m, " ")[0]` when
the manufacturer is not empty. -/
def systemManufacturer (manufacturer : String) : String :=
  if manufacturer ≠ "" then (stringsSplit manufacturer).headD "" else "Unknown"

/-- The `SerialNumber` of both collectors (chassis_collector.go, lines 169-173;
system_collector.go, lines 216-220): the serial number, replaced by the SKU when that is not
empty. -/
def serialNumber (SerialNumber Sku : String) : String :=
  if Sku ≠ "" then Sku else SerialNumber

/-! ## redfish/redfishapi/computersystem.go : decoding a system -/

/-- A JSON value, as `encoding/json` hands it over in an `interface{}`: an object becomes a
`map[string]interface{}`, an array a `[]interface{}`, a string a `string`. -/
inductive JSON where
  | null
  | bool (b : Bool)
  | number (q : ℚ)
  | string (s : String)
  | array (items : List JSON)
  | object (members : List (String × JSON))

/-- The entries of the Go map decoded from the members of a JSON object: one entry per key,
carrying the value of the last member with that key. -/
def JSON.entries : List (String × JSON) → List (String × JSON)
  | [] => []
  | kv :: rest =>
    if rest.any (fun kv' => kv'.1 = kv.1) then JSON.entries rest
    else kv :: JSON.entries rest

/-- The map index expression `v, ok := m[k]` on the Go map decoded from the members of a
JSON object. -/
def JSON.lookup (members : List (String × JSON)) (k : String) : Option JSON :=
  ((JSON.entries members).find? (fun kv => kv.1 = k)).map Prod.snd

/-- The map filled by `json.Unmarshal(raw, &jsonMap)` with the error ignored: the members of
an object, and nothing for any other value. -/
def JSON.members : JSON → List (String × JSON)
  | JSON.object members => members
  | _ => []

/-- How a decode can fail: with the error it returns, or with the run-time panic of a failed
type assertion `x.(T)`. -/
inductive Failure where
  | error (e : GoError)
  | panic (assertion : String)

/-- The anonymous struct `t` of `ComputerSystem.UnmarshalJSON` after
`json.Unmarshal(b, &t)` (computersystem.go, lines 92-100): the exported fields of the system,
the three `common.Link` fields and `links.Processors`.  `Oem` is `none` for the nil
`json.RawMessage` of a document without an `Oem` member.  The unexported fields of the
embedded struct are not set by `json.Unmarshal` and are empty at this point. -/
structure ComputerSystemFields where
  ID : String
  SKU : String
  Manufacturer : String
  MemorySummary : MemorySummary
  Model : String
  PowerState : String
  ProcessorSummary : ProcessorSummary
  SerialNumber : String
  Status : Status
  BatteryHealth : String
  Oem : Option JSON
  Processors : String
  Memory : String
  SimpleStorage : String
  LinksProcessors : String

/-- Lines 126-134 of `ComputerSystem.UnmarshalJSON`: the loop over the entries of
`Oem.Hp.links`. -/
def ComputerSystem.hpLinks (computersystem : ComputerSystem) :
    List (String × JSON) → Except Failure ComputerSystem
  | [] => Except.ok computersystem
  | (k, v) :: rest =>
    match v with
    | JSON.object vm =>
      match JSON.lookup vm "href" with
      | some link =>
        if k = "SmartStorage" then
          match link with
          | JSON.string s =>
            ComputerSystem.hpLinks { computersystem with smartStorage := s } rest
          | _ => Except.error (Failure.panic "link.(string)")
        else if k = "Memory" then
          match link with
          | JSON.string s => ComputerSystem.hpLinks { computersystem with memory := s } rest
          | _ => Except.error (Failure.panic "link.(string)")
        else ComputerSystem.hpLinks computersystem rest
      | none => ComputerSystem.hpLinks computersystem rest
    | _ => Except.error (Failure.panic "v.(map[string]interface{})")

/-- Lines 138-142 of `ComputerSystem.UnmarshalJSON`: the loop over the items of
`Oem.Hp.Battery`. -/
def ComputerSystem.hpBattery (computersystem : ComputerSystem) :
    List JSON → Except Failure ComputerSystem
  | [] => Except.ok computersystem
  | item :: rest =>
    match item with
    | JSON.object im =>
      match JSON.lookup im "Condition" with
      | some (JSON.string s) =>
        ComputerSystem.hpBattery { computersystem with BatteryHealth := s } rest
      | some _ => Except.error (Failure.panic "battery_health.(string)")
      | none => ComputerSystem.hpBattery computersystem rest
    | _ => Except.error (Failure.panic "item.(map[string]interface{})")

/-- Lines 120-145 of `ComputerSystem.UnmarshalJSON`: the inspection of the `Oem` block. -/
def ComputerSystem.oemBlock (computersystem : ComputerSystem) (oem : Option JSON) :
    Except Failure ComputerSystem :=
  match oem with
  | none => Except.ok computersystem
  | some raw =>
    match JSON.lookup raw.members "Hp" with
    | none => Except.ok computersystem
    | some hpMap =>
      match hpMap with
      | JSON.object hm =>
        (match JSON.lookup hm "links" with
          | none => Except.ok computersystem
          | some (JSON.object lm) => ComputerSystem.hpLinks computersystem (JSON.entries lm)
          | some _ => Except.error (Failure.panic "links.(map[string]interface{})")) >>=
        fun linked =>
          match JSON.lookup hm "Battery" with
          | none => Except.ok linked
          | some (JSON.array items) => ComputerSystem.hpBattery linked items
          | some _ => Except.error (Failure.panic "battery.([]interface{})")
      | _ => Except.error (Failure.panic "hpMap.(map[string]interface{})")

/-- Embedding of `ComputerSystem.UnmarshalJSON` (computersystem.go, lines 84-155), from the
outcome of `json.Unmarshal(b, &t)` on. -/
def ComputerSystem.UnmarshalJSON (unmarshal : Except GoError ComputerSystemFields) :
    Except Failure ComputerSystem :=
  match unmarshal with
  | Except.error err => Except.error (Failure.error err)
  | Except.ok t =>
    ComputerSystem.oemBlock
        { ID := t.ID, SKU := t.SKU,
          Manufacturer :=
            if t.Manufacturer ≠ "" then (stringsSplit t.Manufacturer).headD "" else "Unknown",
          memory := t.Memory, MemorySummary := t.MemorySummary, Model := t.Model,
          PowerState := t.PowerState, ProcessorSummary := t.ProcessorSummary,
          processors := t.Processors, SerialNumber := t.SerialNumber,
          simpleStorage := t.SimpleStorage, smartStorage := "", Status := t.Status,
          BatteryHealth := t.BatteryHealth }
        t.Oem >>=
      fun computersystem =>
        Except.ok
          (if computersystem.processors = "" then
            { computersystem with processors := t.LinksProcessors }
          else computersystem)

/-! ## redfish/redfishapi/processor.go : decoding a processor -/

/-- A processor document as far as `Processor.UnmarshalJSON` tells documents apart: the
outcome of decoding every member other than `MaxSpeedMHz` into the struct, and the
`MaxSpeedMHz` member itself if there is one. -/
structure ProcessorDocument where
  others : Except GoError Processor
  MaxSpeedMHz : Option JSON

/-- The call `json.Unmarshal(b, &t)` of `Processor.UnmarshalJSON` (processor.go, line 65),
where `MaxSpeedMHz` is a `float32`: a JSON number is stored, an absent or null member leaves
the zero value, any other value is a type error.  Rounding to `float32` and its range are not
modelled. -/
def unmarshalProcessor (doc : ProcessorDocument) : Except GoError Processor :=
  match doc.others with
  | Except.error err => Except.error err
  | Except.ok t =>
    match doc.MaxSpeedMHz with
    | none => Except.ok { t with MaxSpeedMHz := FloatValue.finite 0 }
    | some JSON.null => Except.ok { t with MaxSpeedMHz := FloatValue.finite 0 }
    | some (JSON.number q) => Except.ok { t with MaxSpeedMHz := FloatValue.finite q }
    | some _ =>
      Except.error (GoError.failure "json: cannot unmarshal into Go struct field of type float32")

/-- The call `json.Unmarshal(b, &t2)` of `Processor.UnmarshalJSON` (processor.go, lines
68-72), where the field `MaxSpeedMHz string` of `t2` hides the `float32` field of the
embedded struct: a JSON string is stored in it, an absent or null member leaves it empty, any
other value is a type error.  The embedded struct keeps the zero `MaxSpeedMHz`. -/
def unmarshalProcessorString (doc : ProcessorDocument) : Except GoError (Processor × String) :=
  match doc.others with
  | Except.error err => Except.error err
  | Except.ok t =>
    match doc.MaxSpeedMHz with
    | none => Except.ok ({ t with MaxSpeedMHz := FloatValue.finite 0 }, "")
    | some JSON.null => Except.ok ({ t with MaxSpeedMHz := FloatValue.finite 0 }, "")
    | some (JSON.string s) => Except.ok ({ t with MaxSpeedMHz := FloatValue.finite 0 }, s)
    | some _ =>
      Except.error (GoError.failure "json: cannot unmarshal into Go struct field of type string")

/-- Embedding of `Processor.UnmarshalJSON` (processor.go, lines 58-94).  `parseFloat s` is
`strconv.ParseFloat(s, 32)`: the value and the error it returns. -/
def Processor.UnmarshalJSON (parseFloat : String → FloatValue × Option GoError)
    (doc : ProcessorDocument) : Except GoError Processor :=
  match unmarshalProcessor doc with
  | Except.ok t => Except.ok t
  | Except.error err =>
    match unmarshalProcessorString doc with
    | Except.error _ => Except.error err
    | Except.ok (t, MaxSpeedMHz) =>
      if MaxSpeedMHz ≠ "" then
        match parseFloat MaxSpeedMHz with
        | (mhz, some _) => Except.ok { t with MaxSpeedMHz := mhz }
        | (_, none) => Except.ok t
      else Except.ok t

/-! ## config.go and main.go -/

/-- The `HostConfig` struct (config.go, lines 20-24). -/
structure HostConfig where
  Username : String
  Password : String
  BasicAuth : String
deriving DecidableEq

/-- The `Config` struct (config.go, lines 11-13); the map of groups is an association
list. -/
structure Config where
  Groups : List (String × HostConfig)

/-- The `SafeConfig` struct (config.go, lines 15-18); `C` is never nil, it is initialised in
main.go and replaced by `ReloadConfig`. -/
structure SafeConfig where
  C : Config

/-- Embedding of `SafeConfig.HostConfigForGroup` (config.go, lines 46-53): the result, the
error, and the configuration afterwards. -/
def SafeConfig.HostConfigForGroup (sc : SafeConfig) (group : String) :
    (HostConfig × Option GoError) × SafeConfig :=
  match sc.C.Groups.lookup group with
  | some hostConfig => ((hostConfig, none), sc)
  | none =>
    (({ Username := "", Password := "", BasicAuth := "" },
      some (GoError.failure ("no credentials found for group " ++ group))), sc)

/-! ## collector/chassis_collector.go -/

/-- The guarded emission used for every status metric:
`if v, ok := parse(x); ok { ch <- MustNewConstMetric(metrics[key].desc, GaugeValue, v, labels...) }`,
where `r` is the result of the parse call. -/
def statusSample (r : Nat × Bool) (key : String) (labels : List String) : List Sample :=
  if r.2 then [{ key := key, value := (r.1 : ℚ), labelValues := labels }] else []

/-- Embedding of `parseChassisTemperature` (chassis_collector.go, lines 241-258): the samples
the task writes. -/
def parseChassisTemperature (SerialNumber systemManufacturer chassisID : String)
    (chassisTemperature : Temperature) : List Sample :=
  let chassisTemperatureLabelvalues :=
    [SerialNumber, systemManufacturer, "temperature", chassisID,
      chassisTemperature.Name, chassisTemperature.MemberID]
  statusSample (parseCommonStatusState chassisTemperature.Status.State)
      "chassis_temperature_sensor_state" chassisTemperatureLabelvalues
    ++ [{ key := "chassis_temperature_celsius", value := chassisTemperature.ReadingCelsius,
          labelValues := chassisTemperatureLabelvalues }]

/-- Embedding of `parseChassisFan` (chassis_collector.go, lines 260-280). -/
def parseChassisFan (SerialNumber systemManufacturer chassisID : String) (chassisFan : Fan) :
    List Sample :=
  let chassisFanLabelvalues :=
    [SerialNumber, systemManufacturer, "fan", chassisID, chassisFan.Name, chassisFan.MemberID]
  statusSample (parseCommonStatusHealth chassisFan.Status.Health)
      "chassis_fan_health" chassisFanLabelvalues
    ++ statusSample (parseCommonStatusState chassisFan.Status.State)
      "chassis_fan_state" chassisFanLabelvalues
    ++ [{ key := "chassis_fan_rpm", value := chassisFan.Reading,
          labelValues := chassisFanLabelvalues }]

/-- Embedding of `parseChassisPowerInfoPowerSupply` (chassis_collector.go, lines 282-305). -/
def parseChassisPowerInfoPowerSupply (SerialNumber systemManufacturer chassisID : String)
    (chassisPowerInfoPowerSupply : PowerSupply) : List Sample :=
  let chassisPowerInfoPowerSupplyID :=
    if chassisPowerInfoPowerSupply.MemberID = "" then chassisPowerInfoPowerSupply.SerialNumber
    else chassisPowerInfoPowerSupply.MemberID
  let chassisPowerSupplyLabelvalues :=
    [SerialNumber, systemManufacturer, "power_supply", chassisID,
      chassisPowerInfoPowerSupply.Name, chassisPowerInfoPowerSupplyID]
  statusSample (parseCommonStatusState chassisPowerInfoPowerSupply.Status.State)
      "chassis_power_powersupply_state" chassisPowerSupplyLabelvalues
    ++ statusSample (parseCommonStatusHealth chassisPowerInfoPowerSupply.Status.Health)
      "chassis_power_powersupply_health_status" chassisPowerSupplyLabelvalues
    ++ [{ key := "chassis_power_powersupply_last_power_output_watts",
          value := chassisPowerInfoPowerSupply.LastPowerOutputWatts,
          labelValues := chassisPowerSupplyLabelvalues },
        { key := "chassis_power_powersupply_power_capacity_watts",
          value := chassisPowerInfoPowerSupply.PowerCapacityWatts,
          labelValues := chassisPowerSupplyLabelvalues }]

/-- Lines 187-192 of `ChassisCollector.Collect`: the health and state samples of the chassis
itself, sent by the collecting goroutine. -/
def ChassisCollector.identitySamples (chassis : Chassis) : List Sample :=
  let ChassisLabelValues :=
    [serialNumber chassis.SerialNumber chassis.SKU, systemManufacturer chassis.Manufacturer,
      "chassis", chassis.ID]
  statusSample (parseCommonStatusHealth chassis.Status.Health) "chassis_health"
      ChassisLabelValues
    ++ statusSample (parseCommonStatusState chassis.Status.State) "chassis_state"
      ChassisLabelValues

/-- Lines 194-216 of `ChassisCollector.Collect`: the thermal branch.  One task per temperature
sensor (wait group `wg`) and one per fan (wait group `wg2`) is started. -/
def ChassisCollector.thermalBranch (c : Client) (chassis : Chassis) : List Event :=
  let SerialNumber := serialNumber chassis.SerialNumber chassis.SKU
  let mfr := systemManufacturer chassis.Manufacturer
  Event.call "chassis.Thermal()" :: (chassis.Thermal c).2
    ++ (match (chassis.Thermal c).1 with
        | (_, some _) => [Event.logError "chassis.Thermal()"]
        | (none, none) => [Event.logInfo "no thermal data found"]
        | (some chassisThermal, none) =>
          chassisThermal.Temperatures.map
              (fun t => Event.spawn "wg" (parseChassisTemperature SerialNumber mfr chassis.ID t))
            ++ chassisThermal.Fans.map
              (fun f => Event.spawn "wg2" (parseChassisFan SerialNumber mfr chassis.ID f)))

/-- Lines 219-232 of `ChassisCollector.Collect`: the power branch.  One task per power supply
(wait group `wg5`) is started. -/
def ChassisCollector.powerBranch (c : Client) (chassis : Chassis) : List Event :=
  let SerialNumber := serialNumber chassis.SerialNumber chassis.SKU
  let mfr := systemManufacturer chassis.Manufacturer
  Event.call "chassis.Power()" :: (chassis.Power c).2
    ++ (match (chassis.Power c).1 with
        | (_, some _) => [Event.logError "chassis.Power()"]
        | (none, none) => [Event.logInfo "no power data found"]
        | (some chassisPowerInfo, none) =>
          chassisPowerInfo.PowerSupplies.map
            (fun ps => Event.spawn "wg5"
              (parseChassisPowerInfoPowerSupply SerialNumber mfr chassis.ID ps)))

/-- The body of the loop over the chassis in `ChassisCollector.Collect`
(chassis_collector.go, lines 165-235). -/
def ChassisCollector.collectChassis (c : Client) (chassis : Chassis) : List Event :=
  Event.logInfo "collector scrape started"
    :: (ChassisCollector.identitySamples chassis).map Event.send
    ++ ChassisCollector.thermalBranch c chassis
    ++ ChassisCollector.powerBranch c chassis
    ++ [Event.logInfo "collector scrape completed"]

/-- Embedding of `ChassisCollector.Collect` (chassis_collector.go, lines 156-239). -/
def ChassisCollector.Collect (c : Client) : List Event :=
  Event.call "service.Chassis()" :: (Service.Chassis c).2
    ++ (match (Service.Chassis c).1 with
        | (_, some _) => [Event.logError "service.Chassis()"]
        | (chassises, none) => chassises.flatMap (ChassisCollector.collectChassis c))
    ++ [Event.setScrapeStatus "chassis" 1]

/-! ## collector/system_collector.go -/

/-- Embedding of `parsePorcessor` (system_collector.go, lines 342-370). -/
def parsePorcessor (SerialNumber : String) (processor : Processor) : List Sample :=
  let systemProcessorLabelValues := [SerialNumber, "processor", processor.ID, processor.Model]
  statusSample (parseCommonStatusState processor.Status.State)
      "system_processor_state" systemProcessorLabelValues
    ++ statusSample (parseCommonStatusHealth processor.Status.Health)
      "system_processor_health_status" systemProcessorLabelValues
    ++ [{ key := "system_processor_total_threads", value := (processor.TotalThreads : ℚ),
          labelValues := systemProcessorLabelValues },
        { key := "system_processor_total_cores", value := (processor.TotalCores : ℚ),
          labelValues := systemProcessorLabelValues }]

/-- Embedding of `parseHpDrive` (system_collector.go, lines 372-397). -/
def parseHpDrive (SerialNumber : String) (drive : Drive) : List Sample :=
  let systemdriveLabelValues := [SerialNumber, "drive", drive.Location, drive.Model]
  statusSample (parseCommonStatusHealth drive.Status.Health)
      "system_storage_drive_health_state" systemdriveLabelValues
    ++ [{ key := "system_storage_drive_capacity", value := (drive.CapacityGB : ℚ),
          labelValues := systemdriveLabelValues }]

/-- Embedding of `parseDellDrive` (system_collector.go, lines 400-425); `/` on Go integers
truncates. -/
def parseDellDrive (SerialNumber : String) (device : Device) : List Sample :=
  let driveCapacityGB := (device.CapacityBytes.tdiv 1024).tdiv 1024
  let systemdriveLabelValues := [SerialNumber, "drive", device.Name, device.Model]
  statusSample (parseCommonStatusHealth device.Status.Health)
      "system_storage_drive_health_state" systemdriveLabelValues
    ++ [{ key := "system_storage_drive_capacity", value := (driveCapacityGB : ℚ),
          labelValues := systemdriveLabelValues }]

/-- Lines 245-274 of `SystemCollector.Collect`: the samples of the system itself and of its
processor and memory summaries, sent by the collecting goroutine. -/
def SystemCollector.identitySamples (system : ComputerSystem) : List Sample :=
  let systemLabelValues :=
    [serialNumber system.SerialNumber system.SKU, systemManufacturer system.Manufacturer,
      "system", system.ID, system.Model]
  statusSample (parseCommonStatusState system.Status.State) "system_state" systemLabelValues
    ++ statusSample (parseCommonStatusHealth system.Status.Health) "system_health_status"
      systemLabelValues
    ++ statusSample (parseCommonPowerState system.PowerState) "system_power_state"
      systemLabelValues
    ++ statusSample (parseCommonStatusState system.ProcessorSummary.Status.State)
      "system_processor_summary_state" systemLabelValues
    ++ statusSample (parseCommonStatusHealth system.ProcessorSummary.Status.Health)
      "system_processor_summary_health_status" systemLabelValues
    ++ [Sample.mk "system_processor_summary_count" (system.ProcessorSummary.Count : ℚ)
          systemLabelValues]
    ++ statusSample (parseCommonStatusState system.MemorySummary.Status.State)
      "system_memory_summary_state" systemLabelValues
    ++ statusSample (parseCommonStatusHealth system.MemorySummary.Status.Health)
      "system_memory_summary_health_status" systemLabelValues
    ++ [Sample.mk "system_memory_summary_size" system.MemorySummary.TotalSystemMemoryGiB
          systemLabelValues]

/-- Lines 277-290 of `SystemCollector.Collect`: the processor branch.  One task per processor
(wait group `wg2`) is started when `system.Processors()` returns no error and a non-nil
slice. -/
def SystemCollector.processorBranch (c : Client) (system : ComputerSystem) : List Event :=
  let SerialNumber := serialNumber system.SerialNumber system.SKU
  Event.call "system.Processors()" :: (system.Processors c).2
    ++ (match (system.Processors c).1 with
        | (_, some _) => [Event.logError "system.Processors()"]
        | ([], none) => [Event.logInfo "no processor data found"]
        | (processors, none) =>
          processors.map (fun p => Event.spawn "wg2" (parsePorcessor SerialNumber p)))

/-- Lines 300-313 of `SystemCollector.Collect`: the body of the loop over the smart-storage
controllers.  One task per drive (wait group `wg4`) is started. -/
def SystemCollector.smartStorageDrives (c : Client) (SerialNumber : String)
    (storage : SmartStorage) : List Event :=
  Event.call "storage.Drives()" :: (storage.Drives c).2
    ++ (match (storage.Drives c).1 with
        | (_, some _) => [Event.logError "system.Drives()"]
        | ([], none) => [Event.logInfo "no drive data found"]
        | (drives, none) =>
          drives.map (fun d => Event.spawn "wg4" (parseHpDrive SerialNumber d)))

/-- Lines 322-330 of `SystemCollector.Collect`: the body of the loop over the simple-storage
resources.  One task per device (wait group `wg4`) is started. -/
def SystemCollector.simpleStorageDevices (SerialNumber : String) (item : SimpleStorage) :
    List Event :=
  item.Devices.map (fun d => Event.spawn "wg4" (parseDellDrive SerialNumber d))

/-- Lines 293-332 of `SystemCollector.Collect`: the storage branch, selected by the
manufacturer token. -/
def SystemCollector.storageBranch (c : Client) (system : ComputerSystem) : List Event :=
  let SerialNumber := serialNumber system.SerialNumber system.SKU
  if systemManufacturer system.Manufacturer = "HPE" then
    Event.call "system.SmartStorages()" :: (system.SmartStorages c).2
      ++ (match (system.SmartStorages c).1 with
          | (_, some _) => [Event.logError "system.Storage()"]
          | ([], none) => [Event.logInfo "no storage data found"]
          | (hpStorages, none) =>
            hpStorages.flatMap (SystemCollector.smartStorageDrives c SerialNumber))
  else if systemManufacturer system.Manufacturer = "Dell" then
    Event.call "system.SimpleStorages()" :: (system.SimpleStorages c).2
      ++ (match (system.SimpleStorages c).1 with
          | (_, some _) => [Event.logError "system.Storage()"]
          | ([], none) => [Event.logInfo "no storage data found"]
          | (dellStorages, none) =>
            dellStorages.flatMap (SystemCollector.simpleStorageDevices SerialNumber))
  else []

/-- The body of the loop over the systems in `SystemCollector.Collect`
(system_collector.go, lines 208-336). -/
def SystemCollector.collectSystem (c : Client) (system : ComputerSystem) : List Event :=
  Event.logInfo "collector scrape started"
    :: (SystemCollector.identitySamples system).map Event.send
    ++ SystemCollector.processorBranch c system
    ++ SystemCollector.storageBranch c system
    ++ [Event.logInfo "collector scrape completed"]

/-- Embedding of `SystemCollector.Collect` (system_collector.go, lines 199-340). -/
def SystemCollector.Collect (c : Client) : List Event :=
  Event.call "service.Systems()" :: (Service.Systems c).2
    ++ (match (Service.Systems c).1 with
        | (_, some _) => [Event.logError "service.Systems()"]
        | (systems, none) =>
          systems.flatMap (SystemCollector.collectSystem c)
            ++ [Event.setScrapeStatus "system" 1])

/-! ## collector/redfish_collector.go : the orchestrator -/

/-- The `redfish.ClientConfig` built by `newRedfishClient`. -/
structure ClientConfig where
  Endpoint : String
  Username : String
  Password : String
  Insecure : Bool
  BasicAuth : Bool
deriving DecidableEq

/-- Embedding of `newRedfishClient` (redfish_collector.go, lines 110-126); `connect` stands
for `redfish.Connect`. -/
def newRedfishClient (connect : ClientConfig → Except GoError Client)
    (host username password : String) (basicauth : Bool) : Except GoError Client :=
  connect { Endpoint := "https://" ++ host, Username := username, Password := password,
            Insecure := true, BasicAuth := basicauth }

/-- The two sub-collectors that `NewRedfishCollector` registers, each holding the client. -/
inductive SubCollector where
  | chassis (redfishClient : Client)
  | system (redfishClient : Client)

/-- The `Collect` method of a registered sub-collector. -/
def SubCollector.Collect : SubCollector → List Event
  | SubCollector.chassis c => ChassisCollector.Collect c
  | SubCollector.system c => SystemCollector.Collect c

/-- The `RedfishCollector` struct (redfish_collector.go, lines 36-40): a nil client is `none`,
the nil map of collectors is the empty list. -/
structure RedfishCollector where
  redfishClient : Option Client
  collectors : List (String × SubCollector)

/-- Embedding of `NewRedfishCollector` (redfish_collector.go, lines 43-75). -/
def NewRedfishCollector (connect : ClientConfig → Except GoError Client)
    (host username password basicauth : String) : RedfishCollector :=
  let BasicAuth := if basicauth ≠ "" then true else false
  match newRedfishClient connect host username password BasicAuth with
  | Except.error _ => { redfishClient := none, collectors := [] }
  | Except.ok redfishClient =>
    { redfishClient := some redfishClient,
      collectors := [("chassis", SubCollector.chassis redfishClient),
                     ("system", SubCollector.system redfishClient)] }

/-- What the orchestrator does during one scrape, in program order.  `spawnCollector` starts
the goroutine that runs `collector.Collect(ch)` and then calls `wg.Done()`; `wait` is
`wg.Wait()` on that group, which returns once every such goroutine is done. -/
inductive ScrapeEvent where
  | setUp (value : ℚ)
  | spawnCollector (name : String) (trace : List Event)
  | send (s : Sample)
  | wait
  | logout

/-- Embedding of `RedfishCollector.Collect` (redfish_collector.go, lines 86-108).  `elapsed`
is `time.Since(scrapeTime).Seconds()`.  The two deferred calls run when the function returns,
last registered first: `wg.Wait()`, then `Logout()`. -/
def RedfishCollector.Collect (r : RedfishCollector) (elapsed : ℚ) : List ScrapeEvent :=
  match r.redfishClient with
  | some _ =>
    ScrapeEvent.setUp 1
      :: r.collectors.map (fun nc => ScrapeEvent.spawnCollector nc.1 nc.2.Collect)
      ++ [ScrapeEvent.send (Sample.mk "up" 1 []),
          ScrapeEvent.send (Sample.mk "collector_duration_seconds" elapsed []),
          ScrapeEvent.wait, ScrapeEvent.logout]
  | none =>
    [ScrapeEvent.setUp 0,
     ScrapeEvent.send (Sample.mk "up" 0 []),
     ScrapeEvent.send (Sample.mk "collector_duration_seconds" elapsed [])]

/-- The samples the orchestrator itself sends on the channel. -/
def ownSamples : List ScrapeEvent → List Sample
  | [] => []
  | ScrapeEvent.send s :: es => s :: ownSamples es
  | _ :: es => ownSamples es

/-- The samples the sub-collectors started by the orchestrator put on the channel. -/
def subCollectorSamples : List ScrapeEvent → List Sample
  | [] => []
  | ScrapeEvent.spawnCollector _ trace :: es => samplesOf trace ++ subCollectorSamples es
  | _ :: es => subCollectorSamples es

/-- The number of `Logout` calls of a scrape. -/
def logoutCount : List ScrapeEvent → Nat
  | [] => 0
  | ScrapeEvent.logout :: es => logoutCount es + 1
  | _ :: es => logoutCount es

/-! ## main.go : the metrics handler -/

/-- How one request to the `/redfish` handler ends. -/
inductive HandlerOutcome where
  | httpError (message : String) (code : Nat)
  | credentialsError (err : GoError)
  | nilDereference
  | serve (collector : RedfishCollector)

/-- Embedding of the handler returned by `metricsHandler` (main.go, lines 40-85).  `target` is
`r.URL.Query().Get("target")` and `group` the values of the query parameter `group`, which
is present exactly when it has a value.  `hostConfig` is a nil pointer until
`HostConfigForGroup` is called, and reading `hostConfig.Username` through the nil pointer is
a run-time panic. -/
def metricsHandler (sc : SafeConfig) (connect : ClientConfig → Except GoError Client)
    (target : String) (group : List String) : HandlerOutcome :=
  if target = "" then HandlerOutcome.httpError "'target' parameter must be specified" 400
  else
    let lookup : Except GoError (Option HostConfig) :=
      match group with
      | g :: _ =>
        if 1 ≤ g.length then
          match (sc.HostConfigForGroup g).1 with
          | (_, some err) => Except.error err
          | (hostConfig, none) => Except.ok (some hostConfig)
        else Except.ok none
      | [] => Except.ok none
    match lookup with
    | Except.error err => HandlerOutcome.credentialsError err
    | Except.ok none => HandlerOutcome.nilDereference
    | Except.ok (some hostConfig) =>
      HandlerOutcome.serve
        (NewRedfishCollector connect target hostConfig.Username hostConfig.Password
          hostConfig.BasicAuth)

/-! ## The descriptor tables -/

/-- A `prometheus.Desc` built by `prometheus.NewDesc(fqName, help, variableLabels, nil)`. -/
structure Desc where
  fqName : String
  help : String
  variableLabels : List String
deriving DecidableEq

/-- `ChassisLabelNames` (chassis_collector.go, line 16). -/
def ChassisLabelNames : List String := ["sn", "mfr", "resource", "chassis_id"]

/-- `ChassisTemperatureLabelNames` (chassis_collector.go, line 17). -/
def ChassisTemperatureLabelNames : List String :=
  ["sn", "mfr", "resource", "chassis_id", "sensor", "sensor_id"]

/-- `ChassisFanLabelNames` (chassis_collector.go, line 18). -/
def ChassisFanLabelNames : List String :=
  ["sn", "mfr", "resource", "chassis_id", "fan", "fan_id"]

/-- `ChassisPowerSupplyLabelNames` (chassis_collector.go, line 19). -/
def ChassisPowerSupplyLabelNames : List String :=
  ["sn", "mfr", "resource", "chassis_id", "power_supply", "power_supply_id"]

/-- The help text shared by the state descriptors, after the name of the resource. -/
def stateHelp : String :=
  "1(Enabled),2(Disabled),3(StandbyOffinline),4(StandbySpare),5(InTest),6(Starting),7(Absent),8(UnavailableOffline),9(Deferring),10(Quiesced),11(Updating)"

/-- The `chassisMetrics` map (chassis_collector.go, lines 21-110), as an association
list. -/
def chassisMetrics : List (String × Desc) :=
  [("chassis_health",
      { fqName := "rackserver_chassis_health",
        help := "health of chassis, 1(OK),2(Warning),3(Critical)",
        variableLabels := ChassisLabelNames }),
   ("chassis_state",
      { fqName := "rackserver_chassis_state",
        help := "state of chassis," ++ stateHelp,
        variableLabels := ChassisLabelNames }),
   ("chassis_temperature_sensor_state",
      { fqName := "rackserver_chassis_temperature_sensor_state",
        help := "status state of temperature on this chassis component," ++ stateHelp,
        variableLabels := ChassisTemperatureLabelNames }),
   ("chassis_temperature_celsius",
      { fqName := "rackserver_chassis_temperature_celsius",
        help := "celsius of temperature on this chassis component",
        variableLabels := ChassisTemperatureLabelNames }),
   ("chassis_fan_health",
      { fqName := "rackserver_chassis_fan_health",
        help := "fan health on this chassis component,1(OK),2(Warning),3(Critical)",
        variableLabels := ChassisFanLabelNames }),
   ("chassis_fan_state",
      { fqName := "rackserver_chassis_fan_state",
        help := "fan state on this chassis component," ++ stateHelp,
        variableLabels := ChassisFanLabelNames }),
   ("chassis_fan_rpm",
      { fqName := "rackserver_chassis_fan_rpm_percentage",
        help := "fan rpm percentage on this chassis component",
        variableLabels := ChassisFanLabelNames }),
   ("chassis_power_powersupply_state",
      { fqName := "rackserver_chassis_power_powersupply_state",
        help := "powersupply state of chassis component," ++ stateHelp,
        variableLabels := ChassisPowerSupplyLabelNames }),
   ("chassis_power_powersupply_health_status",
      { fqName := "rackserver_chassis_power_powersupply_health_status",
        help := "powersupply health of chassis component,1(OK),2(Warning),3(Critical)",
        variableLabels := ChassisPowerSupplyLabelNames }),
   ("chassis_power_powersupply_last_power_output_watts",
      { fqName := "rackserver_chassis_power_powersupply_last_power_output_watts",
        help := "last_power_output_watts of powersupply on this chassis",
        variableLabels := ChassisPowerSupplyLabelNames }),
   ("chassis_power_powersupply_power_capacity_watts",
      { fqName := "rackserver_chassis_power_powersupply_power_capacity_watts",
        help := "power_capacity_watts of powersupply on this chassis",
        variableLabels := ChassisPowerSupplyLabelNames })]

/-- `SystemLabelNames` (system_collector.go, line 23). -/
def SystemLabelNames : List String := ["sn", "mfr", "resource", "system_id", "hw_model"]

/-- `SystemMemoryLabelNames` (system_collector.go, line 24). -/
def SystemMemoryLabelNames : List String := ["sn", "mfr", "resource", "memory", "memory_id"]

/-- `SystemProcessorLabelNames` (system_collector.go, line 25). -/
def SystemProcessorLabelNames : List String :=
  ["sn", "resource", "processor_id", "processor_model"]

/-- `SystemDriveLabelNames` (system_collector.go, line 26). -/
def SystemDriveLabelNames : List String := ["sn", "resource", "drive_name", "drive_model"]

/-- The `systemMetrics` map (system_collector.go, lines 28-158), as an association list. -/
def systemMetrics : List (String × Desc) :=
  [("system_state",
      { fqName := "rackserver_system_state",
        help := "system state," ++ stateHelp,
        variableLabels := SystemLabelNames }),
   ("system_health_status",
      { fqName := "rackserver_system_health_status",
        help := "system health,1(OK),2(Warning),3(Critical)",
        variableLabels := SystemLabelNames }),
   ("system_power_state",
      { fqName := "rackserver_system_power_state",
        help := "system power state",
        variableLabels := SystemLabelNames }),
   ("system_processor_summary_state",
      { fqName := "rackserver_system_processor_summary_state",
        help := "system overall processor state," ++ stateHelp,
        variableLabels := SystemLabelNames }),
   ("system_processor_summary_health_status",
      { fqName := "rackserver_system_processor_summary_health_status",
        help := "system overall processor health,1(OK),2(Warning),3(Critical)",
        variableLabels := SystemLabelNames }),
   ("system_processor_summary_count",
      { fqName := "rackserver_system_processor_summary_count",
        help := "system total processor count",
        variableLabels := SystemLabelNames }),
   ("system_memory_summary_state",
      { fqName := "rackserver_system_memory_summary_state",
        help := "system memory state," ++ stateHelp,
        variableLabels := SystemMemoryLabelNames }),
   ("system_memory_summary_health_status",
      { fqName := "rackserver_system_memory_summary_health_status",
        help := "system overall memory health,1(OK),2(Warning),3(Critical)",
        variableLabels := SystemLabelNames }),
   ("system_memory_summary_size",
      { fqName := "rackserver_system_memory_summary_size",
        help := "system total memory size, GiB",
        variableLabels := SystemLabelNames }),
   ("system_processor_state",
      { fqName := "rackserver_system_processor_state",
        help := "system processor state," ++ stateHelp,
        variableLabels := SystemProcessorLabelNames }),
   ("system_processor_health_status",
      { fqName := "rackserver_system_processor_health_status",
        help := "system processor health state,1(OK),2(Warning),3(Critical)",
        variableLabels := SystemProcessorLabelNames }),
   ("system_processor_total_threads",
      { fqName := "rackserver_system_processor_total_threads",
        help := "system processor total threads",
        variableLabels := SystemProcessorLabelNames }),
   ("system_processor_total_cores",
      { fqName := "rackserver_system_processor_total_cores",
        help := "system processor total cores",
        variableLabels := SystemProcessorLabelNames }),
   ("system_storage_drive_state",
      { fqName := "rackserver_system_storage_drive_state",
        help := "system storage drive state," ++ stateHelp,
        variableLabels := SystemDriveLabelNames }),
   ("system_storage_drive_health_state",
      { fqName := "rackserver_system_storage_drive_health_state",
        help := "system storage volume health state,1(OK),2(Warning),3(Critical)",
        variableLabels := SystemDriveLabelNames }),
   ("system_storage_drive_capacity",
      { fqName := "rackserver_system_storage_drive_capacity",
        help := "system storage drive capacity,Bytes",
        variableLabels := SystemDriveLabelNames })]

/-- Whether `prometheus.MustNewConstMetric(metrics[key].desc, ..., labelValues...)` gets a
descriptor that the table defines and as many label values as the descriptor has label
names. -/
def wellFormed (metrics : List (String × Desc)) (key : String) (labelValues : List String) :
    Bool :=
  match metrics.lookup key with
  | some desc => labelValues.length == desc.variableLabels.length
  | none => false

/-! ## Groups of metric keys -/

/-- The keys of `chassisMetrics` and `systemMetrics` whose descriptor is a health, a state or
a power state. -/
def statusKeys : List String :=
  ["chassis_health", "chassis_state", "chassis_temperature_sensor_state", "chassis_fan_health",
   "chassis_fan_state", "chassis_power_powersupply_state",
   "chassis_power_powersupply_health_status", "system_state", "system_health_status",
   "system_power_state", "system_processor_summary_state",
   "system_processor_summary_health_status", "system_memory_summary_state",
   "system_memory_summary_health_status", "system_processor_state",
   "system_processor_health_status", "system_storage_drive_state",
   "system_storage_drive_health_state"]

/-- The keys of the samples written by `parsePorcessor`. -/
def processorKeys : List String :=
  ["system_processor_state", "system_processor_health_status",
   "system_processor_total_threads", "system_processor_total_cores"]

/-- The keys of the `system_storage_drive_*` metrics. -/
def driveKeys : List String :=
  ["system_storage_drive_state", "system_storage_drive_health_state",
   "system_storage_drive_capacity"]

/-- The keys of the samples written by the temperature and fan tasks. -/
def thermalKeys : List String :=
  ["chassis_temperature_sensor_state", "chassis_temperature_celsius", "chassis_fan_health",
   "chassis_fan_state", "chassis_fan_rpm"]

/-- The keys of the samples written by the power-supply tasks. -/
def powerSupplyKeys : List String :=
  ["chassis_power_powersupply_state", "chassis_power_powersupply_health_status",
   "chassis_power_powersupply_last_power_output_watts",
   "chassis_power_powersupply_power_capacity_watts"]

/-! ## A concrete endpoint

One chassis with a thermal document and no power link, and one system whose processor
collection lists two members, the second of which does not decode. -/

/-- A chassis with health "OK", state "Enabled", a thermal link and no power link. -/
def exampleChassis : Chassis :=
  { ID := "1", SKU := "", Manufacturer := "HPE ProLiant", SerialNumber := "CZ1",
    Status := { State := "Enabled", Health := "OK" },
    thermal := "/redfish/v1/Chassis/1/Thermal", power := "" }

/-- A thermal document with one sensor reading 42 and no fans. -/
def exampleThermal : Thermal :=
  { Temperatures := [{ Name := "Inlet", MemberID := "0",
                       Status := { State := "Enabled", Health := "OK" },
                       ReadingCelsius := 42 }],
    Fans := [] }

/-- A processor that decodes. -/
def exampleProcessor : Processor :=
  { ID := "1", MaxSpeedMHz := FloatValue.finite 0, Model := "Xeon",
    Status := { State := "Enabled", Health := "OK" }, TotalCores := 8, TotalThreads := 16 }

/-- A system of an unrecognised vendor with a processors link. -/
def exampleSystem : ComputerSystem :=
  { ID := "1", SKU := "", Manufacturer := "Lenovo", memory := "", BatteryHealth := "",
    MemorySummary := { Status := { State := "Enabled", Health := "OK" },
                       TotalSystemMemoryGiB := 64 },
    Model := "SR650", PowerState := "On",
    ProcessorSummary := { Count := 2, Status := { State := "Enabled", Health := "OK" } },
    processors := "/redfish/v1/Systems/1/Processors", SerialNumber := "S1",
    simpleStorage := "", smartStorage := "", Status := { State := "Enabled", Health := "OK" } }

/-- The endpoint: every address not listed fails. -/
def exampleClient : Client :=
  { chassisLink := "/redfish/v1/Chassis",
    systemsLink := "/redfish/v1/Systems",
    GetCollection := fun uri =>
      if uri = "/redfish/v1/Chassis" then Except.ok ["/redfish/v1/Chassis/1"]
      else if uri = "/redfish/v1/Systems" then Except.ok ["/redfish/v1/Systems/1"]
      else if uri = "/redfish/v1/Systems/1/Processors" then
        Except.ok ["/redfish/v1/Systems/1/Processors/1", "/redfish/v1/Systems/1/Processors/2"]
      else Except.error (GoError.failure "404"),
    GetChassis := fun uri =>
      if uri = "/redfish/v1/Chassis/1" then Except.ok exampleChassis
      else Except.error (GoError.failure "404"),
    GetThermal := fun uri =>
      if uri = "/redfish/v1/Chassis/1/Thermal" then Except.ok exampleThermal
      else Except.error (GoError.failure "404"),
    GetPower := fun _ => Except.error (GoError.failure "404"),
    GetComputerSystem := fun uri =>
      if uri = "/redfish/v1/Systems/1" then Except.ok exampleSystem
      else Except.error (GoError.failure "404"),
    GetProcessor := fun uri =>
      if uri = "/redfish/v1/Systems/1/Processors/1" then Except.ok exampleProcessor
      else Except.error (GoError.failure "cannot unmarshal"),
    GetSmartStorage := fun _ => Except.error (GoError.failure "404"),
    GetDrive := fun _ => Except.error (GoError.failure "404"),
    ListReferencedSimpleStorages := fun _ => ([], none) }

/-- The example system with the manufacturer string of an HPE machine. -/
def exampleHpeSystem : ComputerSystem :=
  { exampleSystem with Manufacturer := "HPE" }

/-- The example system with the manufacturer string of a Dell machine. -/
def exampleDellSystem : ComputerSystem :=
  { exampleSystem with Manufacturer := "Dell Inc." }

/-- A chassis with a power link and no thermal link. -/
def examplePowerChassis : Chassis :=
  { exampleChassis with thermal := "", power := "/redfish/v1/Chassis/1/Power" }

/-- A `redfish.Connect` that cannot reach the endpoint. -/
def exampleConnectFailure : ClientConfig → Except GoError Client :=
  fun _ => Except.error (GoError.failure "dial tcp: i/o timeout")

/-- The example system with an unset processors link. -/
def exampleUnlinkedSystem : ComputerSystem :=
  { exampleSystem with processors := "" }

/-- The example endpoint, except that every collection address, the empty one included, is
answered with an empty collection. -/
def exampleLenientClient : Client :=
  { exampleClient with GetCollection := fun _ => Except.ok [] }

/-- The example endpoint, except that no thermal document can be fetched. -/
def exampleThermalFailureClient : Client :=
  { exampleClient with GetThermal := fun _ => Except.error (GoError.failure "timeout") }

/-- A system with health "Critical", power state "PoweringOn" and two processors in its
summary. -/
def exampleCriticalSystem : ComputerSystem :=
  { exampleSystem with
    PowerState := "PoweringOn", processors := "",
    ProcessorSummary := { Count := 2, Status := { State := "Enabled", Health := "OK" } },
    Status := { State := "Enabled", Health := "Critical" } }

/-- The example endpoint with the critical system in place of the example system. -/
def exampleCriticalClient : Client :=
  { exampleClient with
    GetComputerSystem := fun uri =>
      if uri = "/redfish/v1/Systems/1" then Except.ok exampleCriticalSystem
      else Except.error (GoError.failure "404") }

/-- The fields of a system document of an HPE machine that has no `Oem` member. -/
def examplePlainFields : ComputerSystemFields :=
  { ID := "1", SKU := "", Manufacturer := "HPE", Model := "ProLiant DL380",
    MemorySummary := { Status := { State := "Enabled", Health := "OK" },
                       TotalSystemMemoryGiB := 64 },
    PowerState := "On",
    ProcessorSummary := { Count := 2, Status := { State := "Enabled", Health := "OK" } },
    SerialNumber := "CZ1", Status := { State := "Enabled", Health := "OK" },
    BatteryHealth := "", Oem := none, Processors := "/redfish/v1/Systems/1/Processors",
    Memory := "", SimpleStorage := "", LinksProcessors := "" }

/-- The same fields with an `Oem` member that has a "Dell" entry and no "Hp" entry. -/
def exampleOtherOemFields : ComputerSystemFields :=
  { examplePlainFields with
    Oem := some (JSON.object [("Dell", JSON.object [("DellSystem", JSON.null)])]) }

/-- A collector whose client was created and which holds the example endpoint. -/
def exampleCollector : RedfishCollector :=
  NewRedfishCollector (fun _ => Except.ok exampleClient) "10.0.0.1" "admin" "secret" ""

/-- The keys of the samples of a chassis itself. -/
def chassisIdentityKeys : List String :=
  ["chassis_health", "chassis_state"]

/-- A `strconv.ParseFloat` that parses "2400" and rejects every other string as
malformed. -/
def exampleParseFloat : String → FloatValue × Option GoError :=
  fun s =>
    if s = "2400" then (FloatValue.finite 2400, none)
    else (FloatValue.finite 0, some (GoError.failure "strconv.ParseFloat: invalid syntax"))

/-- A processor document whose `MaxSpeedMHz` member is the given value and whose other
members decode to the example processor. -/
def exampleProcessorDocument (speed : JSON) : ProcessorDocument :=
  { others := Except.ok exampleProcessor, MaxSpeedMHz := some speed }

/-- The fields of a system document whose `Oem` member has the given "Hp" entry. -/
def exampleHpFields (hp : JSON) : ComputerSystemFields :=
  { examplePlainFields with Oem := some (JSON.object [("Hp", hp)]) }

/-- A loaded configuration with one group. -/
def exampleSafeConfig : SafeConfig :=
  { C := { Groups := [("dell", { Username := "root", Password := "calvin",
                                 BasicAuth := "" })] } }

/-- A `redfish.Connect` that accepts basic authentication only. -/
def exampleBasicAuthOnly : ClientConfig → Except GoError Client :=
  fun config =>
    if config.BasicAuth then Except.ok exampleClient
    else Except.error (GoError.failure "session service unavailable")

/-- A Dell device of one gibibyte. -/
def exampleDellDevice : Device :=
  { Name := "Disk.Bay.0", Model := "ST1000", CapacityBytes := 1073741824,
    Status := { State := "Enabled", Health := "OK" } }

/-- An HPE drive of one gigabyte. -/
def exampleHpDrive : Drive :=
  { Location := "1I:1:1", Model := "EG0300", CapacityGB := 1,
    Status := { State := "Enabled", Health := "OK" } }

/-! ## Theorems: status mapping -/

/-- C1: `parseCommonStatusHealth` returns `(1, true)` for "OK", `(2, true)` for "Warning",
`(3, true)` for "Critical", and `ok = false` for every other string, the empty string and
"ok" among them. -/
theorem parseCommonStatusHealth_contract :
    parseCommonStatusHealth "OK" = (1, true) ∧
    parseCommonStatusHealth "Warning" = (2, true) ∧
    parseCommonStatusHealth "Critical" = (3, true) ∧
    (∀ s : String, s ∉ ["OK", "Warning", "Critical"] → (parseCommonStatusHealth s).2 = false) ∧
    (parseCommonStatusHealth "").2 = false ∧
    (parseCommonStatusHealth "ok").2 = false := by
  refine ⟨by decide, by decide, by decide, ?_, by decide, by decide⟩
  intro s hs
  simp only [List.mem_cons, List.mem_singleton, not_or, List.not_mem_nil, or_false] at hs
  simp [parseCommonStatusHealth, hs.1, hs.2.1, hs.2.2]

/-- C1, at the input "Degraded": it is none of the three words, and the mapping rejects it. -/
theorem parseCommonStatusHealth_contract_witness :
    "Degraded" ∉ ["OK", "Warning", "Critical"] ∧
    (parseCommonStatusHealth "Degraded").2 = false :=
  ⟨by decide, parseCommonStatusHealth_contract.2.2.2.1 "Degraded" (by decide)⟩

/-- C2: on the word "StandbyOffline" of the state vocabulary `parseCommonStatusState` returns
`(0, false)`, not `(3, true)`; code 3 is given to the spelling "StandbyOffinline".  The other
ten words get their codes. -/
theorem parseCommonStatusState_vocabulary :
    parseCommonStatusState "StandbyOffline" = (0, false) ∧
    parseCommonStatusState "StandbyOffinline" = (3, true) ∧
    parseCommonStatusState "Enabled" = (1, true) ∧
    parseCommonStatusState "Disabled" = (2, true) ∧
    parseCommonStatusState "StandbySpare" = (4, true) ∧
    parseCommonStatusState "InTest" = (5, true) ∧
    parseCommonStatusState "Starting" = (6, true) ∧
    parseCommonStatusState "Absent" = (7, true) ∧
    parseCommonStatusState "UnavailableOffline" = (8, true) ∧
    parseCommonStatusState "Deferring" = (9, true) ∧
    parseCommonStatusState "Quiesced" = (10, true) ∧
    parseCommonStatusState "Updating" = (11, true) := by
  refine ⟨?_, ?_, ?_, ?_, ?_, ?_, ?_, ?_, ?_, ?_, ?_, ?_⟩ <;> decide

/-- C3: the equivalence between `ok = false` and being outside the vocabulary fails in both
directions: "StandbyOffline" is in the vocabulary and is rejected, "StandbyOffinline" is
outside it and is accepted.  The empty string is rejected. -/
theorem parseCommonStatusState_not_iff_vocabulary :
    ("StandbyOffline" ∈ stateVocabulary ∧ (parseCommonStatusState "StandbyOffline").2 = false) ∧
    ("StandbyOffinline" ∉ stateVocabulary ∧
      (parseCommonStatusState "StandbyOffinline").2 = true) ∧
    (parseCommonStatusState "").2 = false := by
  refine ⟨⟨?_, ?_⟩, ⟨?_, ?_⟩, ?_⟩ <;> decide

/-- C4: `parseCommonPowerState` returns `(1, true)` for "On", `(2, true)` for "Off",
`(3, true)` for "PoweringOn", `(4, true)` for "PoweringOff", and `ok = false` for every other
string, the empty string among them. -/
theorem parseCommonPowerState_contract :
    parseCommonPowerState "On" = (1, true) ∧
    parseCommonPowerState "Off" = (2, true) ∧
    parseCommonPowerState "PoweringOn" = (3, true) ∧
    parseCommonPowerState "PoweringOff" = (4, true) ∧
    (∀ s : String, s ∉ ["On", "Off", "PoweringOn", "PoweringOff"] →
      (parseCommonPowerState s).2 = false) ∧
    (parseCommonPowerState "").2 = false := by
  refine ⟨by decide, by decide, by decide, by decide, ?_, by decide⟩
  intro s hs
  simp only [List.mem_cons, List.mem_singleton, not_or, List.not_mem_nil, or_false] at hs
  simp [parseCommonPowerState, hs.1, hs.2.1, hs.2.2.1, hs.2.2.2]

/-- C4, at the input "Paused": it is none of the four words, and the mapping rejects it. -/
theorem parseCommonPowerState_contract_witness :
    "Paused" ∉ ["On", "Off", "PoweringOn", "PoweringOff"] ∧
    (parseCommonPowerState "Paused").2 = false :=
  ⟨by decide, parseCommonPowerState_contract.2.2.2.2.1 "Paused" (by decide)⟩

/-! ## Lemmas: projections of a trace -/

theorem samplesOf_nil : samplesOf [] = [] := rfl

theorem samplesOf_send (s : Sample) (es : List Event) :
    samplesOf (Event.send s :: es) = s :: samplesOf es := rfl

theorem samplesOf_spawn (w : String) (t : List Sample) (es : List Event) :
    samplesOf (Event.spawn w t :: es) = t ++ samplesOf es := rfl

theorem samplesOf_call (m : String) (es : List Event) :
    samplesOf (Event.call m :: es) = samplesOf es := rfl

theorem samplesOf_get (u : String) (es : List Event) :
    samplesOf (Event.get u :: es) = samplesOf es := rfl

theorem samplesOf_logError (op : String) (es : List Event) :
    samplesOf (Event.logError op :: es) = samplesOf es := rfl

theorem samplesOf_logInfo (m : String) (es : List Event) :
    samplesOf (Event.logInfo m :: es) = samplesOf es := rfl

theorem samplesOf_setScrapeStatus (n : String) (v : ℚ) (es : List Event) :
    samplesOf (Event.setScrapeStatus n v :: es) = samplesOf es := rfl

theorem samplesOf_append (a b : List Event) :
    samplesOf (a ++ b) = samplesOf a ++ samplesOf b := by
  induction a with
  | nil => rfl
  | cons e es ih => cases e <;> simp [samplesOf, ih]

theorem samplesOf_map_send (l : List Sample) : samplesOf (l.map Event.send) = l := by
  induction l with
  | nil => rfl
  | cons x xs ih => simp [samplesOf, ih]

theorem samplesOf_map_get (l : List String) : samplesOf (l.map Event.get) = [] := by
  induction l with
  | nil => rfl
  | cons x xs ih => simp [samplesOf, ih]

theorem samplesOf_map_spawn {α : Type} (w : String) (f : α → List Sample) (l : List α) :
    samplesOf (l.map (fun a => Event.spawn w (f a))) = l.flatMap f := by
  induction l with
  | nil => rfl
  | cons x xs ih => simp [samplesOf, ih]

theorem samplesOf_flatMap {α : Type} (f : α → List Event) (l : List α) :
    samplesOf (l.flatMap f) = l.flatMap (fun a => samplesOf (f a)) := by
  induction l with
  | nil => rfl
  | cons x xs ih => simp [samplesOf_append, ih]

/-! ## Lemmas: the accessors only issue requests -/

/-- A trace that consists of client requests only. -/
theorem samplesOf_of_requests (tr : List Event) (h : ∀ e ∈ tr, ∃ u, e = Event.get u) :
    samplesOf tr = [] ∧ callsOf tr = [] ∧ errorsOf tr = [] := by
  induction tr with
  | nil => exact ⟨rfl, rfl, rfl⟩
  | cons e es ih =>
    obtain ⟨u, rfl⟩ := h e (List.mem_cons_self _ _)
    have := ih (fun e he => h e (List.mem_cons_of_mem _ he))
    simpa [samplesOf, callsOf, errorsOf] using this

theorem requests_get_cons_map (link : String) (links : List String) :
    ∀ e ∈ Event.get link :: links.map Event.get, ∃ u, e = Event.get u := by
  intro e he
  rcases List.mem_cons.1 he with rfl | he
  · exact ⟨link, rfl⟩
  · obtain ⟨u, _, rfl⟩ := List.mem_map.1 he
    exact ⟨u, rfl⟩

theorem requests_ListReferencedChassis (c : Client) (link : String) :
    ∀ e ∈ (ListReferencedChassis c link).2, ∃ u, e = Event.get u := by
  unfold ListReferencedChassis
  split
  · intro e he; exact ⟨link, by simpa using he⟩
  · exact requests_get_cons_map _ _

theorem requests_ListReferencedComputerSystems (c : Client) (link : String) :
    ∀ e ∈ (ListReferencedComputerSystems c link).2, ∃ u, e = Event.get u := by
  unfold ListReferencedComputerSystems
  split
  · intro e he; exact ⟨link, by simpa using he⟩
  · exact requests_get_cons_map _ _

theorem requests_ListReferencedProcessors (c : Client) (link : String) :
    ∀ e ∈ (ListReferencedProcessors c link).2, ∃ u, e = Event.get u := by
  unfold ListReferencedProcessors
  split
  · intro e he; exact ⟨link, by simpa using he⟩
  · exact requests_get_cons_map _ _

theorem requests_ListReferencedSmartStorages (c : Client) (link : String) :
    ∀ e ∈ (ListReferencedSmartStorages c link).2, ∃ u, e = Event.get u := by
  unfold ListReferencedSmartStorages
  split
  · intro e he; simp at he
  · split
    · intro e he; exact ⟨_, by simpa using he⟩
    · exact requests_get_cons_map _ _

theorem requests_ListReferencedDrives (c : Client) (link : String) :
    ∀ e ∈ (ListReferencedDrives c link).2, ∃ u, e = Event.get u := by
  unfold ListReferencedDrives
  split
  · intro e he; simp at he
  · split
    · intro e he; exact ⟨_, by simpa using he⟩
    · exact requests_get_cons_map _ _

theorem requests_Thermal (c : Client) (chassis : Chassis) :
    ∀ e ∈ (chassis.Thermal c).2, ∃ u, e = Event.get u := by
  unfold Chassis.Thermal
  split
  · intro e he; simp at he
  · split <;> intro e he <;> exact ⟨_, by simpa using he⟩

theorem requests_Power (c : Client) (chassis : Chassis) :
    ∀ e ∈ (chassis.Power c).2, ∃ u, e = Event.get u := by
  unfold Chassis.Power
  split
  · intro e he; simp at he
  · split <;> intro e he <;> exact ⟨_, by simpa using he⟩

theorem requests_SimpleStorages (c : Client) (system : ComputerSystem) :
    ∀ e ∈ (system.SimpleStorages c).2, ∃ u, e = Event.get u := by
  intro e he
  simp [ComputerSystem.SimpleStorages] at he

/-! ## Lemmas: the samples of each branch -/

theorem samplesOf_thermalBranch (c : Client) (chassis : Chassis) :
    samplesOf (ChassisCollector.thermalBranch c chassis) =
      match (chassis.Thermal c).1 with
      | (some chassisThermal, none) =>
        chassisThermal.Temperatures.flatMap
            (parseChassisTemperature (serialNumber chassis.SerialNumber chassis.SKU)
              (systemManufacturer chassis.Manufacturer) chassis.ID)
          ++ chassisThermal.Fans.flatMap
            (parseChassisFan (serialNumber chassis.SerialNumber chassis.SKU)
              (systemManufacturer chassis.Manufacturer) chassis.ID)
      | _ => [] := by
  have h := (samplesOf_of_requests _ (requests_Thermal c chassis)).1
  unfold ChassisCollector.thermalBranch
  generalize chassis.Thermal c = R at h ⊢
  obtain ⟨⟨t, e⟩, ev⟩ := R
  cases t <;> cases e <;> simp_all [samplesOf, samplesOf_append, samplesOf_map_spawn]

theorem samplesOf_powerBranch (c : Client) (chassis : Chassis) :
    samplesOf (ChassisCollector.powerBranch c chassis) =
      match (chassis.Power c).1 with
      | (some chassisPowerInfo, none) =>
        chassisPowerInfo.PowerSupplies.flatMap
          (parseChassisPowerInfoPowerSupply (serialNumber chassis.SerialNumber chassis.SKU)
            (systemManufacturer chassis.Manufacturer) chassis.ID)
      | _ => [] := by
  have h := (samplesOf_of_requests _ (requests_Power c chassis)).1
  unfold ChassisCollector.powerBranch
  generalize chassis.Power c = R at h ⊢
  obtain ⟨⟨t, e⟩, ev⟩ := R
  cases t <;> cases e <;> simp_all [samplesOf, samplesOf_append, samplesOf_map_spawn]

theorem samplesOf_collectChassis (c : Client) (chassis : Chassis) :
    samplesOf (ChassisCollector.collectChassis c chassis) =
      ChassisCollector.identitySamples chassis
        ++ samplesOf (ChassisCollector.thermalBranch c chassis)
        ++ samplesOf (ChassisCollector.powerBranch c chassis) := by
  simp [ChassisCollector.collectChassis, samplesOf, samplesOf_append, samplesOf_map_send]

theorem samplesOf_ChassisCollector_Collect (c : Client) :
    samplesOf (ChassisCollector.Collect c) =
      match (Service.Chassis c).1 with
      | (_, some _) => []
      | (chassises, none) =>
        chassises.flatMap (fun ch => samplesOf (ChassisCollector.collectChassis c ch)) := by
  have h := (samplesOf_of_requests _ (requests_ListReferencedChassis c c.chassisLink)).1
  unfold ChassisCollector.Collect Service.Chassis
  generalize ListReferencedChassis c c.chassisLink = R at h ⊢
  obtain ⟨⟨l, e⟩, ev⟩ := R
  cases e <;> simp_all [samplesOf, samplesOf_append, samplesOf_flatMap]

theorem samplesOf_processorBranch (c : Client) (system : ComputerSystem) :
    samplesOf (SystemCollector.processorBranch c system) =
      match (system.Processors c).1 with
      | (_, some _) => []
      | (processors, none) =>
        processors.flatMap (parsePorcessor (serialNumber system.SerialNumber system.SKU)) := by
  have h := (samplesOf_of_requests _
    (requests_ListReferencedProcessors c system.processors)).1
  unfold SystemCollector.processorBranch ComputerSystem.Processors
  generalize ListReferencedProcessors c system.processors = R at h ⊢
  obtain ⟨⟨l, e⟩, ev⟩ := R
  cases l <;> cases e <;> simp_all [samplesOf, samplesOf_append, samplesOf_map_spawn]

theorem mem_samplesOf_smartStorageDrives (c : Client) (sn : String) (storage : SmartStorage)
    (x : Sample) (hx : x ∈ samplesOf (SystemCollector.smartStorageDrives c sn storage)) :
    ∃ d, x ∈ parseHpDrive sn d := by
  have h := (samplesOf_of_requests _ (requests_ListReferencedDrives c storage.drives)).1
  unfold SystemCollector.smartStorageDrives SmartStorage.Drives at hx
  generalize ListReferencedDrives c storage.drives = R at h hx
  obtain ⟨⟨l, e⟩, ev⟩ := R
  cases l <;> cases e <;> simp_all [samplesOf, samplesOf_append, samplesOf_map_spawn]
  rcases hx with hx | ⟨d, _, hd⟩
  · exact ⟨_, hx⟩
  · exact ⟨d, hd⟩

theorem mem_samplesOf_simpleStorageDevices (sn : String) (item : SimpleStorage)
    (x : Sample) (hx : x ∈ samplesOf (SystemCollector.simpleStorageDevices sn item)) :
    ∃ d, x ∈ parseDellDrive sn d := by
  unfold SystemCollector.simpleStorageDevices at hx
  rw [samplesOf_map_spawn] at hx
  obtain ⟨d, _, hd⟩ := List.mem_flatMap.1 hx
  exact ⟨d, hd⟩

theorem mem_samplesOf_storageBranch (c : Client) (system : ComputerSystem) (x : Sample)
    (hx : x ∈ samplesOf (SystemCollector.storageBranch c system)) :
    (∃ d, x ∈ parseHpDrive (serialNumber system.SerialNumber system.SKU) d) ∨
    (∃ d, x ∈ parseDellDrive (serialNumber system.SerialNumber system.SKU) d) := by
  unfold SystemCollector.storageBranch at hx
  split at hx
  · left
    have h := (samplesOf_of_requests _
      (requests_ListReferencedSmartStorages c system.smartStorage)).1
    unfold ComputerSystem.SmartStorages at hx
    generalize ListReferencedSmartStorages c system.smartStorage = R at h hx
    obtain ⟨⟨l, e⟩, ev⟩ := R
    replace h : samplesOf ev = [] := h
    rw [List.cons_append, samplesOf_call, samplesOf_append, h, List.nil_append] at hx
    cases e with
    | some e => simp [samplesOf_logError, samplesOf_nil] at hx
    | none =>
      cases l with
      | nil => simp [samplesOf_logInfo, samplesOf_nil] at hx
      | cons a l =>
        simp only [samplesOf_flatMap] at hx
        obtain ⟨st, _, hst⟩ := List.mem_flatMap.1 hx
        exact mem_samplesOf_smartStorageDrives _ _ _ _ hst
  · split at hx
    · right
      simp only [ComputerSystem.SimpleStorages] at hx
      generalize c.ListReferencedSimpleStorages system.simpleStorage = R at hx
      obtain ⟨l, e⟩ := R
      rw [List.cons_append, samplesOf_call, List.nil_append] at hx
      cases e with
      | some e => simp [samplesOf_logError, samplesOf_nil] at hx
      | none =>
        cases l with
        | nil => simp [samplesOf_logInfo, samplesOf_nil] at hx
        | cons a l =>
          simp only [samplesOf_flatMap] at hx
          obtain ⟨st, _, hst⟩ := List.mem_flatMap.1 hx
          exact mem_samplesOf_simpleStorageDevices _ _ _ hst
    · simp [samplesOf] at hx

theorem samplesOf_collectSystem (c : Client) (system : ComputerSystem) :
    samplesOf (SystemCollector.collectSystem c system) =
      SystemCollector.identitySamples system
        ++ samplesOf (SystemCollector.processorBranch c system)
        ++ samplesOf (SystemCollector.storageBranch c system) := by
  simp [SystemCollector.collectSystem, samplesOf, samplesOf_append, samplesOf_map_send]

theorem samplesOf_SystemCollector_Collect (c : Client) :
    samplesOf (SystemCollector.Collect c) =
      match (Service.Systems c).1 with
      | (_, some _) => []
      | (systems, none) =>
        systems.flatMap (fun s => samplesOf (SystemCollector.collectSystem c s)) := by
  have h := (samplesOf_of_requests _
    (requests_ListReferencedComputerSystems c c.systemsLink)).1
  unfold SystemCollector.Collect Service.Systems
  generalize ListReferencedComputerSystems c c.systemsLink = R at h ⊢
  obtain ⟨⟨l, e⟩, ev⟩ := R
  cases e <;> simp_all [samplesOf, samplesOf_append, samplesOf_flatMap]

/-! ## Lemmas: a status sample carries a code of at least 1 -/

theorem statusResult_ite (c : Prop) [Decidable c] (a b : Nat × Bool)
    (ha : StatusResult a) (hb : StatusResult b) : StatusResult (if c then a else b) := by
  split
  · exact ha
  · exact hb

theorem statusResult_reject : StatusResult (0, false) := Or.inl rfl

theorem statusResult_code (n : Nat) (hn : 1 ≤ n) : StatusResult (n, true) := Or.inr ⟨rfl, hn⟩

theorem parseCommonStatusHealth_cases (s : String) :
    StatusResult (parseCommonStatusHealth s) := by
  unfold parseCommonStatusHealth
  repeat' apply statusResult_ite
  all_goals first | exact statusResult_reject | exact statusResult_code _ (by decide)

theorem parseCommonStatusState_cases (s : String) :
    StatusResult (parseCommonStatusState s) := by
  unfold parseCommonStatusState
  repeat' apply statusResult_ite
  all_goals first | exact statusResult_reject | exact statusResult_code _ (by decide)

theorem parseCommonPowerState_cases (s : String) :
    StatusResult (parseCommonPowerState s) := by
  unfold parseCommonPowerState
  repeat' apply statusResult_ite
  all_goals first | exact statusResult_reject | exact statusResult_code _ (by decide)

theorem parseCommonStatusHealth_pos (s : String) (h : (parseCommonStatusHealth s).2 = true) :
    1 ≤ (parseCommonStatusHealth s).1 := by
  rcases parseCommonStatusHealth_cases s with h0 | ⟨_, h1⟩
  · rw [h0] at h; exact absurd h (by decide)
  · exact h1

theorem parseCommonStatusState_pos (s : String) (h : (parseCommonStatusState s).2 = true) :
    1 ≤ (parseCommonStatusState s).1 := by
  rcases parseCommonStatusState_cases s with h0 | ⟨_, h1⟩
  · rw [h0] at h; exact absurd h (by decide)
  · exact h1

theorem parseCommonPowerState_pos (s : String) (h : (parseCommonPowerState s).2 = true) :
    1 ≤ (parseCommonPowerState s).1 := by
  rcases parseCommonPowerState_cases s with h0 | ⟨_, h1⟩
  · rw [h0] at h; exact absurd h (by decide)
  · exact h1

theorem statusSample_value (r : Nat × Bool) (key : String) (labels : List String)
    (hr : r.2 = true → 1 ≤ r.1) (x : Sample) (hx : x ∈ statusSample r key labels) :
    (1 : ℚ) ≤ x.value := by
  unfold statusSample at hx
  split at hx
  · rename_i h
    simp only [List.mem_singleton] at hx
    subst hx
    show (1 : ℚ) ≤ ((r.1 : ℕ) : ℚ)
    exact_mod_cast hr h
  · simp at hx

theorem statusSample_code (r : Nat × Bool) (key : String) (labels : List String)
    (hr : StatusResult r) (x : Sample) (hx : x ∈ statusSample r key labels) :
    (1 : ℚ) ≤ x.value := by
  refine statusSample_value r key labels (fun h => ?_) x hx
  rcases hr with h0 | ⟨_, h1⟩
  · rw [h0] at h; exact absurd h (by decide)
  · exact h1

theorem parseChassisTemperature_codes (sn m id : String) (t : Temperature) (x : Sample)
    (hx : x ∈ parseChassisTemperature sn m id t) (hk : x.key ∈ statusKeys) :
    (1 : ℚ) ≤ x.value := by
  simp only [parseChassisTemperature, List.mem_append, List.mem_singleton] at hx
  rcases hx with hx | rfl
  · exact statusSample_code _ _ _ (parseCommonStatusState_cases _) x hx
  · dsimp only at hk; exact absurd hk (by decide)

theorem parseChassisFan_codes (sn m id : String) (f : Fan) (x : Sample)
    (hx : x ∈ parseChassisFan sn m id f) (hk : x.key ∈ statusKeys) :
    (1 : ℚ) ≤ x.value := by
  simp only [parseChassisFan, List.mem_append, List.mem_singleton] at hx
  rcases hx with (hx | hx) | rfl
  · exact statusSample_code _ _ _ (parseCommonStatusHealth_cases _) x hx
  · exact statusSample_code _ _ _ (parseCommonStatusState_cases _) x hx
  · dsimp only at hk; exact absurd hk (by decide)

theorem parseChassisPowerInfoPowerSupply_codes (sn m id : String) (ps : PowerSupply)
    (x : Sample) (hx : x ∈ parseChassisPowerInfoPowerSupply sn m id ps)
    (hk : x.key ∈ statusKeys) : (1 : ℚ) ≤ x.value := by
  simp only [parseChassisPowerInfoPowerSupply, List.mem_append, List.mem_cons,
    List.mem_singleton, List.not_mem_nil, or_false] at hx
  rcases hx with (hx | hx) | rfl | rfl
  · exact statusSample_code _ _ _ (parseCommonStatusState_cases _) x hx
  · exact statusSample_code _ _ _ (parseCommonStatusHealth_cases _) x hx
  · dsimp only at hk; exact absurd hk (by decide)
  · dsimp only at hk; exact absurd hk (by decide)

theorem parsePorcessor_codes (sn : String) (p : Processor) (x : Sample)
    (hx : x ∈ parsePorcessor sn p) (hk : x.key ∈ statusKeys) : (1 : ℚ) ≤ x.value := by
  simp only [parsePorcessor, List.mem_append, List.mem_cons, List.mem_singleton,
    List.not_mem_nil, or_false] at hx
  rcases hx with (hx | hx) | rfl | rfl
  · exact statusSample_code _ _ _ (parseCommonStatusState_cases _) x hx
  · exact statusSample_code _ _ _ (parseCommonStatusHealth_cases _) x hx
  · dsimp only at hk; exact absurd hk (by decide)
  · dsimp only at hk; exact absurd hk (by decide)

theorem parseHpDrive_codes (sn : String) (d : Drive) (x : Sample)
    (hx : x ∈ parseHpDrive sn d) (hk : x.key ∈ statusKeys) : (1 : ℚ) ≤ x.value := by
  simp only [parseHpDrive, List.mem_append, List.mem_singleton] at hx
  rcases hx with hx | rfl
  · exact statusSample_code _ _ _ (parseCommonStatusHealth_cases _) x hx
  · dsimp only at hk; exact absurd hk (by decide)

theorem parseDellDrive_codes (sn : String) (d : Device) (x : Sample)
    (hx : x ∈ parseDellDrive sn d) (hk : x.key ∈ statusKeys) : (1 : ℚ) ≤ x.value := by
  simp only [parseDellDrive, List.mem_append, List.mem_singleton] at hx
  rcases hx with hx | rfl
  · exact statusSample_code _ _ _ (parseCommonStatusHealth_cases _) x hx
  · dsimp only at hk; exact absurd hk (by decide)

theorem chassisIdentity_codes (chassis : Chassis) (x : Sample)
    (hx : x ∈ ChassisCollector.identitySamples chassis) : (1 : ℚ) ≤ x.value := by
  simp only [ChassisCollector.identitySamples, List.mem_append] at hx
  rcases hx with hx | hx
  · exact statusSample_code _ _ _ (parseCommonStatusHealth_cases _) x hx
  · exact statusSample_code _ _ _ (parseCommonStatusState_cases _) x hx

theorem systemIdentity_codes (system : ComputerSystem) (x : Sample)
    (hx : x ∈ SystemCollector.identitySamples system) (hk : x.key ∈ statusKeys) :
    (1 : ℚ) ≤ x.value := by
  simp only [SystemCollector.identitySamples, List.mem_append, List.mem_singleton] at hx
  rcases hx with (((((((hx | hx) | hx) | hx) | hx) | rfl) | hx) | hx) | rfl
  · exact statusSample_code _ _ _ (parseCommonStatusState_cases _) x hx
  · exact statusSample_code _ _ _ (parseCommonStatusHealth_cases _) x hx
  · exact statusSample_code _ _ _ (parseCommonPowerState_cases _) x hx
  · exact statusSample_code _ _ _ (parseCommonStatusState_cases _) x hx
  · exact statusSample_code _ _ _ (parseCommonStatusHealth_cases _) x hx
  · dsimp only at hk; exact absurd hk (by decide)
  · exact statusSample_code _ _ _ (parseCommonStatusState_cases _) x hx
  · exact statusSample_code _ _ _ (parseCommonStatusHealth_cases _) x hx
  · dsimp only at hk; exact absurd hk (by decide)

theorem collectChassis_codes (c : Client) (chassis : Chassis) (x : Sample)
    (hx : x ∈ samplesOf (ChassisCollector.collectChassis c chassis))
    (hk : x.key ∈ statusKeys) : (1 : ℚ) ≤ x.value := by
  rw [samplesOf_collectChassis, samplesOf_thermalBranch, samplesOf_powerBranch] at hx
  simp only [List.mem_append] at hx
  rcases hx with (hx | hx) | hx
  · exact chassisIdentity_codes chassis x hx
  · split at hx
    · rcases List.mem_append.1 hx with h | h
      · obtain ⟨t, _, ht⟩ := List.mem_flatMap.1 h
        exact parseChassisTemperature_codes _ _ _ t x ht hk
      · obtain ⟨f, _, hf⟩ := List.mem_flatMap.1 h
        exact parseChassisFan_codes _ _ _ f x hf hk
    · simp at hx
  · split at hx
    · obtain ⟨ps, _, hps⟩ := List.mem_flatMap.1 hx
      exact parseChassisPowerInfoPowerSupply_codes _ _ _ ps x hps hk
    · simp at hx

theorem collectSystem_codes (c : Client) (system : ComputerSystem) (x : Sample)
    (hx : x ∈ samplesOf (SystemCollector.collectSystem c system))
    (hk : x.key ∈ statusKeys) : (1 : ℚ) ≤ x.value := by
  rw [samplesOf_collectSystem] at hx
  simp only [List.mem_append] at hx
  rcases hx with (hx | hx) | hx
  · exact systemIdentity_codes system x hx hk
  · rw [samplesOf_processorBranch] at hx
    split at hx
    · simp at hx
    · obtain ⟨p, _, hp⟩ := List.mem_flatMap.1 hx
      exact parsePorcessor_codes _ p x hp hk
  · rcases mem_samplesOf_storageBranch c system x hx with ⟨d, hd⟩ | ⟨d, hd⟩
    · exact parseHpDrive_codes _ d x hd hk
    · exact parseDellDrive_codes _ d x hd hk

/-! ## Lemmas: the keys of the samples of each part -/

theorem statusSample_key (r : Nat × Bool) (key : String) (labels : List String) (x : Sample)
    (hx : x ∈ statusSample r key labels) : x.key = key := by
  unfold statusSample at hx
  split at hx
  · rw [List.mem_singleton.1 hx]
  · simp at hx

theorem parseChassisTemperature_keys (sn m id : String) (t : Temperature) (x : Sample)
    (hx : x ∈ parseChassisTemperature sn m id t) : x.key ∈ thermalKeys := by
  simp only [parseChassisTemperature, List.mem_append, List.mem_singleton] at hx
  rcases hx with hx | rfl
  · rw [statusSample_key _ _ _ x hx]; decide
  · dsimp only; decide

theorem parseChassisFan_keys (sn m id : String) (f : Fan) (x : Sample)
    (hx : x ∈ parseChassisFan sn m id f) : x.key ∈ thermalKeys := by
  simp only [parseChassisFan, List.mem_append, List.mem_singleton] at hx
  rcases hx with (hx | hx) | rfl
  · rw [statusSample_key _ _ _ x hx]; decide
  · rw [statusSample_key _ _ _ x hx]; decide
  · dsimp only; decide

theorem parseChassisPowerInfoPowerSupply_keys (sn m id : String) (ps : PowerSupply)
    (x : Sample) (hx : x ∈ parseChassisPowerInfoPowerSupply sn m id ps) :
    x.key ∈ powerSupplyKeys := by
  simp only [parseChassisPowerInfoPowerSupply, List.mem_append, List.mem_cons,
    List.mem_singleton, List.not_mem_nil, or_false] at hx
  rcases hx with (hx | hx) | rfl | rfl
  · rw [statusSample_key _ _ _ x hx]; decide
  · rw [statusSample_key _ _ _ x hx]; decide
  · dsimp only; decide
  · dsimp only; decide

theorem parsePorcessor_keys (sn : String) (p : Processor) (x : Sample)
    (hx : x ∈ parsePorcessor sn p) : x.key ∈ processorKeys := by
  simp only [parsePorcessor, List.mem_append, List.mem_cons, List.mem_singleton,
    List.not_mem_nil, or_false] at hx
  rcases hx with (hx | hx) | rfl | rfl
  · rw [statusSample_key _ _ _ x hx]; decide
  · rw [statusSample_key _ _ _ x hx]; decide
  · dsimp only; decide
  · dsimp only; decide

theorem parseHpDrive_keys (sn : String) (d : Drive) (x : Sample)
    (hx : x ∈ parseHpDrive sn d) :
    x.key ∈ ["system_storage_drive_health_state", "system_storage_drive_capacity"] := by
  simp only [parseHpDrive, List.mem_append, List.mem_singleton] at hx
  rcases hx with hx | rfl
  · rw [statusSample_key _ _ _ x hx]; decide
  · dsimp only; decide

theorem parseDellDrive_keys (sn : String) (d : Device) (x : Sample)
    (hx : x ∈ parseDellDrive sn d) :
    x.key ∈ ["system_storage_drive_health_state", "system_storage_drive_capacity"] := by
  simp only [parseDellDrive, List.mem_append, List.mem_singleton] at hx
  rcases hx with hx | rfl
  · rw [statusSample_key _ _ _ x hx]; decide
  · dsimp only; decide

theorem chassisIdentity_keys (chassis : Chassis) (x : Sample)
    (hx : x ∈ ChassisCollector.identitySamples chassis) :
    x.key ∈ ["chassis_health", "chassis_state"] := by
  simp only [ChassisCollector.identitySamples, List.mem_append] at hx
  rcases hx with hx | hx
  · rw [statusSample_key _ _ _ x hx]; decide
  · rw [statusSample_key _ _ _ x hx]; decide

theorem systemIdentity_keys (system : ComputerSystem) (x : Sample)
    (hx : x ∈ SystemCollector.identitySamples system) :
    x.key ∈ ["system_state", "system_health_status", "system_power_state",
      "system_processor_summary_state", "system_processor_summary_health_status",
      "system_processor_summary_count", "system_memory_summary_state",
      "system_memory_summary_health_status", "system_memory_summary_size"] := by
  simp only [SystemCollector.identitySamples, List.mem_append, List.mem_singleton] at hx
  rcases hx with (((((((hx | hx) | hx) | hx) | hx) | rfl) | hx) | hx) | rfl
  · rw [statusSample_key _ _ _ x hx]; decide
  · rw [statusSample_key _ _ _ x hx]; decide
  · rw [statusSample_key _ _ _ x hx]; decide
  · rw [statusSample_key _ _ _ x hx]; decide
  · rw [statusSample_key _ _ _ x hx]; decide
  · dsimp only; decide
  · rw [statusSample_key _ _ _ x hx]; decide
  · rw [statusSample_key _ _ _ x hx]; decide
  · dsimp only; decide

theorem thermalBranch_keys (c : Client) (chassis : Chassis) (x : Sample)
    (hx : x ∈ samplesOf (ChassisCollector.thermalBranch c chassis)) : x.key ∈ thermalKeys := by
  rw [samplesOf_thermalBranch] at hx
  split at hx
  · rcases List.mem_append.1 hx with h | h
    · obtain ⟨t, _, ht⟩ := List.mem_flatMap.1 h
      exact parseChassisTemperature_keys _ _ _ t x ht
    · obtain ⟨f, _, hf⟩ := List.mem_flatMap.1 h
      exact parseChassisFan_keys _ _ _ f x hf
  · simp at hx

theorem powerBranch_keys (c : Client) (chassis : Chassis) (x : Sample)
    (hx : x ∈ samplesOf (ChassisCollector.powerBranch c chassis)) :
    x.key ∈ powerSupplyKeys := by
  rw [samplesOf_powerBranch] at hx
  split at hx
  · obtain ⟨ps, _, hps⟩ := List.mem_flatMap.1 hx
    exact parseChassisPowerInfoPowerSupply_keys _ _ _ ps x hps
  · simp at hx

theorem processorBranch_keys (c : Client) (system : ComputerSystem) (x : Sample)
    (hx : x ∈ samplesOf (SystemCollector.processorBranch c system)) :
    x.key ∈ processorKeys := by
  rw [samplesOf_processorBranch] at hx
  split at hx
  · simp at hx
  · obtain ⟨p, _, hp⟩ := List.mem_flatMap.1 hx
    exact parsePorcessor_keys _ p x hp

theorem storageBranch_keys (c : Client) (system : ComputerSystem) (x : Sample)
    (hx : x ∈ samplesOf (SystemCollector.storageBranch c system)) :
    x.key ∈ ["system_storage_drive_health_state", "system_storage_drive_capacity"] := by
  rcases mem_samplesOf_storageBranch c system x hx with ⟨d, hd⟩ | ⟨d, hd⟩
  · exact parseHpDrive_keys _ d x hd
  · exact parseDellDrive_keys _ d x hd

/-- The keys under which the chassis collector sends samples. -/
theorem ChassisCollector_keys (c : Client) (x : Sample)
    (hx : x ∈ samplesOf (ChassisCollector.Collect c)) :
    x.key ∈ ["chassis_health", "chassis_state"] ++ thermalKeys ++ powerSupplyKeys := by
  rw [samplesOf_ChassisCollector_Collect] at hx
  split at hx
  · simp at hx
  · obtain ⟨ch, _, hch⟩ := List.mem_flatMap.1 hx
    rw [samplesOf_collectChassis] at hch
    simp only [List.mem_append] at hch ⊢
    rcases hch with (h | h) | h
    · exact Or.inl (Or.inl (chassisIdentity_keys ch x h))
    · exact Or.inl (Or.inr (thermalBranch_keys c ch x h))
    · exact Or.inr (powerBranch_keys c ch x h)

/-- The keys under which the system collector sends samples. -/
theorem SystemCollector_keys (c : Client) (x : Sample)
    (hx : x ∈ samplesOf (SystemCollector.Collect c)) :
    x.key ∈ ["system_state", "system_health_status", "system_power_state",
      "system_processor_summary_state", "system_processor_summary_health_status",
      "system_processor_summary_count", "system_memory_summary_state",
      "system_memory_summary_health_status", "system_memory_summary_size"]
      ++ processorKeys
      ++ ["system_storage_drive_health_state", "system_storage_drive_capacity"] := by
  rw [samplesOf_SystemCollector_Collect] at hx
  split at hx
  · simp at hx
  · obtain ⟨sy, _, hsy⟩ := List.mem_flatMap.1 hx
    rw [samplesOf_collectSystem] at hsy
    simp only [List.mem_append] at hsy ⊢
    rcases hsy with (h | h) | h
    · exact Or.inl (Or.inl (systemIdentity_keys sy x h))
    · exact Or.inl (Or.inr (processorBranch_keys c sy x h))
    · exact Or.inr (storageBranch_keys c sy x h)

/-! ## Lemmas: calls, errors and member fetching -/

theorem mem_errorsOf (op : String) (tr : List Event) :
    op ∈ errorsOf tr ↔ Event.logError op ∈ tr := by
  induction tr with
  | nil => simp [errorsOf]
  | cons e es ih => cases e <;> simp [errorsOf, ih]

theorem mem_callsOf (m : String) (tr : List Event) :
    m ∈ callsOf tr ↔ Event.call m ∈ tr := by
  induction tr with
  | nil => simp [callsOf]
  | cons e es ih => cases e <;> simp [callsOf, ih]

theorem callsOf_nil : callsOf [] = [] := rfl

theorem callsOf_call (m : String) (es : List Event) :
    callsOf (Event.call m :: es) = m :: callsOf es := rfl

theorem callsOf_logInfo (m : String) (es : List Event) :
    callsOf (Event.logInfo m :: es) = callsOf es := rfl

theorem callsOf_logError (op : String) (es : List Event) :
    callsOf (Event.logError op :: es) = callsOf es := rfl

theorem callsOf_append (a b : List Event) : callsOf (a ++ b) = callsOf a ++ callsOf b := by
  induction a with
  | nil => rfl
  | cons e es ih => cases e <;> simp [callsOf, ih]

theorem callsOf_map_send (l : List Sample) : callsOf (l.map Event.send) = [] := by
  induction l with
  | nil => rfl
  | cons x xs ih => simp [callsOf, ih]

theorem callsOf_map_spawn {α : Type} (w : String) (f : α → List Sample) (l : List α) :
    callsOf (l.map (fun a => Event.spawn w (f a))) = [] := by
  induction l with
  | nil => rfl
  | cons x xs ih => simp [callsOf, ih]

theorem fetchMembers_fst {α : Type} (g : String → Except GoError α) (ls : List String) :
    (fetchMembers g ls).1 = ls.filterMap (fun l => (g l).toOption) := by
  induction ls with
  | nil => rfl
  | cons l ls ih =>
    unfold fetchMembers
    cases h : g l <;> simp [Except.toOption, h, ih]

theorem fetchMembers_snd_length {α : Type} (g : String → Except GoError α)
    (ls : List String) :
    (fetchMembers g ls).2.length = (ls.filter (fun l => !(g l).toBool)).length := by
  induction ls with
  | nil => rfl
  | cons l ls ih =>
    unfold fetchMembers
    cases h : g l <;> simp [Except.toBool, h, ih]

theorem fetchMembers_length {α : Type} (g : String → Except GoError α) (ls : List String) :
    (fetchMembers g ls).1.length + (fetchMembers g ls).2.length = ls.length := by
  induction ls with
  | nil => rfl
  | cons l ls ih =>
    unfold fetchMembers
    cases h : g l <;> simp [h] <;> omega

theorem callsOf_flatMap {α : Type} (f : α → List Event) (l : List α) :
    callsOf (l.flatMap f) = l.flatMap (fun a => callsOf (f a)) := by
  induction l with
  | nil => rfl
  | cons x xs ih => simp [callsOf_append, ih]

theorem callsOf_processorBranch (c : Client) (system : ComputerSystem) :
    callsOf (SystemCollector.processorBranch c system) = ["system.Processors()"] := by
  have h := (samplesOf_of_requests _
    (requests_ListReferencedProcessors c system.processors)).2.1
  unfold SystemCollector.processorBranch ComputerSystem.Processors
  generalize ListReferencedProcessors c system.processors = R at h ⊢
  obtain ⟨⟨l, e⟩, ev⟩ := R
  cases l <;> cases e <;> simp_all [callsOf, callsOf_append, callsOf_map_spawn]

theorem callsOf_smartStorageDrives (c : Client) (sn : String) (storage : SmartStorage) :
    callsOf (SystemCollector.smartStorageDrives c sn storage) = ["storage.Drives()"] := by
  have h := (samplesOf_of_requests _ (requests_ListReferencedDrives c storage.drives)).2.1
  unfold SystemCollector.smartStorageDrives SmartStorage.Drives
  generalize ListReferencedDrives c storage.drives = R at h ⊢
  obtain ⟨⟨l, e⟩, ev⟩ := R
  cases l <;> cases e <;> simp_all [callsOf, callsOf_append, callsOf_map_spawn]

theorem callsOf_simpleStorageDevices (sn : String) (item : SimpleStorage) :
    callsOf (SystemCollector.simpleStorageDevices sn item) = [] := by
  unfold SystemCollector.simpleStorageDevices
  exact callsOf_map_spawn _ _ _

theorem callsOf_storageBranch_hpe (c : Client) (system : ComputerSystem)
    (h : systemManufacturer system.Manufacturer = "HPE") :
    ∃ rest, callsOf (SystemCollector.storageBranch c system) = "system.SmartStorages()" :: rest
      ∧ ∀ m ∈ rest, m = "storage.Drives()" := by
  have hreq := (samplesOf_of_requests _
    (requests_ListReferencedSmartStorages c system.smartStorage)).2.1
  unfold SystemCollector.storageBranch ComputerSystem.SmartStorages
  rw [if_pos h]
  generalize ListReferencedSmartStorages c system.smartStorage = R at hreq ⊢
  obtain ⟨⟨l, e⟩, ev⟩ := R
  replace hreq : callsOf ev = [] := hreq
  rw [List.cons_append, callsOf_call, callsOf_append, hreq, List.nil_append]
  refine ⟨_, rfl, ?_⟩
  intro m hm
  cases e with
  | some e => simp [callsOf_logError, callsOf_nil] at hm
  | none =>
    cases l with
    | nil => simp [callsOf_logInfo, callsOf_nil] at hm
    | cons a l =>
      simp only [callsOf_flatMap] at hm
      obtain ⟨st, _, hst⟩ := List.mem_flatMap.1 hm
      rw [callsOf_smartStorageDrives] at hst
      exact List.mem_singleton.1 hst

theorem callsOf_storageBranch_dell (c : Client) (system : ComputerSystem)
    (h : systemManufacturer system.Manufacturer = "Dell") :
    callsOf (SystemCollector.storageBranch c system) = ["system.SimpleStorages()"] := by
  have hne : systemManufacturer system.Manufacturer ≠ "HPE" := by rw [h]; decide
  unfold SystemCollector.storageBranch ComputerSystem.SimpleStorages
  rw [if_neg hne, if_pos h]
  generalize c.ListReferencedSimpleStorages system.simpleStorage = R
  obtain ⟨l, e⟩ := R
  rw [List.cons_append, callsOf_call, List.nil_append]
  cases e with
  | some e => simp [callsOf_logError, callsOf_nil]
  | none =>
    cases l with
    | nil => simp [callsOf_logInfo, callsOf_nil]
    | cons a l =>
      show _ :: callsOf ((a :: l).flatMap _) = _
      rw [callsOf_flatMap]
      simp [callsOf_simpleStorageDevices]

theorem callsOf_collectSystem (c : Client) (system : ComputerSystem) :
    callsOf (SystemCollector.collectSystem c system) =
      "system.Processors()" :: callsOf (SystemCollector.storageBranch c system) := by
  unfold SystemCollector.collectSystem
  simp only [List.cons_append, callsOf_append, callsOf_logInfo, callsOf_map_send,
    callsOf_processorBranch, callsOf_nil, List.nil_append, List.append_nil,
    List.singleton_append]

theorem ownSamples_spawned (cs : List (String × SubCollector)) (tail : List ScrapeEvent) :
    ownSamples (cs.map (fun nc => ScrapeEvent.spawnCollector nc.1 nc.2.Collect) ++ tail)
      = ownSamples tail := by
  induction cs with
  | nil => rfl
  | cons a cs ih => exact ih

theorem ownSamples_Collect (r : RedfishCollector) (elapsed : ℚ) :
    ownSamples (r.Collect elapsed) =
      [Sample.mk "up" (if r.redfishClient.isSome then 1 else 0) [],
       Sample.mk "collector_duration_seconds" elapsed []] := by
  unfold RedfishCollector.Collect
  cases r.redfishClient with
  | none => rfl
  | some cl =>
    show ownSamples (List.map _ r.collectors ++ _) = _
    rw [ownSamples_spawned]
    rfl

theorem subCollectorSamples_spawned (cs : List (String × SubCollector))
    (tail : List ScrapeEvent) (x : Sample)
    (hx : x ∈ subCollectorSamples
      (cs.map (fun nc => ScrapeEvent.spawnCollector nc.1 nc.2.Collect) ++ tail)) :
    x ∈ subCollectorSamples tail ∨ ∃ nc ∈ cs, x ∈ samplesOf nc.2.Collect := by
  induction cs with
  | nil => exact Or.inl hx
  | cons a cs ih =>
    simp only [List.map_cons, List.cons_append, subCollectorSamples, List.mem_append] at hx
    rcases hx with hx | hx
    · exact Or.inr ⟨a, List.mem_cons_self _ _, hx⟩
    · rcases ih hx with h | ⟨nc, hnc, h⟩
      · exact Or.inl h
      · exact Or.inr ⟨nc, List.mem_cons_of_mem _ hnc, h⟩

/-! ## Theorems: the collectors -/

/-- C5: each of the three mappings returns code 0 exactly when `ok` is false, and every
sample with a health, state or power-state key that the chassis and system collectors put on
the channel, leaf tasks included, has a value of at least 1. -/
theorem status_code_zero_never_emitted (c : Client) :
    (∀ s : String,
      ((parseCommonStatusHealth s).1 = 0 ↔ (parseCommonStatusHealth s).2 = false) ∧
      ((parseCommonStatusState s).1 = 0 ↔ (parseCommonStatusState s).2 = false) ∧
      ((parseCommonPowerState s).1 = 0 ↔ (parseCommonPowerState s).2 = false)) ∧
    (∀ x ∈ samplesOf (ChassisCollector.Collect c) ++ samplesOf (SystemCollector.Collect c),
      x.key ∈ statusKeys → (1 : ℚ) ≤ x.value) := by
  have key : ∀ r : Nat × Bool, StatusResult r → (r.1 = 0 ↔ r.2 = false) := by
    rintro r (h | ⟨h2, h1⟩)
    · rw [h]; simp
    · constructor
      · intro h0; omega
      · intro hf; rw [h2] at hf; exact absurd hf (by decide)
  refine ⟨fun s => ⟨key _ (parseCommonStatusHealth_cases s),
    key _ (parseCommonStatusState_cases s), key _ (parseCommonPowerState_cases s)⟩, ?_⟩
  intro x hx hk
  rcases List.mem_append.1 hx with hx | hx
  · rw [samplesOf_ChassisCollector_Collect] at hx
    split at hx
    · simp at hx
    · obtain ⟨ch, _, hch⟩ := List.mem_flatMap.1 hx
      exact collectChassis_codes c ch x hch hk
  · rw [samplesOf_SystemCollector_Collect] at hx
    split at hx
    · simp at hx
    · obtain ⟨sy, _, hsy⟩ := List.mem_flatMap.1 hx
      exact collectSystem_codes c sy x hsy hk

/-- C5, on the example endpoint: the chassis-health sample is on the channel, its key is a
status key, and its value is at least 1. -/
theorem status_code_zero_never_emitted_witness :
    Sample.mk "chassis_health" 1 ["CZ1", "HPE", "chassis", "1"] ∈
      samplesOf (ChassisCollector.Collect exampleClient)
        ++ samplesOf (SystemCollector.Collect exampleClient) ∧
    "chassis_health" ∈ statusKeys ∧
    (1 : ℚ) ≤ (Sample.mk "chassis_health" 1 ["CZ1", "HPE", "chassis", "1"]).value :=
  ⟨by decide, by decide,
    (status_code_zero_never_emitted exampleClient).2
      (Sample.mk "chassis_health" 1 ["CZ1", "HPE", "chassis", "1"]) (by decide) (by decide)⟩

/-- C6, refuted on the example endpoint: the processor collection of the system lists two
members, the first decodes and the second does not, and the samples of the first processor
are nevertheless absent: the collector sends no processor sample at all. -/
theorem processor_fanout_counterexample :
    (Service.Systems exampleClient).1.1 = [exampleSystem] ∧
    (fetchMembers exampleClient.GetProcessor
      ["/redfish/v1/Systems/1/Processors/1", "/redfish/v1/Systems/1/Processors/2"]).1
        = [exampleProcessor] ∧
    (fetchMembers exampleClient.GetProcessor
      ["/redfish/v1/Systems/1/Processors/1", "/redfish/v1/Systems/1/Processors/2"]).2.length
        = 1 ∧
    Sample.mk "system_processor_total_cores" 8 ["S1", "processor", "1", "Xeon"] ∈
      parsePorcessor "S1" exampleProcessor ∧
    (∀ x ∈ samplesOf (SystemCollector.Collect exampleClient), x.key ∉ processorKeys) := by
  refine ⟨by decide, by decide, by decide, by decide, by decide⟩

/-- C6, amended: when the processor collection of a system lists N member links of which
exactly one fails to fetch or decode, `Processors()` returns the N-1 decoded processors
together with an error, and the collector logs that error and sends no processor sample for
the system; the samples of the system itself are still sent. -/
theorem processors_one_failure_skips_branch (c : Client) (system : ComputerSystem)
    (links : List String)
    (hcol : c.GetCollection system.processors = Except.ok links)
    (hfail : (links.filter (fun l => !(c.GetProcessor l).toBool)).length = 1) :
    (system.Processors c).1.1 = links.filterMap (fun l => (c.GetProcessor l).toOption) ∧
    (system.Processors c).1.1.length + 1 = links.length ∧
    (system.Processors c).1.2.isSome = true ∧
    "system.Processors()" ∈ errorsOf (SystemCollector.collectSystem c system) ∧
    (∀ x ∈ samplesOf (SystemCollector.collectSystem c system), x.key ∉ processorKeys) ∧
    (∀ x ∈ SystemCollector.identitySamples system,
      x ∈ samplesOf (SystemCollector.collectSystem c system)) := by
  have hlen := fetchMembers_length c.GetProcessor links
  have hsnd := fetchMembers_snd_length c.GetProcessor links
  rw [hfail] at hsnd
  have hne : (fetchMembers c.GetProcessor links).2.isEmpty = false := by
    cases h : (fetchMembers c.GetProcessor links).2 with
    | nil => rw [h] at hsnd; exact absurd hsnd (by decide)
    | cons a l => rfl
  have hres : (system.Processors c).1 =
      ((fetchMembers c.GetProcessor links).1,
        some (GoError.collection (fetchMembers c.GetProcessor links).2)) := by
    simp [ComputerSystem.Processors, ListReferencedProcessors, hcol, collectionResult, hne]
  have hbranch : samplesOf (SystemCollector.processorBranch c system) = [] := by
    rw [samplesOf_processorBranch, hres]
  refine ⟨?_, ?_, ?_, ?_, ?_, ?_⟩
  · rw [hres]; exact fetchMembers_fst _ _
  · rw [hres]; show (fetchMembers c.GetProcessor links).1.length + 1 = links.length
    omega
  · rw [hres]; rfl
  · rw [mem_errorsOf]
    simp [SystemCollector.collectSystem, SystemCollector.processorBranch, hres]
  · intro x hx hk
    rw [samplesOf_collectSystem, hbranch, List.append_nil] at hx
    rcases List.mem_append.1 hx with h | h
    · have := systemIdentity_keys system x h
      revert hk this
      generalize x.key = k
      intro hk this
      simp only [List.mem_cons, List.mem_singleton, List.not_mem_nil, or_false] at this
      rcases this with rfl | rfl | rfl | rfl | rfl | rfl | rfl | rfl | rfl <;>
        exact absurd hk (by decide)
    · have := storageBranch_keys c system x h
      revert hk this
      generalize x.key = k
      intro hk this
      simp only [List.mem_cons, List.mem_singleton, List.not_mem_nil, or_false] at this
      rcases this with rfl | rfl <;> exact absurd hk (by decide)
  · intro x hx
    rw [samplesOf_collectSystem]
    exact List.mem_append_left _ (List.mem_append_left _ hx)

/-- C6 amended, on the example endpoint: one of the two processor members fails, and the
error of `system.Processors()` is logged. -/
theorem processors_one_failure_skips_branch_witness :
    (["/redfish/v1/Systems/1/Processors/1", "/redfish/v1/Systems/1/Processors/2"].filter
      (fun l => !(exampleClient.GetProcessor l).toBool)).length = 1 ∧
    "system.Processors()" ∈
      errorsOf (SystemCollector.collectSystem exampleClient exampleSystem) :=
  ⟨by decide,
   (processors_one_failure_skips_branch exampleClient exampleSystem
     ["/redfish/v1/Systems/1/Processors/1", "/redfish/v1/Systems/1/Processors/2"]
     rfl (by decide)).2.2.2.1⟩

/-- C7: the scrape-status gauge of a sub-collector is set but never sent.  No sample with
the key `collector_scrape_status` is put on the channel by the chassis collector, by the
system collector, or by the orchestrator that runs them, although the chassis collector sets
the gauge to 1 at the end of every `Collect`. -/
theorem scrape_status_set_but_never_sent (c : Client) (r : RedfishCollector) (elapsed : ℚ) :
    Event.setScrapeStatus "chassis" 1 ∈ ChassisCollector.Collect c ∧
    (samplesOf (ChassisCollector.Collect c)).countP
      (fun x => x.key = "collector_scrape_status") = 0 ∧
    (samplesOf (SystemCollector.Collect c)).countP
      (fun x => x.key = "collector_scrape_status") = 0 ∧
    (ownSamples (r.Collect elapsed) ++ subCollectorSamples (r.Collect elapsed)).countP
      (fun x => x.key = "collector_scrape_status") = 0 := by
  have hch : ∀ (c : Client), ∀ x ∈ samplesOf (ChassisCollector.Collect c),
      x.key ≠ "collector_scrape_status" := by
    intro c x hx hk
    have := ChassisCollector_keys c x hx
    rw [hk] at this
    exact absurd this (by decide)
  have hsy : ∀ (c : Client), ∀ x ∈ samplesOf (SystemCollector.Collect c),
      x.key ≠ "collector_scrape_status" := by
    intro c x hx hk
    have := SystemCollector_keys c x hx
    rw [hk] at this
    exact absurd this (by decide)
  refine ⟨?_, ?_, ?_, ?_⟩
  · simp [ChassisCollector.Collect]
  · rw [List.countP_eq_zero]
    intro x hx
    simpa using hch c x hx
  · rw [List.countP_eq_zero]
    intro x hx
    simpa using hsy c x hx
  · rw [List.countP_eq_zero]
    intro x hx
    suffices h : x.key ≠ "collector_scrape_status" by simpa using h
    rcases List.mem_append.1 hx with h | h
    · rw [ownSamples_Collect] at h
      simp only [List.mem_cons, List.mem_singleton, List.not_mem_nil, or_false] at h
      rcases h with rfl | rfl <;> (dsimp only; decide)
    · unfold RedfishCollector.Collect at h
      cases hcl : r.redfishClient with
      | none =>
        rw [hcl] at h
        simp [subCollectorSamples] at h
      | some cl =>
        rw [hcl] at h
        replace h : x ∈ subCollectorSamples (List.map
            (fun nc => ScrapeEvent.spawnCollector nc.1 nc.2.Collect) r.collectors ++
            [ScrapeEvent.send (Sample.mk "up" 1 []),
             ScrapeEvent.send (Sample.mk "collector_duration_seconds" elapsed []),
             ScrapeEvent.wait, ScrapeEvent.logout]) := h
        rcases subCollectorSamples_spawned _ _ x h with h | ⟨nc, _, h⟩
        · simp [subCollectorSamples] at h
        · rcases nc with ⟨n, sc⟩
          cases sc with
          | chassis c' => exact hch c' x h
          | system c' => exact hsy c' x h

/-- C8: in the loop body of `SystemCollector.Collect`, a system whose manufacturer token is
"HPE" has `SmartStorages()` called once and `SimpleStorages()` never, a system whose token
is "Dell" has `SimpleStorages()` called once and `SmartStorages()` never, and for every other
token neither is called, no `system_storage_drive_*` sample is sent, and the storage branch
does nothing at all, so it logs no error. -/
theorem vendor_branch_exclusive (c : Client) (system : ComputerSystem) :
    (systemManufacturer system.Manufacturer = "HPE" →
      (callsOf (SystemCollector.collectSystem c system)).count "system.SmartStorages()" = 1 ∧
      "system.SimpleStorages()" ∉ callsOf (SystemCollector.collectSystem c system)) ∧
    (systemManufacturer system.Manufacturer = "Dell" →
      (callsOf (SystemCollector.collectSystem c system)).count "system.SimpleStorages()" = 1 ∧
      "system.SmartStorages()" ∉ callsOf (SystemCollector.collectSystem c system)) ∧
    (systemManufacturer system.Manufacturer ≠ "HPE" →
      systemManufacturer system.Manufacturer ≠ "Dell" →
      "system.SmartStorages()" ∉ callsOf (SystemCollector.collectSystem c system) ∧
      "system.SimpleStorages()" ∉ callsOf (SystemCollector.collectSystem c system) ∧
      (∀ x ∈ samplesOf (SystemCollector.collectSystem c system), x.key ∉ driveKeys) ∧
      SystemCollector.storageBranch c system = []) := by
  refine ⟨fun h => ?_, fun h => ?_, fun h1 h2 => ?_⟩
  · obtain ⟨rest, hrest, hall⟩ := callsOf_storageBranch_hpe c system h
    rw [callsOf_collectSystem, hrest]
    have hnot : "system.SmartStorages()" ∉ rest := fun hm =>
      absurd (hall _ hm) (by decide)
    have hnot2 : "system.SimpleStorages()" ∉ rest := fun hm =>
      absurd (hall _ hm) (by decide)
    refine ⟨?_, ?_⟩
    · rw [List.count_cons, List.count_cons, List.count_eq_zero_of_not_mem hnot]
      decide
    · intro hm
      rcases List.mem_cons.1 hm with h' | h'
      · exact absurd h' (by decide)
      · rcases List.mem_cons.1 h' with h'' | h''
        · exact absurd h'' (by decide)
        · exact hnot2 h''
  · rw [callsOf_collectSystem, callsOf_storageBranch_dell c system h]
    exact ⟨by decide, by decide⟩
  · have hnil : SystemCollector.storageBranch c system = [] := by
      unfold SystemCollector.storageBranch
      rw [if_neg h1, if_neg h2]
    rw [callsOf_collectSystem, hnil]
    refine ⟨by decide, by decide, ?_, rfl⟩
    intro x hx hk
    rw [samplesOf_collectSystem, hnil] at hx
    simp only [samplesOf_nil, List.append_nil] at hx
    have hkeys : x.key ∈ ["system_state", "system_health_status", "system_power_state",
        "system_processor_summary_state", "system_processor_summary_health_status",
        "system_processor_summary_count", "system_memory_summary_state",
        "system_memory_summary_health_status", "system_memory_summary_size"]
        ++ processorKeys := by
      rcases List.mem_append.1 hx with h | h
      · exact List.mem_append_left _ (systemIdentity_keys system x h)
      · exact List.mem_append_right _ (processorBranch_keys c system x h)
    revert hk hkeys
    generalize x.key = k
    intro hk hkeys
    simp only [processorKeys, List.cons_append, List.nil_append, List.mem_cons,
      List.mem_singleton, List.not_mem_nil, or_false] at hkeys
    rcases hkeys with rfl | rfl | rfl | rfl | rfl | rfl | rfl | rfl | rfl | rfl | rfl | rfl
      | rfl <;> exact absurd hk (by decide)

/-- C8, on the example endpoint, for an "HPE" system, a "Dell" system and a system of another
vendor. -/
theorem vendor_branch_exclusive_witness :
    (systemManufacturer exampleHpeSystem.Manufacturer = "HPE" ∧
      "system.SimpleStorages()" ∉
        callsOf (SystemCollector.collectSystem exampleClient exampleHpeSystem)) ∧
    (systemManufacturer exampleDellSystem.Manufacturer = "Dell" ∧
      "system.SmartStorages()" ∉
        callsOf (SystemCollector.collectSystem exampleClient exampleDellSystem)) ∧
    (systemManufacturer exampleSystem.Manufacturer ≠ "HPE" ∧
      systemManufacturer exampleSystem.Manufacturer ≠ "Dell" ∧
      SystemCollector.storageBranch exampleClient exampleSystem = []) :=
  ⟨⟨by decide, ((vendor_branch_exclusive exampleClient exampleHpeSystem).1 (by decide)).2⟩,
   ⟨by decide, ((vendor_branch_exclusive exampleClient exampleDellSystem).2.1 (by decide)).2⟩,
   ⟨by decide, by decide,
    ((vendor_branch_exclusive exampleClient exampleSystem).2.2 (by decide) (by decide)).2.2.2⟩⟩

/-- C9: when the client cannot be created, the collector has no client and no
sub-collectors, and `Collect` sets the up gauge to 0 and sends exactly two samples, the up
gauge with value 0 followed by the duration; no sub-collector runs and `Logout` is not
called. -/
theorem connect_failure_scrape (connect : ClientConfig → Except GoError Client)
    (host username password basicauth : String) (elapsed : ℚ) (e : GoError)
    (h : newRedfishClient connect host username password
      (if basicauth ≠ "" then true else false) = Except.error e) :
    (NewRedfishCollector connect host username password basicauth).redfishClient.isNone
      = true ∧
    (NewRedfishCollector connect host username password basicauth).collectors.length = 0 ∧
    (NewRedfishCollector connect host username password basicauth).Collect elapsed =
      [ScrapeEvent.setUp 0, ScrapeEvent.send (Sample.mk "up" 0 []),
       ScrapeEvent.send (Sample.mk "collector_duration_seconds" elapsed [])] ∧
    ownSamples ((NewRedfishCollector connect host username password basicauth).Collect
      elapsed) = [Sample.mk "up" 0 [], Sample.mk "collector_duration_seconds" elapsed []] ∧
    subCollectorSamples ((NewRedfishCollector connect host username password
      basicauth).Collect elapsed) = [] ∧
    logoutCount ((NewRedfishCollector connect host username password basicauth).Collect
      elapsed) = 0 := by
  have hr : NewRedfishCollector connect host username password basicauth =
      { redfishClient := none, collectors := [] } := by
    unfold NewRedfishCollector
    simp only [h]
  rw [hr]
  exact ⟨rfl, rfl, rfl, rfl, rfl, rfl⟩

/-- C9, with a `redfish.Connect` that times out: the scrape sends the up gauge with value 0
and the duration, and nothing else. -/
theorem connect_failure_scrape_witness :
    ownSamples ((NewRedfishCollector exampleConnectFailure "10.0.0.1" "admin" "secret"
      "").Collect 3) = [Sample.mk "up" 0 [], Sample.mk "collector_duration_seconds" 3 []] :=
  (connect_failure_scrape exampleConnectFailure "10.0.0.1" "admin" "secret" "" 3
    (GoError.failure "dial tcp: i/o timeout") rfl).2.2.2.1

/-- C10: for a chassis whose thermal link is empty, `Thermal()` returns a nil result and a
nil error and issues no request, and the loop body of `ChassisCollector.Collect` sends no
temperature or fan sample while its samples are exactly the chassis' own samples followed by
those of the power branch; and likewise, with the roles of thermal and power exchanged, for a
chassis whose power link is empty. -/
theorem empty_link_skips_branch (c : Client) (chassis : Chassis) :
    (chassis.thermal = "" →
      chassis.Thermal c = ((none, none), []) ∧
      ChassisCollector.thermalBranch c chassis =
        [Event.call "chassis.Thermal()", Event.logInfo "no thermal data found"] ∧
      (∀ x ∈ samplesOf (ChassisCollector.collectChassis c chassis), x.key ∉ thermalKeys) ∧
      samplesOf (ChassisCollector.collectChassis c chassis) =
        ChassisCollector.identitySamples chassis
          ++ samplesOf (ChassisCollector.powerBranch c chassis)) ∧
    (chassis.power = "" →
      chassis.Power c = ((none, none), []) ∧
      ChassisCollector.powerBranch c chassis =
        [Event.call "chassis.Power()", Event.logInfo "no power data found"] ∧
      (∀ x ∈ samplesOf (ChassisCollector.collectChassis c chassis),
        x.key ∉ powerSupplyKeys) ∧
      samplesOf (ChassisCollector.collectChassis c chassis) =
        ChassisCollector.identitySamples chassis
          ++ samplesOf (ChassisCollector.thermalBranch c chassis)) := by
  constructor
  · intro h
    have hT : chassis.Thermal c = ((none, none), []) := by
      unfold Chassis.Thermal
      rw [if_pos h]
    have hB : ChassisCollector.thermalBranch c chassis =
        [Event.call "chassis.Thermal()", Event.logInfo "no thermal data found"] := by
      unfold ChassisCollector.thermalBranch
      rw [hT]
      rfl
    have hS : samplesOf (ChassisCollector.collectChassis c chassis) =
        ChassisCollector.identitySamples chassis
          ++ samplesOf (ChassisCollector.powerBranch c chassis) := by
      rw [samplesOf_collectChassis, hB]
      simp [samplesOf]
    refine ⟨hT, hB, ?_, hS⟩
    intro x hx hk
    rw [hS] at hx
    rcases List.mem_append.1 hx with hx | hx
    · have := chassisIdentity_keys chassis x hx
      revert hk this
      generalize x.key = k
      intro hk this
      simp only [List.mem_cons, List.mem_singleton, List.not_mem_nil, or_false] at this
      rcases this with rfl | rfl <;> exact absurd hk (by decide)
    · have := powerBranch_keys c chassis x hx
      revert hk this
      generalize x.key = k
      intro hk this
      simp only [powerSupplyKeys, List.mem_cons, List.mem_singleton, List.not_mem_nil,
        or_false] at this
      rcases this with rfl | rfl | rfl | rfl <;> exact absurd hk (by decide)
  · intro h
    have hP : chassis.Power c = ((none, none), []) := by
      unfold Chassis.Power
      rw [if_pos h]
    have hB : ChassisCollector.powerBranch c chassis =
        [Event.call "chassis.Power()", Event.logInfo "no power data found"] := by
      unfold ChassisCollector.powerBranch
      rw [hP]
      rfl
    have hS : samplesOf (ChassisCollector.collectChassis c chassis) =
        ChassisCollector.identitySamples chassis
          ++ samplesOf (ChassisCollector.thermalBranch c chassis) := by
      rw [samplesOf_collectChassis, hB]
      simp [samplesOf]
    refine ⟨hP, hB, ?_, hS⟩
    intro x hx hk
    rw [hS] at hx
    rcases List.mem_append.1 hx with hx | hx
    · have := chassisIdentity_keys chassis x hx
      revert hk this
      generalize x.key = k
      intro hk this
      simp only [List.mem_cons, List.mem_singleton, List.not_mem_nil, or_false] at this
      rcases this with rfl | rfl <;> exact absurd hk (by decide)
    · have := thermalBranch_keys c chassis x hx
      revert hk this
      generalize x.key = k
      intro hk this
      simp only [thermalKeys, List.mem_cons, List.mem_singleton, List.not_mem_nil,
        or_false] at this
      rcases this with rfl | rfl | rfl | rfl | rfl <;> exact absurd hk (by decide)

/-- C10, on a chassis without thermal link and on a chassis without power link: the call
makes no request and the branch only logs that there is no data. -/
theorem empty_link_skips_branch_witness :
    (examplePowerChassis.thermal = "" ∧
      ChassisCollector.thermalBranch exampleClient examplePowerChassis =
        [Event.call "chassis.Thermal()", Event.logInfo "no thermal data found"]) ∧
    (exampleChassis.power = "" ∧
      ChassisCollector.powerBranch exampleClient exampleChassis =
        [Event.call "chassis.Power()", Event.logInfo "no power data found"]) :=
  ⟨⟨by decide, ((empty_link_skips_branch exampleClient examplePowerChassis).1
      (by decide)).2.1⟩,
   ⟨by decide, ((empty_link_skips_branch exampleClient exampleChassis).2 (by decide)).2.1⟩⟩

/-! ## Lemmas: decoding a system -/

theorem hpLinks_Manufacturer (es : List (String × JSON)) :
    ∀ (cs cs' : ComputerSystem), ComputerSystem.hpLinks cs es = Except.ok cs' →
      cs'.Manufacturer = cs.Manufacturer := by
  induction es with
  | nil =>
    intro cs cs' h
    simp only [ComputerSystem.hpLinks, Except.ok.injEq] at h
    rw [h]
  | cons kv rest ih =>
    intro cs cs' h
    obtain ⟨k, v⟩ := kv
    unfold ComputerSystem.hpLinks at h
    split at h
    · split at h
      · split at h
        · split at h
          · exact (ih _ _ h).trans rfl
          · cases h
        · split at h
          · split at h
            · exact (ih _ _ h).trans rfl
            · cases h
          · exact (ih _ _ h).trans rfl
      · exact (ih _ _ h).trans rfl
    · cases h

theorem hpBattery_Manufacturer (items : List JSON) :
    ∀ (cs cs' : ComputerSystem), ComputerSystem.hpBattery cs items = Except.ok cs' →
      cs'.Manufacturer = cs.Manufacturer := by
  induction items with
  | nil =>
    intro cs cs' h
    simp only [ComputerSystem.hpBattery, Except.ok.injEq] at h
    rw [h]
  | cons item rest ih =>
    intro cs cs' h
    unfold ComputerSystem.hpBattery at h
    split at h
    · split at h
      · exact (ih _ _ h).trans rfl
      · cases h
      · exact (ih _ _ h).trans rfl
    · cases h

theorem except_bind_ok {ε α β : Type} (x : Except ε α) (f : α → Except ε β) (b : β)
    (h : x >>= f = Except.ok b) : ∃ a, x = Except.ok a ∧ f a = Except.ok b := by
  cases x with
  | error e => cases h
  | ok a => exact ⟨a, rfl, h⟩

theorem oemBlock_Manufacturer (cs cs' : ComputerSystem) (oem : Option JSON)
    (h : ComputerSystem.oemBlock cs oem = Except.ok cs') :
    cs'.Manufacturer = cs.Manufacturer := by
  unfold ComputerSystem.oemBlock at h
  split at h
  · simp only [Except.ok.injEq] at h
    rw [h]
  · split at h
    · simp only [Except.ok.injEq] at h
      rw [h]
    · split at h
      · obtain ⟨linked, h1, h2⟩ := except_bind_ok _ _ _ h
        have hl : linked.Manufacturer = cs.Manufacturer := by
          split at h1
          · simp only [Except.ok.injEq] at h1
            rw [h1]
          · exact hpLinks_Manufacturer _ _ _ h1
          · cases h1
        rw [← hl]
        split at h2
        · simp only [Except.ok.injEq] at h2
          rw [h2]
        · exact hpBattery_Manufacturer _ _ _ h2
        · cases h2
      · cases h

theorem UnmarshalJSON_Manufacturer (t : ComputerSystemFields) (cs : ComputerSystem)
    (h : ComputerSystem.UnmarshalJSON (Except.ok t) = Except.ok cs) :
    cs.Manufacturer = systemManufacturer t.Manufacturer := by
  unfold ComputerSystem.UnmarshalJSON at h
  obtain ⟨mid, h1, h2⟩ := except_bind_ok _ _ _ h
  have hm := oemBlock_Manufacturer _ _ _ h1
  simp only [Except.ok.injEq] at h2
  rw [← h2]
  split
  · exact hm
  · exact hm

theorem oemBlock_without_Hp (cs : ComputerSystem) (oem : Option JSON)
    (h : oem = none ∨ ∃ raw, oem = some raw ∧ JSON.lookup raw.members "Hp" = none) :
    ComputerSystem.oemBlock cs oem = Except.ok cs := by
  rcases h with h | ⟨raw, h, hHp⟩
  · rw [h]; rfl
  · rw [h]
    simp only [ComputerSystem.oemBlock, hHp]

theorem processors_fallback_smartStorage (cs : ComputerSystem) (link : String) :
    (if cs.processors = "" then { cs with processors := link } else cs).smartStorage
      = cs.smartStorage := by
  split <;> rfl

/-! ## Lemmas: the manufacturer token -/

theorem splitChars_head (sep : Char) (cs : List Char) :
    ∃ ts, splitChars sep cs = cs.takeWhile (fun ch => decide (ch ≠ sep)) :: ts := by
  induction cs with
  | nil => exact ⟨[], rfl⟩
  | cons c cs ih =>
    obtain ⟨ts, hts⟩ := ih
    unfold splitChars
    by_cases hc : c = sep
    · rw [if_pos hc]
      exact ⟨splitChars sep cs, by simp [List.takeWhile, hc]⟩
    · rw [if_neg hc, hts]
      exact ⟨ts, by simp [List.takeWhile, hc]⟩

theorem systemManufacturer_eq (m : String) :
    systemManufacturer m =
      if m ≠ "" then String.mk (m.data.takeWhile (fun ch => decide (ch ≠ ' ')))
      else "Unknown" := by
  unfold systemManufacturer stringsSplit
  obtain ⟨ts, hts⟩ := splitChars_head ' ' m.data
  rw [hts]
  rfl

theorem collectSystem_no_drive_samples (c : Client) (system : ComputerSystem)
    (h : samplesOf (SystemCollector.storageBranch c system) = []) :
    ∀ x ∈ samplesOf (SystemCollector.collectSystem c system), x.key ∉ driveKeys := by
  intro x hx hk
  rw [samplesOf_collectSystem, h, List.append_nil] at hx
  have hkeys : x.key ∈ ["system_state", "system_health_status", "system_power_state",
      "system_processor_summary_state", "system_processor_summary_health_status",
      "system_processor_summary_count", "system_memory_summary_state",
      "system_memory_summary_health_status", "system_memory_summary_size"]
      ++ processorKeys := by
    rcases List.mem_append.1 hx with h | h
    · exact List.mem_append_left _ (systemIdentity_keys system x h)
    · exact List.mem_append_right _ (processorBranch_keys c system x h)
  revert hk hkeys
  generalize x.key = k
  intro hk hkeys
  simp only [processorKeys, List.cons_append, List.nil_append, List.mem_cons,
    List.mem_singleton, List.not_mem_nil, or_false] at hkeys
  rcases hkeys with rfl | rfl | rfl | rfl | rfl | rfl | rfl | rfl | rfl | rfl | rfl | rfl
    | rfl <;> exact absurd hk (by decide)

/-! ## Theorems: links, decoding and labels -/

/-- C11: for a system whose processors link is empty, `Processors()` still asks the client
for the collection at the empty address, and its result is the outcome of that request: an
error on the example endpoint, which the collector logs, and an empty result on an endpoint
that answers the empty address.  `ListReferencedSmartStorages` and `ListReferencedDrives`
return before any request when their link is empty. -/
theorem processors_unset_link_requests :
    exampleUnlinkedSystem.processors = "" ∧
    requestsOf (exampleUnlinkedSystem.Processors exampleClient).2 = [""] ∧
    (exampleUnlinkedSystem.Processors exampleClient).1.2.isSome = true ∧
    "system.Processors()" ∈
      errorsOf (SystemCollector.collectSystem exampleClient exampleUnlinkedSystem) ∧
    requestsOf (exampleUnlinkedSystem.Processors exampleLenientClient).2 = [""] ∧
    (exampleUnlinkedSystem.Processors exampleLenientClient).1.2.isSome = false ∧
    requestsOf (ListReferencedSmartStorages exampleClient "").2 = [] ∧
    requestsOf (ListReferencedDrives exampleClient "").2 = [] := by
  refine ⟨by decide, by decide, by decide, by decide, by decide, by decide, by decide,
    by decide⟩

/-- C12: a system decoded from a document without `Oem` member, or whose `Oem` member has no
"Hp" entry, decodes without failure and has an empty smart-storage link; `SmartStorages()`
on it, and `Drives()` on a controller with an empty physical-drives link, return an empty
result and no error without any request; and when its manufacturer token is "HPE" the storage
branch of the collector only logs that there is no storage data, so no
`system_storage_drive_*` sample is sent and no error is logged by that branch. -/
theorem no_vendor_extension_no_storage (t : ComputerSystemFields) (c : Client)
    (hOem : t.Oem = none ∨ ∃ raw, t.Oem = some raw ∧ JSON.lookup raw.members "Hp" = none) :
    ∃ cs, ComputerSystem.UnmarshalJSON (Except.ok t) = Except.ok cs ∧
      cs.smartStorage = "" ∧
      cs.SmartStorages c = (([], none), []) ∧
      (∀ st : SmartStorage, st.drives = "" → st.Drives c = (([], none), [])) ∧
      (systemManufacturer cs.Manufacturer = "HPE" →
        SystemCollector.storageBranch c cs =
          [Event.call "system.SmartStorages()", Event.logInfo "no storage data found"] ∧
        errorsOf (SystemCollector.storageBranch c cs) = [] ∧
        ∀ x ∈ samplesOf (SystemCollector.collectSystem c cs), x.key ∉ driveKeys) := by
  have hdec : ∃ cs, ComputerSystem.UnmarshalJSON (Except.ok t) = Except.ok cs ∧
      cs.smartStorage = "" := by
    unfold ComputerSystem.UnmarshalJSON
    simp only [oemBlock_without_Hp _ _ hOem]
    exact ⟨_, rfl, (processors_fallback_smartStorage _ _).trans rfl⟩
  obtain ⟨cs, hcs, hlink⟩ := hdec
  have hsmart : cs.SmartStorages c = (([], none), []) := by
    unfold ComputerSystem.SmartStorages ListReferencedSmartStorages
    rw [if_pos hlink]
  refine ⟨cs, hcs, hlink, hsmart, ?_, ?_⟩
  · intro st hst
    unfold SmartStorage.Drives ListReferencedDrives
    rw [if_pos hst]
  · intro hHPE
    have hbranch : SystemCollector.storageBranch c cs =
        [Event.call "system.SmartStorages()", Event.logInfo "no storage data found"] := by
      unfold SystemCollector.storageBranch
      rw [if_pos hHPE, hsmart]
      rfl
    refine ⟨hbranch, ?_, ?_⟩
    · rw [hbranch]; rfl
    · apply collectSystem_no_drive_samples
      rw [hbranch]; rfl

/-- C12, on the fields of an HPE system document without `Oem` member: the decoded system
has an empty smart-storage link. -/
theorem no_vendor_extension_no_storage_witness :
    ∃ cs, ComputerSystem.UnmarshalJSON (Except.ok examplePlainFields) = Except.ok cs ∧
      cs.smartStorage = "" :=
  (no_vendor_extension_no_storage examplePlainFields exampleClient (Or.inl rfl)).imp
    (fun _ h => ⟨h.1, h.2.1⟩)

/-- C13: the manufacturer token of "HPE ProLiant DL380" is "HPE", that of the empty string
is "Unknown", every non-empty string without a space is its own token, and the
`Manufacturer` of a decoded system is the token of the manufacturer string of its document,
by the same rule as the `mfr` label of both collectors. -/
theorem manufacturer_token_derivation :
    systemManufacturer "HPE ProLiant DL380" = "HPE" ∧
    systemManufacturer "" = "Unknown" ∧
    (∀ m : String, m ≠ "" → ' ' ∉ m.data → systemManufacturer m = m) ∧
    (∀ (t : ComputerSystemFields) (cs : ComputerSystem),
      ComputerSystem.UnmarshalJSON (Except.ok t) = Except.ok cs →
        cs.Manufacturer = systemManufacturer t.Manufacturer) := by
  refine ⟨by decide, by decide, ?_, UnmarshalJSON_Manufacturer⟩
  intro m hm hsp
  rw [systemManufacturer_eq, if_pos hm]
  have h : m.data.takeWhile (fun ch => decide (ch ≠ ' ')) = m.data := by
    rw [List.takeWhile_eq_self_iff]
    intro x hx
    simp only [decide_eq_true_eq]
    intro hx'
    exact hsp (hx' ▸ hx)
  rw [h]

/-- C13, on the one-word manufacturer "Dell": it has no space and is its own token. -/
theorem manufacturer_token_derivation_witness :
    "Dell" ≠ "" ∧ ' ' ∉ "Dell".data ∧ systemManufacturer "Dell" = "Dell" :=
  ⟨by decide, by decide, manufacturer_token_derivation.2.2.1 "Dell" (by decide) (by decide)⟩

/-- C14, refuted: the token of " HPE" is empty, not "HPE"; the token of a string of spaces
is empty, not "Unknown"; and the token of "HPE", a tab, "ProLiant DL380" keeps the tab. -/
theorem manufacturer_token_counterexample :
    systemManufacturer " HPE" = "" ∧
    systemManufacturer "   " = "" ∧
    systemManufacturer "HPE\tProLiant DL380" = "HPE\tProLiant" ∧
    '\t' ∈ (systemManufacturer "HPE\tProLiant DL380").data := by
  refine ⟨by decide, by decide, by decide, by decide⟩

/-- C14, amended: the manufacturer token is "Unknown" when the manufacturer string is empty,
and otherwise the part of the string before its first space character, all of it when it has
none; it never contains a space character, and it is empty exactly when the string starts
with a space. -/
theorem manufacturer_token_before_space (m : String) :
    (m = "" → systemManufacturer m = "Unknown") ∧
    (m ≠ "" →
      systemManufacturer m = String.mk (m.data.takeWhile (fun ch => decide (ch ≠ ' ')))) ∧
    ' ' ∉ (systemManufacturer m).data ∧
    (systemManufacturer m = "" ↔ m.data.head? = some ' ') := by
  have heq := systemManufacturer_eq m
  refine ⟨fun h => ?_, fun h => ?_, ?_, ?_⟩
  · rw [heq, if_neg (not_not.2 h)]
  · rw [heq, if_pos h]
  · rw [heq]
    split
    · intro hmem
      have := List.mem_takeWhile_imp hmem
      simp at this
    · decide
  · rw [heq]
    by_cases hm : m = ""
    · rw [if_neg (not_not.2 hm), hm]
      decide
    · rw [if_pos hm]
      obtain ⟨data⟩ := m
      cases data with
      | nil => exact absurd rfl hm
      | cons ch rest =>
        by_cases hch : ch = ' '
        · subst hch
          simp [List.takeWhile]
        · constructor
          · intro h
            have h' := congrArg String.data h
            simp [List.takeWhile, hch] at h'
          · intro h
            simp at h
            exact absurd h hch

/-- C14 amended, on "HPE ProLiant DL380": the string is not empty and its token is the part
before the first space. -/
theorem manufacturer_token_before_space_witness :
    "HPE ProLiant DL380" ≠ "" ∧
    systemManufacturer "HPE ProLiant DL380" =
      String.mk ("HPE ProLiant DL380".data.takeWhile (fun ch => decide (ch ≠ ' '))) :=
  ⟨by decide, (manufacturer_token_before_space "HPE ProLiant DL380").2.1 (by decide)⟩

/-! ## Lemmas: the first label value of the samples of each part -/

theorem statusSample_labels (r : Nat × Bool) (key : String) (labels : List String)
    (x : Sample) (hx : x ∈ statusSample r key labels) : x.labelValues = labels := by
  unfold statusSample at hx
  split at hx
  · rw [List.mem_singleton.1 hx]
  · simp at hx

theorem parseChassisTemperature_sn (sn m id : String) (t : Temperature) (x : Sample)
    (hx : x ∈ parseChassisTemperature sn m id t) : x.labelValues.head? = some sn := by
  simp only [parseChassisTemperature, List.mem_append, List.mem_singleton] at hx
  rcases hx with hx | rfl
  · rw [statusSample_labels _ _ _ x hx]; rfl
  · rfl

theorem parseChassisFan_sn (sn m id : String) (f : Fan) (x : Sample)
    (hx : x ∈ parseChassisFan sn m id f) : x.labelValues.head? = some sn := by
  simp only [parseChassisFan, List.mem_append, List.mem_singleton] at hx
  rcases hx with (hx | hx) | rfl
  · rw [statusSample_labels _ _ _ x hx]; rfl
  · rw [statusSample_labels _ _ _ x hx]; rfl
  · rfl

theorem parseChassisPowerInfoPowerSupply_sn (sn m id : String) (ps : PowerSupply)
    (x : Sample) (hx : x ∈ parseChassisPowerInfoPowerSupply sn m id ps) :
    x.labelValues.head? = some sn := by
  simp only [parseChassisPowerInfoPowerSupply, List.mem_append, List.mem_cons,
    List.mem_singleton, List.not_mem_nil, or_false] at hx
  rcases hx with (hx | hx) | rfl | rfl
  · rw [statusSample_labels _ _ _ x hx]; rfl
  · rw [statusSample_labels _ _ _ x hx]; rfl
  · rfl
  · rfl

theorem parsePorcessor_sn (sn : String) (p : Processor) (x : Sample)
    (hx : x ∈ parsePorcessor sn p) : x.labelValues.head? = some sn := by
  simp only [parsePorcessor, List.mem_append, List.mem_cons, List.mem_singleton,
    List.not_mem_nil, or_false] at hx
  rcases hx with (hx | hx) | rfl | rfl
  · rw [statusSample_labels _ _ _ x hx]; rfl
  · rw [statusSample_labels _ _ _ x hx]; rfl
  · rfl
  · rfl

theorem parseHpDrive_sn (sn : String) (d : Drive) (x : Sample)
    (hx : x ∈ parseHpDrive sn d) : x.labelValues.head? = some sn := by
  simp only [parseHpDrive, List.mem_append, List.mem_singleton] at hx
  rcases hx with hx | rfl
  · rw [statusSample_labels _ _ _ x hx]; rfl
  · rfl

theorem parseDellDrive_sn (sn : String) (d : Device) (x : Sample)
    (hx : x ∈ parseDellDrive sn d) : x.labelValues.head? = some sn := by
  simp only [parseDellDrive, List.mem_append, List.mem_singleton] at hx
  rcases hx with hx | rfl
  · rw [statusSample_labels _ _ _ x hx]; rfl
  · rfl

theorem chassisIdentity_sn (chassis : Chassis) (x : Sample)
    (hx : x ∈ ChassisCollector.identitySamples chassis) :
    x.labelValues.head? = some (serialNumber chassis.SerialNumber chassis.SKU) := by
  simp only [ChassisCollector.identitySamples, List.mem_append] at hx
  rcases hx with hx | hx
  · rw [statusSample_labels _ _ _ x hx]; rfl
  · rw [statusSample_labels _ _ _ x hx]; rfl

theorem systemIdentity_sn (system : ComputerSystem) (x : Sample)
    (hx : x ∈ SystemCollector.identitySamples system) :
    x.labelValues.head? = some (serialNumber system.SerialNumber system.SKU) := by
  simp only [SystemCollector.identitySamples, List.mem_append, List.mem_singleton] at hx
  rcases hx with (((((((hx | hx) | hx) | hx) | hx) | rfl) | hx) | hx) | rfl
  · rw [statusSample_labels _ _ _ x hx]; rfl
  · rw [statusSample_labels _ _ _ x hx]; rfl
  · rw [statusSample_labels _ _ _ x hx]; rfl
  · rw [statusSample_labels _ _ _ x hx]; rfl
  · rw [statusSample_labels _ _ _ x hx]; rfl
  · rfl
  · rw [statusSample_labels _ _ _ x hx]; rfl
  · rw [statusSample_labels _ _ _ x hx]; rfl
  · rfl

/-- C15: every sample of a chassis, and every sample of a system, whether sent by the
collecting goroutine or written by one of its leaf tasks, carries as its first label value
(the `sn` label) the SKU when the SKU is not empty and the serial number otherwise. -/
theorem sn_label_prefers_sku (c : Client) (chassis : Chassis) (system : ComputerSystem) :
    (∀ x ∈ samplesOf (ChassisCollector.collectChassis c chassis),
      x.labelValues.head? =
        some (if chassis.SKU ≠ "" then chassis.SKU else chassis.SerialNumber)) ∧
    (∀ x ∈ samplesOf (SystemCollector.collectSystem c system),
      x.labelValues.head? =
        some (if system.SKU ≠ "" then system.SKU else system.SerialNumber)) := by
  constructor
  · intro x hx
    show x.labelValues.head? = some (serialNumber chassis.SerialNumber chassis.SKU)
    rw [samplesOf_collectChassis, samplesOf_thermalBranch, samplesOf_powerBranch] at hx
    simp only [List.mem_append] at hx
    rcases hx with (hx | hx) | hx
    · exact chassisIdentity_sn chassis x hx
    · split at hx
      · rcases List.mem_append.1 hx with h | h
        · obtain ⟨t, _, ht⟩ := List.mem_flatMap.1 h
          exact parseChassisTemperature_sn _ _ _ t x ht
        · obtain ⟨f, _, hf⟩ := List.mem_flatMap.1 h
          exact parseChassisFan_sn _ _ _ f x hf
      · simp at hx
    · split at hx
      · obtain ⟨ps, _, hps⟩ := List.mem_flatMap.1 hx
        exact parseChassisPowerInfoPowerSupply_sn _ _ _ ps x hps
      · simp at hx
  · intro x hx
    show x.labelValues.head? = some (serialNumber system.SerialNumber system.SKU)
    rw [samplesOf_collectSystem] at hx
    simp only [List.mem_append] at hx
    rcases hx with (hx | hx) | hx
    · exact systemIdentity_sn system x hx
    · rw [samplesOf_processorBranch] at hx
      split at hx
      · simp at hx
      · obtain ⟨p, _, hp⟩ := List.mem_flatMap.1 hx
        exact parsePorcessor_sn _ p x hp
    · rcases mem_samplesOf_storageBranch c system x hx with ⟨d, hd⟩ | ⟨d, hd⟩
      · exact parseHpDrive_sn _ d x hd
      · exact parseDellDrive_sn _ d x hd

/-- C15, on the example endpoint: the temperature reading of the example chassis, written by
a leaf task, carries the serial number of the chassis, whose SKU is empty. -/
theorem sn_label_prefers_sku_witness :
    Sample.mk "chassis_temperature_celsius" 42 ["CZ1", "HPE", "temperature", "1", "Inlet", "0"]
      ∈ samplesOf (ChassisCollector.collectChassis exampleClient exampleChassis) ∧
    (Sample.mk "chassis_temperature_celsius" 42
      ["CZ1", "HPE", "temperature", "1", "Inlet", "0"]).labelValues.head? =
        some (if exampleChassis.SKU ≠ "" then exampleChassis.SKU
          else exampleChassis.SerialNumber) :=
  ⟨by decide,
   (sn_label_prefers_sku exampleClient exampleChassis exampleSystem).1 _ (by decide)⟩

/-! ## Theorems: end-to-end scenarios and isolation -/

theorem Chassis.Power_empty_link (c : Client) (chassis : Chassis) (h : chassis.power = "") :
    chassis.Power c = ((none, none), []) := by
  unfold Chassis.Power
  rw [if_pos h]

/-- Scenario A, when the temperature task runs to its end: with a single chassis with health
"OK" and state "Enabled", one temperature sensor reading 42 with state "Enabled", no fans and
no power link, the samples sent by `ChassisCollector.Collect` and written by its leaf task are
the four of the scenario, none of them a power-supply sample. -/
theorem samplesOf_scenario_single_chassis (c : Client) (chassis : Chassis) (t : Temperature)
    (henum : (Service.Chassis c).1 = ([chassis], none))
    (hhealth : chassis.Status.Health = "OK")
    (hstate : chassis.Status.State = "Enabled")
    (hthermal : (chassis.Thermal c).1 = (some { Temperatures := [t], Fans := [] }, none))
    (hreading : t.ReadingCelsius = 42)
    (htstate : t.Status.State = "Enabled")
    (hpower : chassis.power = "") :
    (samplesOf (ChassisCollector.Collect c)).Perm
      [Sample.mk "chassis_health" 1
         [serialNumber chassis.SerialNumber chassis.SKU,
          systemManufacturer chassis.Manufacturer, "chassis", chassis.ID],
       Sample.mk "chassis_state" 1
         [serialNumber chassis.SerialNumber chassis.SKU,
          systemManufacturer chassis.Manufacturer, "chassis", chassis.ID],
       Sample.mk "chassis_temperature_sensor_state" 1
         [serialNumber chassis.SerialNumber chassis.SKU,
          systemManufacturer chassis.Manufacturer, "temperature", chassis.ID,
          t.Name, t.MemberID],
       Sample.mk "chassis_temperature_celsius" 42
         [serialNumber chassis.SerialNumber chassis.SKU,
          systemManufacturer chassis.Manufacturer, "temperature", chassis.ID,
          t.Name, t.MemberID]] ∧
    (∀ x ∈ samplesOf (ChassisCollector.Collect c), x.key ∉ powerSupplyKeys) := by
  have hid : ChassisCollector.identitySamples chassis =
      [Sample.mk "chassis_health" 1
         [serialNumber chassis.SerialNumber chassis.SKU,
          systemManufacturer chassis.Manufacturer, "chassis", chassis.ID],
       Sample.mk "chassis_state" 1
         [serialNumber chassis.SerialNumber chassis.SKU,
          systemManufacturer chassis.Manufacturer, "chassis", chassis.ID]] := by
    unfold ChassisCollector.identitySamples
    rw [hhealth, hstate]
    rfl
  have hth : samplesOf (ChassisCollector.thermalBranch c chassis) =
      [Sample.mk "chassis_temperature_sensor_state" 1
         [serialNumber chassis.SerialNumber chassis.SKU,
          systemManufacturer chassis.Manufacturer, "temperature", chassis.ID,
          t.Name, t.MemberID],
       Sample.mk "chassis_temperature_celsius" 42
         [serialNumber chassis.SerialNumber chassis.SKU,
          systemManufacturer chassis.Manufacturer, "temperature", chassis.ID,
          t.Name, t.MemberID]] := by
    rw [samplesOf_thermalBranch, hthermal]
    simp only [List.flatMap_cons, List.flatMap_nil, List.append_nil]
    unfold parseChassisTemperature
    rw [htstate, hreading]
    rfl
  have hpw : samplesOf (ChassisCollector.powerBranch c chassis) = [] := by
    rw [samplesOf_powerBranch, Chassis.Power_empty_link c chassis hpower]
  have hall : samplesOf (ChassisCollector.Collect c) =
      [Sample.mk "chassis_health" 1
         [serialNumber chassis.SerialNumber chassis.SKU,
          systemManufacturer chassis.Manufacturer, "chassis", chassis.ID],
       Sample.mk "chassis_state" 1
         [serialNumber chassis.SerialNumber chassis.SKU,
          systemManufacturer chassis.Manufacturer, "chassis", chassis.ID],
       Sample.mk "chassis_temperature_sensor_state" 1
         [serialNumber chassis.SerialNumber chassis.SKU,
          systemManufacturer chassis.Manufacturer, "temperature", chassis.ID,
          t.Name, t.MemberID],
       Sample.mk "chassis_temperature_celsius" 42
         [serialNumber chassis.SerialNumber chassis.SKU,
          systemManufacturer chassis.Manufacturer, "temperature", chassis.ID,
          t.Name, t.MemberID]] := by
    rw [samplesOf_ChassisCollector_Collect, henum]
    simp only [List.flatMap_cons, List.flatMap_nil, List.append_nil]
    rw [samplesOf_collectChassis, hid, hth, hpw]
    rfl
  refine ⟨hall ▸ List.Perm.refl _, ?_⟩
  intro x hx hk
  rw [hall] at hx
  simp only [List.mem_cons, List.mem_singleton, List.not_mem_nil, or_false] at hx
  rcases hx with rfl | rfl | rfl | rfl <;> (dsimp only at hk; exact absurd hk (by decide))

/-- C17: for every system that `service.Systems()` returns, with health "Critical", power
state "PoweringOn" and a processor summary count of 2, `SystemCollector.Collect` sends
system_health_status = 3, system_power_state = 3 and system_processor_summary_count = 2,
each with the label values (sn, manufacturer token, "system", system id, model). -/
theorem scenario_critical_system (c : Client) (systems : List ComputerSystem)
    (system : ComputerSystem)
    (henum : (Service.Systems c).1 = (systems, none))
    (hmem : system ∈ systems)
    (hhealth : system.Status.Health = "Critical")
    (hpower : system.PowerState = "PoweringOn")
    (hcount : system.ProcessorSummary.Count = 2) :
    Sample.mk "system_health_status" 3
        [serialNumber system.SerialNumber system.SKU,
         systemManufacturer system.Manufacturer, "system", system.ID, system.Model]
      ∈ samplesOf (SystemCollector.Collect c) ∧
    Sample.mk "system_power_state" 3
        [serialNumber system.SerialNumber system.SKU,
         systemManufacturer system.Manufacturer, "system", system.ID, system.Model]
      ∈ samplesOf (SystemCollector.Collect c) ∧
    Sample.mk "system_processor_summary_count" 2
        [serialNumber system.SerialNumber system.SKU,
         systemManufacturer system.Manufacturer, "system", system.ID, system.Model]
      ∈ samplesOf (SystemCollector.Collect c) := by
  have hsub : ∀ x ∈ SystemCollector.identitySamples system,
      x ∈ samplesOf (SystemCollector.Collect c) := by
    intro x hx
    rw [samplesOf_SystemCollector_Collect, henum]
    refine List.mem_flatMap.2 ⟨system, hmem, ?_⟩
    rw [samplesOf_collectSystem]
    exact List.mem_append_left _ (List.mem_append_left _ hx)
  have h3 : statusSample (parseCommonStatusHealth "Critical") "system_health_status"
      [serialNumber system.SerialNumber system.SKU,
       systemManufacturer system.Manufacturer, "system", system.ID, system.Model] =
      [Sample.mk "system_health_status" 3
        [serialNumber system.SerialNumber system.SKU,
         systemManufacturer system.Manufacturer, "system", system.ID, system.Model]] := rfl
  have h4 : statusSample (parseCommonPowerState "PoweringOn") "system_power_state"
      [serialNumber system.SerialNumber system.SKU,
       systemManufacturer system.Manufacturer, "system", system.ID, system.Model] =
      [Sample.mk "system_power_state" 3
        [serialNumber system.SerialNumber system.SKU,
         systemManufacturer system.Manufacturer, "system", system.ID, system.Model]] := rfl
  refine ⟨hsub _ ?_, hsub _ ?_, hsub _ ?_⟩
  · simp only [SystemCollector.identitySamples, hhealth, h3, List.mem_append,
      List.mem_singleton, true_or, or_true]
  · simp only [SystemCollector.identitySamples, hpower, h4, List.mem_append,
      List.mem_singleton, true_or, or_true]
  · simp only [SystemCollector.identitySamples, hcount, List.mem_append,
      List.mem_singleton, Int.cast_ofNat, true_or, or_true]

/-- C17, on the endpoint that serves the critical system: the three samples of the scenario
are sent. -/
theorem scenario_critical_system_witness :
    Sample.mk "system_health_status" 3 ["S1", "Lenovo", "system", "1", "SR650"]
      ∈ samplesOf (SystemCollector.Collect exampleCriticalClient) ∧
    Sample.mk "system_power_state" 3 ["S1", "Lenovo", "system", "1", "SR650"]
      ∈ samplesOf (SystemCollector.Collect exampleCriticalClient) ∧
    Sample.mk "system_processor_summary_count" 2 ["S1", "Lenovo", "system", "1", "SR650"]
      ∈ samplesOf (SystemCollector.Collect exampleCriticalClient) :=
  scenario_critical_system exampleCriticalClient [exampleCriticalSystem] exampleCriticalSystem
    rfl (by decide) rfl rfl rfl

theorem filter_keys_self (l : List Sample) (keys : List String) (p : String → Bool)
    (h : ∀ x ∈ l, x.key ∈ keys) (hp : ∀ k ∈ keys, p k = true) :
    l.filter (fun x => p x.key) = l :=
  List.filter_eq_self.2 (fun x hx => hp _ (h x hx))

theorem filter_keys_nil (l : List Sample) (keys : List String) (p : String → Bool)
    (h : ∀ x ∈ l, x.key ∈ keys) (hp : ∀ k ∈ keys, p k = false) :
    l.filter (fun x => p x.key) = [] :=
  List.filter_eq_nil_iff.2 (fun x hx => by rw [hp _ (h x hx)]; decide)

theorem powerBranch_congr (c c' : Client) (chassis : Chassis) (link : String)
    (h : c.GetPower = c'.GetPower) :
    ChassisCollector.powerBranch c' { chassis with thermal := link } =
      ChassisCollector.powerBranch c chassis := by
  have hP : Chassis.Power c' { chassis with thermal := link } = Chassis.Power c chassis := by
    unfold Chassis.Power
    rw [h]
  unfold ChassisCollector.powerBranch
  rw [hP]

theorem thermalBranch_congr (c c' : Client) (chassis : Chassis) (link : String)
    (h : c.GetThermal = c'.GetThermal) :
    ChassisCollector.thermalBranch c' { chassis with power := link } =
      ChassisCollector.thermalBranch c chassis := by
  have hT : Chassis.Thermal c' { chassis with power := link } = Chassis.Thermal c chassis := by
    unfold Chassis.Thermal
    rw [h]
  unfold ChassisCollector.thermalBranch
  rw [hT]

theorem filter_identity_power (c : Client) (chassis : Chassis) :
    (samplesOf (ChassisCollector.collectChassis c chassis)).filter
        (fun x => decide (x.key ∈ chassisIdentityKeys ++ powerSupplyKeys)) =
      ChassisCollector.identitySamples chassis
        ++ samplesOf (ChassisCollector.powerBranch c chassis) := by
  rw [samplesOf_collectChassis, List.filter_append, List.filter_append,
    filter_keys_self _ chassisIdentityKeys
      (fun k => decide (k ∈ chassisIdentityKeys ++ powerSupplyKeys))
      (chassisIdentity_keys chassis) (by decide),
    filter_keys_nil _ thermalKeys
      (fun k => decide (k ∈ chassisIdentityKeys ++ powerSupplyKeys))
      (thermalBranch_keys c chassis) (by decide),
    filter_keys_self _ powerSupplyKeys
      (fun k => decide (k ∈ chassisIdentityKeys ++ powerSupplyKeys))
      (powerBranch_keys c chassis) (by decide),
    List.append_nil]

theorem filter_identity_thermal (c : Client) (chassis : Chassis) :
    (samplesOf (ChassisCollector.collectChassis c chassis)).filter
        (fun x => decide (x.key ∈ chassisIdentityKeys ++ thermalKeys)) =
      ChassisCollector.identitySamples chassis
        ++ samplesOf (ChassisCollector.thermalBranch c chassis) := by
  rw [samplesOf_collectChassis, List.filter_append, List.filter_append,
    filter_keys_self _ chassisIdentityKeys
      (fun k => decide (k ∈ chassisIdentityKeys ++ thermalKeys))
      (chassisIdentity_keys chassis) (by decide),
    filter_keys_self _ thermalKeys
      (fun k => decide (k ∈ chassisIdentityKeys ++ thermalKeys))
      (thermalBranch_keys c chassis) (by decide),
    filter_keys_nil _ powerSupplyKeys
      (fun k => decide (k ∈ chassisIdentityKeys ++ thermalKeys))
      (powerBranch_keys c chassis) (by decide),
    List.append_nil]

/-- C18: in the loop body of `ChassisCollector.Collect`, the chassis' own samples and the
power-supply samples do not depend on the thermal link or on what the endpoint answers for
thermal documents, be it a document, nothing or a failure; likewise the chassis' own samples
and the temperature and fan samples do not depend on the power link or on what the endpoint
answers for power documents; and whatever the branches do, the body runs to its last
statement, the log of the completed scrape. -/
theorem sibling_branch_isolation (c c' : Client) (chassis : Chassis) (link : String) :
    (c.GetPower = c'.GetPower →
      (samplesOf (ChassisCollector.collectChassis c' { chassis with thermal := link })).filter
          (fun x => decide (x.key ∈ chassisIdentityKeys ++ powerSupplyKeys)) =
        (samplesOf (ChassisCollector.collectChassis c chassis)).filter
          (fun x => decide (x.key ∈ chassisIdentityKeys ++ powerSupplyKeys))) ∧
    (c.GetThermal = c'.GetThermal →
      (samplesOf (ChassisCollector.collectChassis c' { chassis with power := link })).filter
          (fun x => decide (x.key ∈ chassisIdentityKeys ++ thermalKeys)) =
        (samplesOf (ChassisCollector.collectChassis c chassis)).filter
          (fun x => decide (x.key ∈ chassisIdentityKeys ++ thermalKeys))) ∧
    (ChassisCollector.collectChassis c chassis).getLast? =
      some (Event.logInfo "collector scrape completed") := by
  refine ⟨fun h => ?_, fun h => ?_, ?_⟩
  · rw [filter_identity_power, filter_identity_power, powerBranch_congr c c' chassis link h]
    rfl
  · rw [filter_identity_thermal, filter_identity_thermal,
      thermalBranch_congr c c' chassis link h]
    rfl
  · unfold ChassisCollector.collectChassis
    exact List.getLast?_concat _

/-- C18, on the example chassis, between the example endpoint and the endpoint on which
every thermal request fails: the chassis' own samples and the power-supply samples are the
same. -/
theorem sibling_branch_isolation_witness :
    exampleClient.GetPower = exampleThermalFailureClient.GetPower ∧
    (samplesOf (ChassisCollector.collectChassis exampleThermalFailureClient
        { exampleChassis with thermal := "/redfish/v1/Chassis/1/Thermal" })).filter
        (fun x => decide (x.key ∈ chassisIdentityKeys ++ powerSupplyKeys)) =
      (samplesOf (ChassisCollector.collectChassis exampleClient exampleChassis)).filter
        (fun x => decide (x.key ∈ chassisIdentityKeys ++ powerSupplyKeys)) :=
  ⟨rfl, (sibling_branch_isolation exampleClient exampleThermalFailureClient exampleChassis
    "/redfish/v1/Chassis/1/Thermal").1 rfl⟩

/-! ## Theorems: teardown and joins -/

theorem logoutCount_spawned (cs : List (String × SubCollector)) (tail : List ScrapeEvent) :
    logoutCount (cs.map (fun nc => ScrapeEvent.spawnCollector nc.1 nc.2.Collect) ++ tail)
      = logoutCount tail := by
  induction cs with
  | nil => rfl
  | cons a cs ih => exact ih

/-- C19: in a scrape with an open client, `Logout` is called exactly once, as the last step,
right after the `wg.Wait()` that follows the start of every registered sub-collector, and so
after each of their `Collect` calls has returned; in a scrape without client, `Logout` is not
called. -/
theorem logout_once_after_join (r : RedfishCollector) (elapsed : ℚ) :
    (r.redfishClient.isSome = true →
      logoutCount (r.Collect elapsed) = 1 ∧
      ∃ pre, r.Collect elapsed = pre ++ [ScrapeEvent.wait, ScrapeEvent.logout] ∧
        logoutCount pre = 0 ∧
        ∀ nc ∈ r.collectors, ScrapeEvent.spawnCollector nc.1 nc.2.Collect ∈ pre) ∧
    (r.redfishClient.isSome = false → logoutCount (r.Collect elapsed) = 0) := by
  unfold RedfishCollector.Collect
  cases r.redfishClient with
  | none =>
    refine ⟨fun h => absurd h (by decide), fun _ => rfl⟩
  | some cl =>
    refine ⟨fun _ => ⟨?_, ?_⟩, fun h => absurd h (by simp)⟩
    · show logoutCount (List.map _ r.collectors ++ _) = 1
      rw [logoutCount_spawned]
      rfl
    · refine ⟨ScrapeEvent.setUp 1
          :: r.collectors.map (fun nc => ScrapeEvent.spawnCollector nc.1 nc.2.Collect)
          ++ [ScrapeEvent.send (Sample.mk "up" 1 []),
              ScrapeEvent.send (Sample.mk "collector_duration_seconds" elapsed [])],
        ?_, ?_, ?_⟩
      · simp
      · show logoutCount (List.map _ r.collectors ++ _) = 0
        rw [logoutCount_spawned]
        rfl
      · intro nc hnc
        refine List.mem_append_left _ (List.mem_cons_of_mem _ ?_)
        exact List.mem_map.2 ⟨nc, hnc, rfl⟩

/-- C19, on a collector that holds the example endpoint: its client is open and the scrape
calls `Logout` once. -/
theorem logout_once_after_join_witness :
    exampleCollector.redfishClient.isSome = true ∧
    logoutCount (exampleCollector.Collect 3) = 1 :=
  ⟨rfl, ((logout_once_after_join exampleCollector 3).1 rfl).1⟩

theorem not_wait_of_requests (tr : List Event) (h : ∀ e ∈ tr, ∃ u, e = Event.get u)
    (w : String) : Event.wait w ∉ tr := by
  intro hm
  obtain ⟨u, hu⟩ := h _ hm
  cases hu

theorem thermalBranch_no_wait (c : Client) (chassis : Chassis) (w : String) :
    Event.wait w ∉ ChassisCollector.thermalBranch c chassis := by
  have h := not_wait_of_requests _ (requests_Thermal c chassis) w
  unfold ChassisCollector.thermalBranch
  generalize chassis.Thermal c = R at h ⊢
  obtain ⟨⟨t, e⟩, ev⟩ := R
  cases t <;> cases e <;> simp_all

theorem powerBranch_no_wait (c : Client) (chassis : Chassis) (w : String) :
    Event.wait w ∉ ChassisCollector.powerBranch c chassis := by
  have h := not_wait_of_requests _ (requests_Power c chassis) w
  unfold ChassisCollector.powerBranch
  generalize chassis.Power c = R at h ⊢
  obtain ⟨⟨t, e⟩, ev⟩ := R
  cases t <;> cases e <;> simp_all

theorem collectChassis_no_wait (c : Client) (chassis : Chassis) (w : String) :
    Event.wait w ∉ ChassisCollector.collectChassis c chassis := by
  have h1 := thermalBranch_no_wait c chassis w
  have h2 := powerBranch_no_wait c chassis w
  unfold ChassisCollector.collectChassis
  simp [h1, h2]

theorem ChassisCollector_no_wait (c : Client) (w : String) :
    Event.wait w ∉ ChassisCollector.Collect c := by
  have h := not_wait_of_requests _ (requests_ListReferencedChassis c c.chassisLink) w
  unfold ChassisCollector.Collect Service.Chassis
  generalize ListReferencedChassis c c.chassisLink = R at h ⊢
  obtain ⟨⟨l, e⟩, ev⟩ := R
  cases e <;> simp_all [collectChassis_no_wait]

theorem processorBranch_no_wait (c : Client) (system : ComputerSystem) (w : String) :
    Event.wait w ∉ SystemCollector.processorBranch c system := by
  have h := not_wait_of_requests _
    (requests_ListReferencedProcessors c system.processors) w
  unfold SystemCollector.processorBranch ComputerSystem.Processors
  generalize ListReferencedProcessors c system.processors = R at h ⊢
  obtain ⟨⟨l, e⟩, ev⟩ := R
  cases l <;> cases e <;> simp_all

theorem smartStorageDrives_no_wait (c : Client) (sn : String) (storage : SmartStorage)
    (w : String) : Event.wait w ∉ SystemCollector.smartStorageDrives c sn storage := by
  have h := not_wait_of_requests _ (requests_ListReferencedDrives c storage.drives) w
  unfold SystemCollector.smartStorageDrives SmartStorage.Drives
  generalize ListReferencedDrives c storage.drives = R at h ⊢
  obtain ⟨⟨l, e⟩, ev⟩ := R
  cases l <;> cases e <;> simp_all

theorem simpleStorageDevices_no_wait (sn : String) (item : SimpleStorage) (w : String) :
    Event.wait w ∉ SystemCollector.simpleStorageDevices sn item := by
  unfold SystemCollector.simpleStorageDevices
  simp

theorem storageBranch_no_wait (c : Client) (system : ComputerSystem) (w : String) :
    Event.wait w ∉ SystemCollector.storageBranch c system := by
  unfold SystemCollector.storageBranch
  split
  · have h := not_wait_of_requests _
      (requests_ListReferencedSmartStorages c system.smartStorage) w
    unfold ComputerSystem.SmartStorages
    generalize ListReferencedSmartStorages c system.smartStorage = R at h ⊢
    obtain ⟨⟨l, e⟩, ev⟩ := R
    cases l <;> cases e <;> simp_all [smartStorageDrives_no_wait]
  · split
    · simp only [ComputerSystem.SimpleStorages]
      generalize c.ListReferencedSimpleStorages system.simpleStorage = R
      obtain ⟨l, e⟩ := R
      cases l <;> cases e <;> simp_all [simpleStorageDevices_no_wait]
    · simp

theorem collectSystem_no_wait (c : Client) (system : ComputerSystem) (w : String) :
    Event.wait w ∉ SystemCollector.collectSystem c system := by
  have h1 := processorBranch_no_wait c system w
  have h2 := storageBranch_no_wait c system w
  unfold SystemCollector.collectSystem
  simp [h1, h2]

theorem SystemCollector_no_wait (c : Client) (w : String) :
    Event.wait w ∉ SystemCollector.Collect c := by
  have h := not_wait_of_requests _
    (requests_ListReferencedComputerSystems c c.systemsLink) w
  unfold SystemCollector.Collect Service.Systems
  generalize ListReferencedComputerSystems c c.systemsLink = R at h ⊢
  obtain ⟨⟨l, e⟩, ev⟩ := R
  cases e <;> simp_all [collectSystem_no_wait]

/-- C20: neither sub-collector ever waits on a wait group of its leaf tasks: no `wg.Wait()`
occurs in `ChassisCollector.Collect` or in `SystemCollector.Collect`, whatever the endpoint.
On the example endpoint the chassis collector starts the temperature task on the group `wg`
and returns without joining it. -/
theorem leaf_tasks_never_joined (c : Client) (w : String) :
    Event.wait w ∉ ChassisCollector.Collect c ∧
    Event.wait w ∉ SystemCollector.Collect c ∧
    Event.spawn "wg"
        [Sample.mk "chassis_temperature_sensor_state" 1
           ["CZ1", "HPE", "temperature", "1", "Inlet", "0"],
         Sample.mk "chassis_temperature_celsius" 42
           ["CZ1", "HPE", "temperature", "1", "Inlet", "0"]]
      ∈ ChassisCollector.Collect exampleClient ∧
    allJoined (ChassisCollector.Collect exampleClient) = false :=
  ⟨ChassisCollector_no_wait c w, SystemCollector_no_wait c w, by decide, by decide⟩

/-! ## Theorems: what is on the channel when the chassis collector returns -/

theorem deliveredSamples_eq_sentOf (es : List Event) (h : ∀ w, Event.wait w ∉ es) :
    deliveredSamples es = sentOf es := by
  induction es with
  | nil => rfl
  | cons e es ih =>
    have ih2 := ih (fun w hw => h w (List.mem_cons_of_mem _ hw))
    cases e with
    | spawn w task =>
      have hc : es.contains (Event.wait w) = false := by
        simpa using fun hw => h w (List.mem_cons_of_mem _ hw)
      simp only [deliveredSamples, sentOf, hc, ih2]
      rfl
    | _ => simp only [deliveredSamples, sentOf, ih2]

theorem sentOf_nil : sentOf [] = [] := rfl

theorem sentOf_send (s : Sample) (es : List Event) :
    sentOf (Event.send s :: es) = s :: sentOf es := rfl

theorem sentOf_spawn (w : String) (t : List Sample) (es : List Event) :
    sentOf (Event.spawn w t :: es) = sentOf es := rfl

theorem sentOf_call (m : String) (es : List Event) :
    sentOf (Event.call m :: es) = sentOf es := rfl

theorem sentOf_logError (op : String) (es : List Event) :
    sentOf (Event.logError op :: es) = sentOf es := rfl

theorem sentOf_logInfo (m : String) (es : List Event) :
    sentOf (Event.logInfo m :: es) = sentOf es := rfl

theorem sentOf_setScrapeStatus (n : String) (v : ℚ) (es : List Event) :
    sentOf (Event.setScrapeStatus n v :: es) = sentOf es := rfl

theorem sentOf_append (a b : List Event) : sentOf (a ++ b) = sentOf a ++ sentOf b := by
  induction a with
  | nil => rfl
  | cons e es ih => cases e <;> simp [sentOf, ih]

theorem sentOf_map_send (l : List Sample) : sentOf (l.map Event.send) = l := by
  induction l with
  | nil => rfl
  | cons x xs ih => simp [sentOf, ih]

theorem sentOf_map_spawn {α : Type} (w : String) (f : α → List Sample) (l : List α) :
    sentOf (l.map (fun a => Event.spawn w (f a))) = [] := by
  induction l with
  | nil => rfl
  | cons x xs ih => simp [sentOf, ih]

theorem sentOf_flatMap {α : Type} (f : α → List Event) (l : List α) :
    sentOf (l.flatMap f) = l.flatMap (fun a => sentOf (f a)) := by
  induction l with
  | nil => rfl
  | cons x xs ih => simp [sentOf_append, ih]

theorem sentOf_of_requests (tr : List Event) (h : ∀ e ∈ tr, ∃ u, e = Event.get u) :
    sentOf tr = [] := by
  induction tr with
  | nil => rfl
  | cons e es ih =>
    obtain ⟨u, rfl⟩ := h e (List.mem_cons_self _ _)
    have := ih (fun e he => h e (List.mem_cons_of_mem _ he))
    simpa [sentOf] using this

theorem sentOf_thermalBranch (c : Client) (chassis : Chassis) :
    sentOf (ChassisCollector.thermalBranch c chassis) = [] := by
  have h := sentOf_of_requests _ (requests_Thermal c chassis)
  unfold ChassisCollector.thermalBranch
  generalize chassis.Thermal c = R at h ⊢
  obtain ⟨⟨t, e⟩, ev⟩ := R
  cases t <;> cases e <;> simp_all [sentOf, sentOf_append, sentOf_map_spawn]

theorem sentOf_powerBranch (c : Client) (chassis : Chassis) :
    sentOf (ChassisCollector.powerBranch c chassis) = [] := by
  have h := sentOf_of_requests _ (requests_Power c chassis)
  unfold ChassisCollector.powerBranch
  generalize chassis.Power c = R at h ⊢
  obtain ⟨⟨t, e⟩, ev⟩ := R
  cases t <;> cases e <;> simp_all [sentOf, sentOf_append, sentOf_map_spawn]

theorem sentOf_collectChassis (c : Client) (chassis : Chassis) :
    sentOf (ChassisCollector.collectChassis c chassis) =
      ChassisCollector.identitySamples chassis := by
  unfold ChassisCollector.collectChassis
  simp only [sentOf_append, sentOf_logInfo, sentOf_map_send, sentOf_thermalBranch,
    sentOf_powerBranch, sentOf_nil, List.append_nil]

theorem deliveredSamples_ChassisCollector_Collect (c : Client) :
    deliveredSamples (ChassisCollector.Collect c) =
      match (Service.Chassis c).1 with
      | (_, some _) => []
      | (chassises, none) => chassises.flatMap ChassisCollector.identitySamples := by
  rw [deliveredSamples_eq_sentOf _ (ChassisCollector_no_wait c)]
  have h := sentOf_of_requests _ (requests_ListReferencedChassis c c.chassisLink)
  unfold ChassisCollector.Collect Service.Chassis
  generalize ListReferencedChassis c c.chassisLink = R at h ⊢
  obtain ⟨⟨l, e⟩, ev⟩ := R
  cases e <;>
    simp only [sentOf_append, sentOf_call, sentOf_logError, sentOf_setScrapeStatus,
      sentOf_flatMap, sentOf_collectChassis, sentOf_nil, h, List.append_nil, List.nil_append]

theorem spawn_mem_ChassisCollector_Collect (c : Client) (chassis : Chassis)
    (chassises : List Chassis) (thermal : Thermal) (t : Temperature)
    (henum : (Service.Chassis c).1 = (chassises, none))
    (hmem : chassis ∈ chassises)
    (hthermal : (chassis.Thermal c).1 = (some thermal, none))
    (ht : t ∈ thermal.Temperatures) :
    Event.spawn "wg" (parseChassisTemperature (serialNumber chassis.SerialNumber chassis.SKU)
        (systemManufacturer chassis.Manufacturer) chassis.ID t)
      ∈ ChassisCollector.Collect c := by
  unfold ChassisCollector.Collect
  rw [henum]
  refine List.mem_append_left _ (List.mem_append_right _ ?_)
  refine List.mem_flatMap.2 ⟨chassis, hmem, ?_⟩
  unfold ChassisCollector.collectChassis
  refine List.mem_append_left _ (List.mem_append_left _ (List.mem_append_right _ ?_))
  unfold ChassisCollector.thermalBranch
  refine List.mem_append_right _ ?_
  rw [hthermal]
  exact List.mem_append_left _ (List.mem_map.2 ⟨t, ht, rfl⟩)

theorem allJoined_false_of_spawn (es : List Event) (w : String) (task : List Sample)
    (hs : Event.spawn w task ∈ es) (hw : Event.wait w ∉ es) : allJoined es = false := by
  induction es with
  | nil => cases hs
  | cons e es ih =>
    have hw2 : Event.wait w ∉ es := fun h => hw (List.mem_cons_of_mem _ h)
    rcases List.mem_cons.1 hs with rfl | hs2
    · have hc : es.contains (Event.wait w) = false := by simpa using hw2
      simp only [allJoined, hc, Bool.false_and]
    · have := ih hs2 hw2
      cases e <;> simp only [allJoined, this, Bool.and_false]

/-- C16: on the endpoint of scenario A (a single chassis with health "OK" and state
"Enabled", whose thermal document has exactly one temperature sensor, reading 42 with state
"Enabled", and no fans, and which has no power link) only chassis_health = 1 and
chassis_state = 1 are on the channel for certain when `ChassisCollector.Collect` returns.
The two temperature samples are written by a leaf task started on the wait group `wg`, and
no `wg.Wait()` occurs, so the task is not joined and the samples delivered are not the four of
the scenario.  The four are what is written when the task runs to its end, and no
power-supply sample is written in either case. -/
theorem scenario_single_chassis_unjoined (c : Client) (chassis : Chassis) (t : Temperature)
    (henum : (Service.Chassis c).1 = ([chassis], none))
    (hhealth : chassis.Status.Health = "OK")
    (hstate : chassis.Status.State = "Enabled")
    (hthermal : (chassis.Thermal c).1 = (some { Temperatures := [t], Fans := [] }, none))
    (hreading : t.ReadingCelsius = 42)
    (htstate : t.Status.State = "Enabled")
    (hpower : chassis.power = "") :
    deliveredSamples (ChassisCollector.Collect c) =
      [Sample.mk "chassis_health" 1
         [serialNumber chassis.SerialNumber chassis.SKU,
          systemManufacturer chassis.Manufacturer, "chassis", chassis.ID],
       Sample.mk "chassis_state" 1
         [serialNumber chassis.SerialNumber chassis.SKU,
          systemManufacturer chassis.Manufacturer, "chassis", chassis.ID]] ∧
    Event.spawn "wg"
        [Sample.mk "chassis_temperature_sensor_state" 1
           [serialNumber chassis.SerialNumber chassis.SKU,
            systemManufacturer chassis.Manufacturer, "temperature", chassis.ID,
            t.Name, t.MemberID],
         Sample.mk "chassis_temperature_celsius" 42
           [serialNumber chassis.SerialNumber chassis.SKU,
            systemManufacturer chassis.Manufacturer, "temperature", chassis.ID,
            t.Name, t.MemberID]]
      ∈ ChassisCollector.Collect c ∧
    (∀ w, Event.wait w ∉ ChassisCollector.Collect c) ∧
    allJoined (ChassisCollector.Collect c) = false ∧
    ¬ (deliveredSamples (ChassisCollector.Collect c)).Perm
      [Sample.mk "chassis_health" 1
         [serialNumber chassis.SerialNumber chassis.SKU,
          systemManufacturer chassis.Manufacturer, "chassis", chassis.ID],
       Sample.mk "chassis_state" 1
         [serialNumber chassis.SerialNumber chassis.SKU,
          systemManufacturer chassis.Manufacturer, "chassis", chassis.ID],
       Sample.mk "chassis_temperature_sensor_state" 1
         [serialNumber chassis.SerialNumber chassis.SKU,
          systemManufacturer chassis.Manufacturer, "temperature", chassis.ID,
          t.Name, t.MemberID],
       Sample.mk "chassis_temperature_celsius" 42
         [serialNumber chassis.SerialNumber chassis.SKU,
          systemManufacturer chassis.Manufacturer, "temperature", chassis.ID,
          t.Name, t.MemberID]] ∧
    (samplesOf (ChassisCollector.Collect c)).Perm
      [Sample.mk "chassis_health" 1
         [serialNumber chassis.SerialNumber chassis.SKU,
          systemManufacturer chassis.Manufacturer, "chassis", chassis.ID],
       Sample.mk "chassis_state" 1
         [serialNumber chassis.SerialNumber chassis.SKU,
          systemManufacturer chassis.Manufacturer, "chassis", chassis.ID],
       Sample.mk "chassis_temperature_sensor_state" 1
         [serialNumber chassis.SerialNumber chassis.SKU,
          systemManufacturer chassis.Manufacturer, "temperature", chassis.ID,
          t.Name, t.MemberID],
       Sample.mk "chassis_temperature_celsius" 42
         [serialNumber chassis.SerialNumber chassis.SKU,
          systemManufacturer chassis.Manufacturer, "temperature", chassis.ID,
          t.Name, t.MemberID]] ∧
    (∀ x ∈ samplesOf (ChassisCollector.Collect c), x.key ∉ powerSupplyKeys) := by
  have hid : ChassisCollector.identitySamples chassis =
      [Sample.mk "chassis_health" 1
         [serialNumber chassis.SerialNumber chassis.SKU,
          systemManufacturer chassis.Manufacturer, "chassis", chassis.ID],
       Sample.mk "chassis_state" 1
         [serialNumber chassis.SerialNumber chassis.SKU,
          systemManufacturer chassis.Manufacturer, "chassis", chassis.ID]] := by
    unfold ChassisCollector.identitySamples
    rw [hhealth, hstate]
    rfl
  have hdel : deliveredSamples (ChassisCollector.Collect c) =
      [Sample.mk "chassis_health" 1
         [serialNumber chassis.SerialNumber chassis.SKU,
          systemManufacturer chassis.Manufacturer, "chassis", chassis.ID],
       Sample.mk "chassis_state" 1
         [serialNumber chassis.SerialNumber chassis.SKU,
          systemManufacturer chassis.Manufacturer, "chassis", chassis.ID]] := by
    rw [deliveredSamples_ChassisCollector_Collect, henum]
    simp only [List.flatMap_cons, List.flatMap_nil, List.append_nil]
    exact hid
  have hspawn := spawn_mem_ChassisCollector_Collect c chassis [chassis]
    { Temperatures := [t], Fans := [] } t henum (List.mem_singleton.2 rfl) hthermal
    (List.mem_singleton.2 rfl)
  have htask : parseChassisTemperature (serialNumber chassis.SerialNumber chassis.SKU)
      (systemManufacturer chassis.Manufacturer) chassis.ID t =
      [Sample.mk "chassis_temperature_sensor_state" 1
         [serialNumber chassis.SerialNumber chassis.SKU,
          systemManufacturer chassis.Manufacturer, "temperature", chassis.ID,
          t.Name, t.MemberID],
       Sample.mk "chassis_temperature_celsius" 42
         [serialNumber chassis.SerialNumber chassis.SKU,
          systemManufacturer chassis.Manufacturer, "temperature", chassis.ID,
          t.Name, t.MemberID]] := by
    unfold parseChassisTemperature
    rw [htstate, hreading]
    rfl
  rw [htask] at hspawn
  have hall := samplesOf_scenario_single_chassis c chassis t henum hhealth hstate hthermal
    hreading htstate hpower
  refine ⟨hdel, hspawn, ChassisCollector_no_wait c,
    allJoined_false_of_spawn _ _ _ hspawn (ChassisCollector_no_wait c "wg"), ?_, hall.1,
    hall.2⟩
  intro hperm
  have hlen := hperm.length_eq
  rw [hdel] at hlen
  simp only [List.length_cons, List.length_nil] at hlen
  omega

/-- C16, on the example endpoint, whose only chassis is the chassis of the scenario: when the
chassis collector returns, the samples on the channel for certain are the health and the
state of the chassis, and the temperature task is not joined. -/
theorem scenario_single_chassis_unjoined_witness :
    deliveredSamples (ChassisCollector.Collect exampleClient) =
      [Sample.mk "chassis_health" 1 ["CZ1", "HPE", "chassis", "1"],
       Sample.mk "chassis_state" 1 ["CZ1", "HPE", "chassis", "1"]] ∧
    allJoined (ChassisCollector.Collect exampleClient) = false :=
  ⟨(scenario_single_chassis_unjoined exampleClient exampleChassis
      { Name := "Inlet", MemberID := "0", Status := { State := "Enabled", Health := "OK" },
        ReadingCelsius := 42 }
      rfl rfl rfl rfl rfl rfl rfl).1,
   by decide⟩

/-! ## Theorems: processor decode and drive capacity -/

theorem tdiv_twice_nonneg (a : ℤ) (h : 0 ≤ a) :
    (a.tdiv 1024).tdiv 1024 = a.tdiv 1048576 := by
  have h1 : a.tdiv 1024 = a / 1024 := Int.tdiv_eq_ediv h (by decide)
  have h2 : 0 ≤ a / 1024 := by omega
  rw [h1, Int.tdiv_eq_ediv h2 (by decide), Int.tdiv_eq_ediv h (by decide)]
  omega

theorem tdiv_twice (a : ℤ) : (a.tdiv 1024).tdiv 1024 = a.tdiv 1048576 := by
  rcases le_total 0 a with h | h
  · exact tdiv_twice_nonneg a h
  · have hb : 0 ≤ -a := by omega
    have := tdiv_twice_nonneg (-a) hb
    rw [Int.neg_tdiv, Int.neg_tdiv, Int.neg_tdiv] at this
    exact neg_injective this

theorem tdiv_gibibytes (n : ℕ) :
    ((((n : ℤ) * 1073741824).tdiv 1024).tdiv 1024) = (n : ℤ) * 1024 := by
  have h : (0 : ℤ) ≤ (n : ℤ) * 1073741824 := by positivity
  rw [tdiv_twice, Int.tdiv_eq_ediv h (by decide)]
  omega

/-- C21: when a processor document decodes with a JSON number as `MaxSpeedMHz`, the same
document with a JSON string in its place decodes too, to a processor that differs at most in
`MaxSpeedMHz`; and when `strconv.ParseFloat` rejects the string with the value 0, as it does
for a malformed number, `MaxSpeedMHz` is 0. -/
theorem processor_decode_tolerates_string
    (parseFloat : String → FloatValue × Option GoError)
    (others : Except GoError Processor) (q : ℚ) (s : String) (p : Processor)
    (h : Processor.UnmarshalJSON parseFloat
      { others := others, MaxSpeedMHz := some (JSON.number q) } = Except.ok p) :
    ∃ p', Processor.UnmarshalJSON parseFloat
        { others := others, MaxSpeedMHz := some (JSON.string s) } = Except.ok p' ∧
      { p' with MaxSpeedMHz := FloatValue.finite 0 }
        = { p with MaxSpeedMHz := FloatValue.finite 0 } ∧
      (∀ e, parseFloat s = (FloatValue.finite 0, some e) →
        p'.MaxSpeedMHz = FloatValue.finite 0) := by
  cases others with
  | error err =>
    simp [Processor.UnmarshalJSON, unmarshalProcessor, unmarshalProcessorString] at h
  | ok t =>
    simp only [Processor.UnmarshalJSON, unmarshalProcessor, Except.ok.injEq] at h
    subst h
    simp only [Processor.UnmarshalJSON, unmarshalProcessor, unmarshalProcessorString]
    by_cases hs : s = ""
    · rw [if_neg (not_not.2 hs)]
      exact ⟨_, rfl, rfl, fun _ _ => rfl⟩
    · rw [if_pos hs]
      rcases hpf : parseFloat s with ⟨v, _ | e⟩
      · exact ⟨_, rfl, rfl, fun _ _ => rfl⟩
      · refine ⟨_, rfl, rfl, fun e' he' => ?_⟩
        exact congrArg Prod.fst he'

/-- C21, on the example processor with the string "fast", which the example `ParseFloat`
rejects: the document with the number 2400 decodes, and so does the one with the string. -/
theorem processor_decode_tolerates_string_witness :
    ∃ p', Processor.UnmarshalJSON exampleParseFloat
        { others := Except.ok exampleProcessor, MaxSpeedMHz := some (JSON.string "fast") }
          = Except.ok p' ∧
      { p' with MaxSpeedMHz := FloatValue.finite 0 }
        = { ({ exampleProcessor with MaxSpeedMHz := FloatValue.finite 2400 } : Processor) with
            MaxSpeedMHz := FloatValue.finite 0 } :=
  (processor_decode_tolerates_string exampleParseFloat (Except.ok exampleProcessor) 2400
    "fast" { exampleProcessor with MaxSpeedMHz := FloatValue.finite 2400 } rfl).imp
    (fun _ h => ⟨h.1, h.2.1⟩)

/-- C27: in the fallback of the processor decode the parsed clock speed is thrown away.
Whatever value `strconv.ParseFloat` returns without error, the decoded `MaxSpeedMHz` is 0:
so the string "2400", parsed as 2400, gives 0; and it is when the parse fails that the value
returned along with the error is stored. -/
theorem processor_parsed_speed_discarded (v : FloatValue) (t : Processor) (s : String)
    (e : GoError) :
    Processor.UnmarshalJSON (fun _ => (v, none))
        { others := Except.ok t, MaxSpeedMHz := some (JSON.string s) }
      = Except.ok { t with MaxSpeedMHz := FloatValue.finite 0 } ∧
    Processor.UnmarshalJSON (fun _ => (v, some e))
        { others := Except.ok t, MaxSpeedMHz := some (JSON.string "fast") }
      = Except.ok { t with MaxSpeedMHz := v } ∧
    (exampleParseFloat "2400").1 = FloatValue.finite 2400 ∧
    (exampleParseFloat "2400").2.isNone = true ∧
    (Processor.UnmarshalJSON exampleParseFloat
        (exampleProcessorDocument (JSON.string "2400"))).toOption.map
          (fun p => p.MaxSpeedMHz) = some (FloatValue.finite 0) := by
  refine ⟨?_, rfl, by decide, by decide, by decide⟩
  simp only [Processor.UnmarshalJSON, unmarshalProcessor, unmarshalProcessorString]
  split <;> rfl

/-- C22: the capacity sample that `parseDellDrive` writes for a device has the value of
`CapacityBytes` divided by 1024 and again by 1024, with the truncating division of Go
integers, and that is `CapacityBytes` divided by 1048576, for every `CapacityBytes`. -/
theorem dell_capacity_divides_twice (sn : String) (device : Device) :
    Sample.mk "system_storage_drive_capacity"
        (((device.CapacityBytes.tdiv 1024).tdiv 1024 : ℤ) : ℚ)
        [sn, "drive", device.Name, device.Model] ∈ parseDellDrive sn device ∧
    (∀ x ∈ parseDellDrive sn device, x.key = "system_storage_drive_capacity" →
      x.value = ((device.CapacityBytes.tdiv 1048576 : ℤ) : ℚ)) ∧
    (device.CapacityBytes.tdiv 1024).tdiv 1024 = device.CapacityBytes.tdiv 1048576 := by
  refine ⟨?_, ?_, tdiv_twice _⟩
  · simp [parseDellDrive]
  · intro x hx hk
    simp only [parseDellDrive, List.mem_append, List.mem_singleton] at hx
    rcases hx with hx | rfl
    · rw [statusSample_key _ _ _ x hx] at hk
      exact absurd hk (by decide)
    · show (((device.CapacityBytes.tdiv 1024).tdiv 1024 : ℤ) : ℚ) = _
      rw [tdiv_twice]

/-- C22, on the example device of 1073741824 bytes: its capacity sample has the value of
1073741824 divided by 1048576. -/
theorem dell_capacity_divides_twice_witness :
    Sample.mk "system_storage_drive_capacity" 1024 ["S1", "drive", "Disk.Bay.0", "ST1000"]
      ∈ parseDellDrive "S1" exampleDellDevice ∧
    (Sample.mk "system_storage_drive_capacity" 1024
      ["S1", "drive", "Disk.Bay.0", "ST1000"]).value =
        (((exampleDellDevice.CapacityBytes).tdiv 1048576 : ℤ) : ℚ) :=
  ⟨by decide,
   (dell_capacity_divides_twice "S1" exampleDellDevice).2.1 _ (by decide) rfl⟩

/-- C23: a Dell device of N gibibytes is reported with the capacity N times 1024, its size in
mebibytes, while an HPE drive with `CapacityGB` N is reported with the capacity N: for one
gibibyte the two values are 1024 and 1. -/
theorem dell_capacity_in_mebibytes (sn : String) (n : ℕ) (device : Device) (drive : Drive) :
    Sample.mk "system_storage_drive_capacity" ((n : ℚ) * 1024)
        [sn, "drive", device.Name, device.Model]
      ∈ parseDellDrive sn { device with CapacityBytes := (n : ℤ) * 1073741824 } ∧
    Sample.mk "system_storage_drive_capacity" (n : ℚ)
        [sn, "drive", drive.Location, drive.Model]
      ∈ parseHpDrive sn { drive with CapacityGB := (n : ℤ) } ∧
    Sample.mk "system_storage_drive_capacity" 1024 ["S1", "drive", "Disk.Bay.0", "ST1000"]
      ∈ parseDellDrive "S1" exampleDellDevice ∧
    Sample.mk "system_storage_drive_capacity" 1 ["S1", "drive", "1I:1:1", "EG0300"]
      ∈ parseHpDrive "S1" exampleHpDrive := by
  refine ⟨?_, ?_, by decide, by decide⟩
  · simp only [parseDellDrive, List.mem_append, List.mem_singleton]
    right
    rw [tdiv_gibibytes]
    push_cast
    rfl
  · simp only [parseHpDrive, List.mem_append, List.mem_singleton]
    right
    push_cast
    rfl

/-! ## Lemmas: descriptors and label values -/

theorem wellFormed_iff (metrics : List (String × Desc)) (key : String)
    (labelValues : List String) :
    wellFormed metrics key labelValues = true ↔
      ∃ desc, metrics.lookup key = some desc ∧
        labelValues.length = desc.variableLabels.length := by
  unfold wellFormed
  cases metrics.lookup key with
  | none => simp
  | some desc => simp

theorem statusSample_wellFormed (metrics : List (String × Desc)) (r : Nat × Bool)
    (key : String) (labels : List String) (x : Sample) (hx : x ∈ statusSample r key labels)
    (h : wellFormed metrics key labels = true) :
    wellFormed metrics x.key x.labelValues = true := by
  rw [statusSample_key _ _ _ x hx, statusSample_labels _ _ _ x hx]
  exact h

theorem parseChassisTemperature_wellFormed (sn m id : String) (t : Temperature) (x : Sample)
    (hx : x ∈ parseChassisTemperature sn m id t) :
    wellFormed chassisMetrics x.key x.labelValues = true := by
  simp only [parseChassisTemperature, List.mem_append, List.mem_singleton] at hx
  rcases hx with hx | rfl
  · exact statusSample_wellFormed _ _ _ _ x hx rfl
  · rfl

theorem parseChassisFan_wellFormed (sn m id : String) (f : Fan) (x : Sample)
    (hx : x ∈ parseChassisFan sn m id f) :
    wellFormed chassisMetrics x.key x.labelValues = true := by
  simp only [parseChassisFan, List.mem_append, List.mem_singleton] at hx
  rcases hx with (hx | hx) | rfl
  · exact statusSample_wellFormed _ _ _ _ x hx rfl
  · exact statusSample_wellFormed _ _ _ _ x hx rfl
  · rfl

theorem parseChassisPowerInfoPowerSupply_wellFormed (sn m id : String) (ps : PowerSupply)
    (x : Sample) (hx : x ∈ parseChassisPowerInfoPowerSupply sn m id ps) :
    wellFormed chassisMetrics x.key x.labelValues = true := by
  simp only [parseChassisPowerInfoPowerSupply, List.mem_append, List.mem_cons,
    List.mem_singleton, List.not_mem_nil, or_false] at hx
  rcases hx with (hx | hx) | rfl | rfl
  · exact statusSample_wellFormed _ _ _ _ x hx rfl
  · exact statusSample_wellFormed _ _ _ _ x hx rfl
  · rfl
  · rfl

theorem parsePorcessor_wellFormed (sn : String) (p : Processor) (x : Sample)
    (hx : x ∈ parsePorcessor sn p) :
    wellFormed systemMetrics x.key x.labelValues = true := by
  simp only [parsePorcessor, List.mem_append, List.mem_cons, List.mem_singleton,
    List.not_mem_nil, or_false] at hx
  rcases hx with (hx | hx) | rfl | rfl
  · exact statusSample_wellFormed _ _ _ _ x hx rfl
  · exact statusSample_wellFormed _ _ _ _ x hx rfl
  · rfl
  · rfl

theorem parseHpDrive_wellFormed (sn : String) (d : Drive) (x : Sample)
    (hx : x ∈ parseHpDrive sn d) :
    wellFormed systemMetrics x.key x.labelValues = true := by
  simp only [parseHpDrive, List.mem_append, List.mem_singleton] at hx
  rcases hx with hx | rfl
  · exact statusSample_wellFormed _ _ _ _ x hx rfl
  · rfl

theorem parseDellDrive_wellFormed (sn : String) (d : Device) (x : Sample)
    (hx : x ∈ parseDellDrive sn d) :
    wellFormed systemMetrics x.key x.labelValues = true := by
  simp only [parseDellDrive, List.mem_append, List.mem_singleton] at hx
  rcases hx with hx | rfl
  · exact statusSample_wellFormed _ _ _ _ x hx rfl
  · rfl

theorem chassisIdentity_wellFormed (chassis : Chassis) (x : Sample)
    (hx : x ∈ ChassisCollector.identitySamples chassis) :
    wellFormed chassisMetrics x.key x.labelValues = true := by
  simp only [ChassisCollector.identitySamples, List.mem_append] at hx
  rcases hx with hx | hx
  · exact statusSample_wellFormed _ _ _ _ x hx rfl
  · exact statusSample_wellFormed _ _ _ _ x hx rfl

theorem systemIdentity_wellFormed (system : ComputerSystem) (x : Sample)
    (hx : x ∈ SystemCollector.identitySamples system) :
    wellFormed systemMetrics x.key x.labelValues = true := by
  simp only [SystemCollector.identitySamples, List.mem_append, List.mem_singleton] at hx
  rcases hx with (((((((hx | hx) | hx) | hx) | hx) | rfl) | hx) | hx) | rfl
  · exact statusSample_wellFormed _ _ _ _ x hx rfl
  · exact statusSample_wellFormed _ _ _ _ x hx rfl
  · exact statusSample_wellFormed _ _ _ _ x hx rfl
  · exact statusSample_wellFormed _ _ _ _ x hx rfl
  · exact statusSample_wellFormed _ _ _ _ x hx rfl
  · rfl
  · exact statusSample_wellFormed _ _ _ _ x hx rfl
  · exact statusSample_wellFormed _ _ _ _ x hx rfl
  · rfl

theorem ChassisCollector_wellFormed (c : Client) (x : Sample)
    (hx : x ∈ samplesOf (ChassisCollector.Collect c)) :
    wellFormed chassisMetrics x.key x.labelValues = true := by
  rw [samplesOf_ChassisCollector_Collect] at hx
  split at hx
  · simp at hx
  · obtain ⟨ch, _, hch⟩ := List.mem_flatMap.1 hx
    rw [samplesOf_collectChassis, samplesOf_thermalBranch, samplesOf_powerBranch] at hch
    simp only [List.mem_append] at hch
    rcases hch with (h | h) | h
    · exact chassisIdentity_wellFormed ch x h
    · split at h
      · rcases List.mem_append.1 h with h | h
        · obtain ⟨t, _, ht⟩ := List.mem_flatMap.1 h
          exact parseChassisTemperature_wellFormed _ _ _ t x ht
        · obtain ⟨f, _, hf⟩ := List.mem_flatMap.1 h
          exact parseChassisFan_wellFormed _ _ _ f x hf
      · simp at h
    · split at h
      · obtain ⟨ps, _, hps⟩ := List.mem_flatMap.1 h
        exact parseChassisPowerInfoPowerSupply_wellFormed _ _ _ ps x hps
      · simp at h

theorem SystemCollector_wellFormed (c : Client) (x : Sample)
    (hx : x ∈ samplesOf (SystemCollector.Collect c)) :
    wellFormed systemMetrics x.key x.labelValues = true := by
  rw [samplesOf_SystemCollector_Collect] at hx
  split at hx
  · simp at hx
  · obtain ⟨sy, _, hsy⟩ := List.mem_flatMap.1 hx
    rw [samplesOf_collectSystem] at hsy
    simp only [List.mem_append] at hsy
    rcases hsy with (h | h) | h
    · exact systemIdentity_wellFormed sy x h
    · rw [samplesOf_processorBranch] at h
      split at h
      · simp at h
      · obtain ⟨p, _, hp⟩ := List.mem_flatMap.1 h
        exact parsePorcessor_wellFormed _ p x hp
    · rcases mem_samplesOf_storageBranch c sy x h with ⟨d, hd⟩ | ⟨d, hd⟩
      · exact parseHpDrive_wellFormed _ d x hd
      · exact parseDellDrive_wellFormed _ d x hd

/-! ## Theorems: descriptors, decode safety, configuration and handler -/

/-- C24: every sample of the chassis collector is built from a key that `chassisMetrics`
defines, with as many label values as that descriptor has label names, and likewise every
sample of the system collector with `systemMetrics`; the descriptor, and with it the label
schema, is determined by the key. -/
theorem samples_well_formed (c : Client) :
    (∀ x ∈ samplesOf (ChassisCollector.Collect c),
      ∃ desc, chassisMetrics.lookup x.key = some desc ∧
        x.labelValues.length = desc.variableLabels.length) ∧
    (∀ x ∈ samplesOf (SystemCollector.Collect c),
      ∃ desc, systemMetrics.lookup x.key = some desc ∧
        x.labelValues.length = desc.variableLabels.length) :=
  ⟨fun x hx => (wellFormed_iff _ _ _).1 (ChassisCollector_wellFormed c x hx),
   fun x hx => (wellFormed_iff _ _ _).1 (SystemCollector_wellFormed c x hx)⟩

/-- C24, on the example endpoint: the temperature reading is on the channel, and its
descriptor is defined with six label names for its six label values. -/
theorem samples_well_formed_witness :
    Sample.mk "chassis_temperature_celsius" 42 ["CZ1", "HPE", "temperature", "1", "Inlet", "0"]
      ∈ samplesOf (ChassisCollector.Collect exampleClient) ∧
    ∃ desc, chassisMetrics.lookup "chassis_temperature_celsius" = some desc ∧
      ["CZ1", "HPE", "temperature", "1", "Inlet", "0"].length = desc.variableLabels.length :=
  ⟨by decide,
   (samples_well_formed exampleClient).1
     (Sample.mk "chassis_temperature_celsius" 42
       ["CZ1", "HPE", "temperature", "1", "Inlet", "0"]) (by decide)⟩

/-- C25: `ComputerSystem.UnmarshalJSON` ends in the run-time panic of a failed type assertion
when the vendor block has an unexpected shape: an `Oem.Hp` value that is not an object, an
`Oem.Hp.links` value that is not an object, a link entry that is not an object, an `href` of
the smart-storage or memory link that is not a string, an `Oem.Hp.Battery` value that is not
an array, a battery item that is not an object, or a `Condition` that is not a string. -/
theorem vendor_shape_panics :
    (∃ msg, ComputerSystem.UnmarshalJSON
      (Except.ok (exampleHpFields (JSON.string "iLO"))) = Except.error (Failure.panic msg)) ∧
    (∃ msg, ComputerSystem.UnmarshalJSON
      (Except.ok (exampleHpFields (JSON.object [("links", JSON.array [])])))
        = Except.error (Failure.panic msg)) ∧
    (∃ msg, ComputerSystem.UnmarshalJSON
      (Except.ok (exampleHpFields
        (JSON.object [("links", JSON.object [("SmartStorage", JSON.string "/x")])])))
        = Except.error (Failure.panic msg)) ∧
    (∃ msg, ComputerSystem.UnmarshalJSON
      (Except.ok (exampleHpFields
        (JSON.object [("links", JSON.object
          [("SmartStorage", JSON.object [("href", JSON.number 5)])])])))
        = Except.error (Failure.panic msg)) ∧
    (∃ msg, ComputerSystem.UnmarshalJSON
      (Except.ok (exampleHpFields
        (JSON.object [("links", JSON.object
          [("Memory", JSON.object [("href", JSON.null)])])])))
        = Except.error (Failure.panic msg)) ∧
    (∃ msg, ComputerSystem.UnmarshalJSON
      (Except.ok (exampleHpFields (JSON.object [("Battery", JSON.object [])])))
        = Except.error (Failure.panic msg)) ∧
    (∃ msg, ComputerSystem.UnmarshalJSON
      (Except.ok (exampleHpFields (JSON.object [("Battery", JSON.array [JSON.string "Ok"])])))
        = Except.error (Failure.panic msg)) ∧
    (∃ msg, ComputerSystem.UnmarshalJSON
      (Except.ok (exampleHpFields
        (JSON.object [("Battery", JSON.array [JSON.object [("Condition", JSON.number 1)]])])))
        = Except.error (Failure.panic msg)) :=
  ⟨⟨_, rfl⟩, ⟨_, rfl⟩, ⟨_, rfl⟩, ⟨_, rfl⟩, ⟨_, rfl⟩, ⟨_, rfl⟩, ⟨_, rfl⟩, ⟨_, rfl⟩⟩

/-- C26: `HostConfigForGroup` returns the host configuration stored under the group name and
no error when the group is configured, and the empty host configuration with the error
"no credentials found for group" followed by the name when it is not; either way the stored
configuration is the same afterwards. -/
theorem hostConfigForGroup_contract (sc : SafeConfig) (group : String) :
    (∀ hostConfig, sc.C.Groups.lookup group = some hostConfig →
      sc.HostConfigForGroup group = ((hostConfig, none), sc)) ∧
    (sc.C.Groups.lookup group = none →
      sc.HostConfigForGroup group =
        (({ Username := "", Password := "", BasicAuth := "" },
          some (GoError.failure ("no credentials found for group " ++ group))), sc)) ∧
    (sc.HostConfigForGroup group).2 = sc := by
  unfold SafeConfig.HostConfigForGroup
  cases sc.C.Groups.lookup group with
  | none => exact ⟨fun _ h => (by cases h), fun _ => rfl, rfl⟩
  | some hc =>
    refine ⟨fun hostConfig h => ?_, fun h => (by cases h), rfl⟩
    cases h
    rfl

/-- C26, on the example configuration: the group "dell" is configured and its credentials
are returned; the group "hpe" is not and the error names it. -/
theorem hostConfigForGroup_contract_witness :
    exampleSafeConfig.HostConfigForGroup "dell" =
      (({ Username := "root", Password := "calvin", BasicAuth := "" }, none),
        exampleSafeConfig) ∧
    exampleSafeConfig.HostConfigForGroup "hpe" =
      (({ Username := "", Password := "", BasicAuth := "" },
        some (GoError.failure ("no credentials found for group " ++ "hpe"))),
        exampleSafeConfig) :=
  ⟨(hostConfigForGroup_contract exampleSafeConfig "dell").1 _ rfl,
   (hostConfigForGroup_contract exampleSafeConfig "hpe").2.1 rfl⟩

/-- C28: a request with a non-empty target and no `group` parameter, or with an empty
`group` value, ends in the dereference of the nil `hostConfig`: no collector is built.  With
an empty target the handler answers 400 before that. -/
theorem handler_without_group_dereferences_nil (sc : SafeConfig)
    (connect : ClientConfig → Except GoError Client) (target : String) :
    metricsHandler sc connect target [] =
      (if target = "" then
        HandlerOutcome.httpError "'target' parameter must be specified" 400
      else HandlerOutcome.nilDereference) ∧
    metricsHandler sc connect target [""] =
      (if target = "" then
        HandlerOutcome.httpError "'target' parameter must be specified" 400
      else HandlerOutcome.nilDereference) ∧
    metricsHandler exampleSafeConfig exampleBasicAuthOnly "10.0.0.1" []
      = HandlerOutcome.nilDereference ∧
    metricsHandler exampleSafeConfig exampleBasicAuthOnly "10.0.0.1" [""]
      = HandlerOutcome.nilDereference := by
  refine ⟨?_, ?_, rfl, rfl⟩
  · unfold metricsHandler
    split <;> rfl
  · unfold metricsHandler
    split <;> rfl

/-- C29: `NewRedfishCollector` connects with `BasicAuth` set exactly when the configured
string is not empty: the collector is the one built from the outcome of `redfish.Connect` on
that configuration.  With a `Connect` that accepts basic authentication only, the strings
"false" and "0" give a client and the empty string gives none. -/
theorem basic_auth_iff_nonempty (connect : ClientConfig → Except GoError Client)
    (host username password basicauth : String) :
    NewRedfishCollector connect host username password basicauth =
      (match connect { Endpoint := "https://" ++ host, Username := username,
                       Password := password, Insecure := true,
                       BasicAuth := decide (basicauth ≠ "") } with
        | Except.error _ => { redfishClient := none, collectors := [] }
        | Except.ok redfishClient =>
          { redfishClient := some redfishClient,
            collectors := [("chassis", SubCollector.chassis redfishClient),
                           ("system", SubCollector.system redfishClient)] }) ∧
    (NewRedfishCollector exampleBasicAuthOnly host username password
      "false").redfishClient.isSome = true ∧
    (NewRedfishCollector exampleBasicAuthOnly host username password
      "0").redfishClient.isSome = true ∧
    (NewRedfishCollector exampleBasicAuthOnly host username password
      "").redfishClient.isSome = false := by
  refine ⟨?_, rfl, rfl, rfl⟩
  have hb : (if basicauth ≠ "" then true else false) = decide (basicauth ≠ "") := by
    by_cases h : basicauth = "" <;> simp [h]
  unfold NewRedfishCollector newRedfishClient
  simp only [hb]

/-- C30: the descriptor `system_storage_drive_state` is declared in `systemMetrics`, and no
sample of `SystemCollector.Collect`, of `parseHpDrive` or of `parseDellDrive` has its key;
for every drive and every device the leaf writes at most one health sample and exactly one
capacity sample, and nothing else, and the state of the drive is not read. -/
theorem drive_state_never_emitted (c : Client) (sn : String) (drive : Drive)
    (device : Device) :
    (systemMetrics.lookup "system_storage_drive_state").isSome = true ∧
    (∀ x ∈ samplesOf (SystemCollector.Collect c), x.key ≠ "system_storage_drive_state") ∧
    (∀ x ∈ parseHpDrive sn drive ++ parseDellDrive sn device,
      x.key = "system_storage_drive_health_state" ∨
      x.key = "system_storage_drive_capacity") ∧
    ((parseHpDrive sn drive).countP
        (fun x => decide (x.key = "system_storage_drive_health_state")) ≤ 1 ∧
      (parseHpDrive sn drive).countP
        (fun x => decide (x.key = "system_storage_drive_capacity")) = 1) ∧
    ((parseDellDrive sn device).countP
        (fun x => decide (x.key = "system_storage_drive_health_state")) ≤ 1 ∧
      (parseDellDrive sn device).countP
        (fun x => decide (x.key = "system_storage_drive_capacity")) = 1) := by
  have hstatus : ∀ (r : Nat × Bool) (labels : List String),
      (statusSample r "system_storage_drive_health_state" labels).countP
          (fun x => decide (x.key = "system_storage_drive_health_state")) ≤ 1 ∧
        (statusSample r "system_storage_drive_health_state" labels).countP
          (fun x => decide (x.key = "system_storage_drive_capacity")) = 0 := by
    intro r labels
    unfold statusSample
    split
    · constructor
      · exact (List.countP_le_length _).trans (le_of_eq rfl)
      · rw [List.countP_eq_zero]
        intro x hx
        rw [List.mem_singleton.1 hx]
        dsimp only
        decide
    · exact ⟨Nat.zero_le _, rfl⟩
  refine ⟨by decide, ?_, ?_, ?_, ?_⟩
  · intro x hx hk
    have := SystemCollector_keys c x hx
    rw [hk] at this
    exact absurd this (by decide)
  · intro x hx
    have : x.key ∈ ["system_storage_drive_health_state", "system_storage_drive_capacity"] := by
      rcases List.mem_append.1 hx with h | h
      · exact parseHpDrive_keys sn drive x h
      · exact parseDellDrive_keys sn device x h
    simpa using this
  · unfold parseHpDrive
    simp only [List.countP_append]
    have h := hstatus (parseCommonStatusHealth drive.Status.Health)
      [sn, "drive", drive.Location, drive.Model]
    refine ⟨?_, ?_⟩
    · have h0 : List.countP (fun x => decide (x.key = "system_storage_drive_health_state"))
          [Sample.mk "system_storage_drive_capacity" (drive.CapacityGB : ℚ)
            [sn, "drive", drive.Location, drive.Model]] = 0 := by
        rw [List.countP_eq_zero]; intro x hx; rw [List.mem_singleton.1 hx]; dsimp only; decide
      rw [h0]; exact h.1
    · rw [h.2]; rfl
  · unfold parseDellDrive
    simp only [List.countP_append]
    have h := hstatus (parseCommonStatusHealth device.Status.Health)
      [sn, "drive", device.Name, device.Model]
    refine ⟨?_, ?_⟩
    · have h0 : List.countP (fun x => decide (x.key = "system_storage_drive_health_state"))
          [Sample.mk "system_storage_drive_capacity"
            (((device.CapacityBytes.tdiv 1024).tdiv 1024 : ℤ) : ℚ)
            [sn, "drive", device.Name, device.Model]] = 0 := by
        rw [List.countP_eq_zero]; intro x hx; rw [List.mem_singleton.1 hx]; dsimp only; decide
      rw [h0]; exact h.1
    · rw [h.2]; rfl

/-- C30, on the example drive: both of its samples are health and capacity samples. -/
theorem drive_state_never_emitted_witness :
    Sample.mk "system_storage_drive_capacity" 1 ["S1", "drive", "1I:1:1", "EG0300"]
      ∈ parseHpDrive "S1" exampleHpDrive ++ parseDellDrive "S1" exampleDellDevice ∧
    ((Sample.mk "system_storage_drive_capacity" 1 ["S1", "drive", "1I:1:1", "EG0300"]).key
        = "system_storage_drive_health_state" ∨
      (Sample.mk "system_storage_drive_capacity" 1 ["S1", "drive", "1I:1:1", "EG0300"]).key
        = "system_storage_drive_capacity") :=
  ⟨by decide,
   (drive_state_never_emitted exampleClient "S1" exampleHpDrive exampleDellDevice).2.2.1 _
     (by decide)⟩

end Rackserver
